import Mathlib

/-!
# ODROID-M1 JIG self-test: a shallow embedding of the test orchestration code

The definitions below follow `src/check_device/header.c` and `src/main.c`.
C `int` values are `Int`, array indices are `Nat`, and C truth is
"different from 0".  Calls into the display library (`ui_set_ritem`,
`ui_set_sitem`, `ui_update`), `printf` and the LEDs have no effect on the
state the properties talk about and are left out; every other external call is
recorded in a trace.
-/

namespace M1Jig

/-! ## check_device/header.c -/

/-- Not Control: `#define NC 0`. -/
def NC : Int := 0

/-- The GPIO number behind each pin of the 40 pin header (index 0 is unused). -/
def HEADER40 : List Int := [
  NC,
  NC,  NC,
  NC,  NC,
  NC,  NC,
  14, 126,
  NC, 127,
  16, 120,
  17,  NC,
  106, 118,
  NC, 119,
  89,  NC,
  88, 121,
  91,  90,
  NC, 122,
  12,  11,
  145,  NC,
  142, 123,
  13,  NC,
  125, 124,
  NC,  NC,
  NC,  NC]

/-- The value of `#define PATTERN_COUNT 4`. -/
def PATTERN_COUNT : Int := 4

/-- The four output patterns: all high, all low, cross 0, cross 1.  The C rows
are wider than 41 entries and zero filled; only the first 41 are ever read. -/
def H40_PATTERN : List (List Int) := [
  [ NC,
    NC,  NC,
    NC,  NC,
    NC,  NC,
    1,   1,
    NC,  1,
    1,   1,
    1,  NC,
    1,   1,
    NC,  1,
    1,  NC,
    1,   1,
    1,   1,
    NC,  1,
    1,   1,
    1,  NC,
    1,   1,
    1,  NC,
    1,   1,
    NC,  NC,
    NC,  NC],
  [ NC,
    NC,  NC,
    NC,  NC,
    NC,  NC,
    0,   0,
    NC,  0,
    0,   0,
    0,  NC,
    0,   0,
    NC,  0,
    0,  NC,
    0,   0,
    0,   0,
    NC,  0,
    0,   0,
    0,  NC,
    0,   0,
    0,  NC,
    0,   0,
    NC,  NC,
    NC,  NC],
  [ NC,
    NC,  NC,
    NC,  NC,
    NC,  NC,
    0,   1,
    NC,  0,
    1,   0,
    0,  NC,
    1,   0,
    NC,  1,
    0,  NC,
    1,   0,
    0,   1,
    NC,  0,
    0,   1,
    1,  NC,
    0,   1,
    1,  NC,
    0,   1,
    NC,  NC,
    NC,  NC],
  [ NC,
    NC,  NC,
    NC,  NC,
    NC,  NC,
    1,   0,
    NC,  1,
    0,   1,
    1,  NC,
    0,   1,
    NC,  0,
    1,  NC,
    0,   1,
    1,   0,
    NC,  1,
    1,   0,
    0,  NC,
    1,   0,
    0,  NC,
    1,   0,
    NC,  NC,
    NC,  NC]]

/-- The read `HEADER40[i]`. -/
def header40 (i : Nat) : Int := HEADER40.getD i 0

/-- The read `H40_PATTERN[id][i]` for a pattern index `id` inside the table. -/
def h40_pattern (id : Int) (i : Nat) : Int := (H40_PATTERN.getD id.toNat []).getD i 0

/-- The body of the `for` loop of `header_pattern_check`, run over the pin
indices still to visit: the first pin out of range ends the function with 0,
and running off the end of the loop reaches the final `return 1`. -/
def header_pattern_scan (id : Int) (pattern40 : Nat → Int) : List Nat → Int
  | [] => 1
  | i :: rest =>
    if header40 i ≠ 0 then
      if h40_pattern id i ≠ 0 then
        if pattern40 i < 3000 then 0 else header_pattern_scan id pattern40 rest
      else
        if pattern40 i > 300 then 0 else header_pattern_scan id pattern40 rest
    else header_pattern_scan id pattern40 rest

/-- The function `header_pattern_check (int id, int *pattern40)`; `pattern40` is
the sample memory, read at the indices `0 .. 40`. -/
def header_pattern_check (id : Int) (pattern40 : Nat → Int) : Int :=
  if id < PATTERN_COUNT then
    header_pattern_scan id pattern40 (List.range HEADER40.length)
  else 1

/-- What the classification demands of the sample at pin `i` under pattern
`id`: at least 3000 mV on a pin driven high, at most 300 mV on a pin driven
low, nothing on a pin that is not controlled. -/
def pin_ok (id : Int) (pattern40 : Nat → Int) (i : Nat) : Prop :=
  header40 i ≠ 0 →
    (h40_pattern id i ≠ 0 → 3000 ≤ pattern40 i) ∧ (h40_pattern id i = 0 → pattern40 i ≤ 300)

/-- A perfect read back of pattern 2 (cross 0) with the sample of one pin replaced. -/
def cross0_with (pin : Nat) (mv : Int) : Nat → Int :=
  fun i => if i = pin then mv else if h40_pattern 2 i ≠ 0 then 3300 else 0

/-! ## main.c: the item registry -/

/-- The value of `eRESULT_FAIL`. -/
def eRESULT_FAIL : Int := 0
/-- The value of `eRESULT_PASS`. -/
def eRESULT_PASS : Int := 1

/-- The value of `eSTATUS_WAIT`. -/
def eSTATUS_WAIT : Int := 0
/-- The value of `eSTATUS_RUN`. -/
def eSTATUS_RUN : Int := 1
/-- The value of `eSTATUS_STOP`. -/
def eSTATUS_STOP : Int := 2

def eITEM_BOARD_IP : Nat := 0
def eITEM_SERVER_IP : Nat := 1
def eITEM_MEM : Nat := 2
def eITEM_FB : Nat := 3
def eITEM_EDID : Nat := 4
def eITEM_HPD : Nat := 5
def eITEM_STATUS : Nat := 6
def eITEM_eMMC : Nat := 7
def eITEM_SATA : Nat := 8
def eITEM_NVME : Nat := 9
def eITEM_MAC_ADDR : Nat := 10
def eITEM_IPERF : Nat := 11
def eITEM_ETHERNET_100M : Nat := 12
def eITEM_ETHERNET_1G : Nat := 13
def eITEM_ETHERNET_LED : Nat := 14
def eITEM_IR : Nat := 15
def eITEM_USB30_UP : Nat := 16
def eITEM_USB30_DN : Nat := 17
def eITEM_USB20_UP : Nat := 18
def eITEM_USB20_DN : Nat := 19
def eITEM_HEADER_PT1 : Nat := 20
def eITEM_HEADER_PT2 : Nat := 21
def eITEM_HEADER_PT3 : Nat := 22
def eITEM_HEADER_PT4 : Nat := 23
def eITEM_SPIBT_UP : Nat := 24
def eITEM_SPIBT_DN : Nat := 25
def eITEM_ADC37 : Nat := 26
def eITEM_ADC40 : Nat := 27
def eITEM_AUDIO_LEFT : Nat := 28
def eITEM_AUDIO_RIGHT : Nat := 29
def eITEM_HPDET_IN : Nat := 30
def eITEM_HPDET_OUT : Nat := 31
def eITEM_END : Nat := 32

def eUI_BOARD_IP : Int := 4
def eUI_SERVER_IP : Int := 24
def eUI_MEM : Int := 8
def eUI_FB : Int := 52
def eUI_EDID : Int := 53
def eUI_HPD : Int := 54
def eUI_STATUS : Int := 47
def eUI_eMMC : Int := 62
def eUI_SATA : Int := 82
def eUI_NVME : Int := 87
def eUI_MAC_ADDR : Int := 102
def eUI_IPERF : Int := 107
def eUI_ETHERNET_100M : Int := 132
def eUI_ETHERNET_1G : Int := 133
def eUI_ETHERNET_LED : Int := 134
def eUI_IR : Int := 127
def eUI_USB30_UP : Int := 143
def eUI_USB30_DN : Int := 153
def eUI_USB20_UP : Int := 148
def eUI_USB20_DN : Int := 158
def eUI_HEADER_PT1 : Int := 172
def eUI_HEADER_PT2 : Int := 173
def eUI_HEADER_PT3 : Int := 174
def eUI_HEADER_PT4 : Int := 175
def eUI_SPIBT_UP : Int := 178
def eUI_SPIBT_DN : Int := 179
def eUI_ADC37 : Int := 192
def eUI_ADC40 : Int := 193
def eUI_AUDIO_LEFT : Int := 196
def eUI_AUDIO_RIGHT : Int := 197
def eUI_HPDET_IN : Int := 198
def eUI_HPDET_OUT : Int := 199

/-- The record `struct check_item`. -/
structure check_item where
  id : Int
  ui_id : Int
  status : Int
  result : Int
  name : String
  deriving DecidableEq, Repr, Inhabited

/-- The initialiser of `m1_item [eITEM_END]`, in registry order. -/
def m1_item_table : List check_item := [
  ⟨eITEM_BOARD_IP,      eUI_BOARD_IP,      eSTATUS_WAIT, eRESULT_FAIL, "bip"⟩,
  ⟨eITEM_SERVER_IP,     eUI_SERVER_IP,     eSTATUS_WAIT, eRESULT_FAIL, "sip"⟩,
  ⟨eITEM_MEM,           eUI_MEM,           eSTATUS_WAIT, eRESULT_FAIL, "mem"⟩,
  ⟨eITEM_FB,            eUI_FB,            eSTATUS_WAIT, eRESULT_FAIL, "fb"⟩,
  ⟨eITEM_EDID,          eUI_EDID,          eSTATUS_WAIT, eRESULT_FAIL, "edid"⟩,
  ⟨eITEM_HPD,           eUI_HPD,           eSTATUS_WAIT, eRESULT_FAIL, "hpd"⟩,
  ⟨eITEM_STATUS,        eUI_STATUS,        eSTATUS_STOP, eRESULT_PASS, "sta"⟩,
  ⟨eITEM_eMMC,          eUI_eMMC,          eSTATUS_WAIT, eRESULT_FAIL, "emmc"⟩,
  ⟨eITEM_SATA,          eUI_SATA,          eSTATUS_WAIT, eRESULT_FAIL, "sata"⟩,
  ⟨eITEM_NVME,          eUI_NVME,          eSTATUS_WAIT, eRESULT_FAIL, "nvme"⟩,
  ⟨eITEM_MAC_ADDR,      eUI_MAC_ADDR,      eSTATUS_WAIT, eRESULT_FAIL, "mac"⟩,
  ⟨eITEM_IPERF,         eUI_IPERF,         eSTATUS_WAIT, eRESULT_FAIL, "iperf"⟩,
  ⟨eITEM_ETHERNET_100M, eUI_ETHERNET_100M, eSTATUS_WAIT, eRESULT_FAIL, "eth-m"⟩,
  ⟨eITEM_ETHERNET_1G,   eUI_ETHERNET_1G,   eSTATUS_WAIT, eRESULT_FAIL, "eth-g"⟩,
  ⟨eITEM_ETHERNET_LED,  eUI_ETHERNET_LED,  eSTATUS_STOP, eRESULT_PASS, "eth-led"⟩,
  ⟨eITEM_IR,            eUI_IR,            eSTATUS_WAIT, eRESULT_FAIL, "ir"⟩,
  ⟨eITEM_USB30_UP,      eUI_USB30_UP,      eSTATUS_WAIT, eRESULT_FAIL, "usb3u"⟩,
  ⟨eITEM_USB30_DN,      eUI_USB30_DN,      eSTATUS_WAIT, eRESULT_FAIL, "usb3d"⟩,
  ⟨eITEM_USB20_UP,      eUI_USB20_UP,      eSTATUS_WAIT, eRESULT_FAIL, "usb2u"⟩,
  ⟨eITEM_USB20_DN,      eUI_USB20_DN,      eSTATUS_WAIT, eRESULT_FAIL, "usb2d"⟩,
  ⟨eITEM_HEADER_PT1,    eUI_HEADER_PT1,    eSTATUS_WAIT, eRESULT_FAIL, "h1"⟩,
  ⟨eITEM_HEADER_PT2,    eUI_HEADER_PT2,    eSTATUS_WAIT, eRESULT_FAIL, "h2"⟩,
  ⟨eITEM_HEADER_PT3,    eUI_HEADER_PT3,    eSTATUS_WAIT, eRESULT_FAIL, "h3"⟩,
  ⟨eITEM_HEADER_PT4,    eUI_HEADER_PT4,    eSTATUS_WAIT, eRESULT_FAIL, "h4"⟩,
  ⟨eITEM_SPIBT_UP,      eUI_SPIBT_UP,      eSTATUS_WAIT, eRESULT_FAIL, "bt-u"⟩,
  ⟨eITEM_SPIBT_DN,      eUI_SPIBT_DN,      eSTATUS_WAIT, eRESULT_FAIL, "bt_d"⟩,
  ⟨eITEM_ADC37,         eUI_ADC37,         eSTATUS_WAIT, eRESULT_FAIL, "adc37"⟩,
  ⟨eITEM_ADC40,         eUI_ADC40,         eSTATUS_WAIT, eRESULT_FAIL, "adc40"⟩,
  ⟨eITEM_AUDIO_LEFT,    eUI_AUDIO_LEFT,    eSTATUS_WAIT, eRESULT_FAIL, "hp-l"⟩,
  ⟨eITEM_AUDIO_RIGHT,   eUI_AUDIO_RIGHT,   eSTATUS_WAIT, eRESULT_FAIL, "hp-r"⟩,
  ⟨eITEM_HPDET_IN,      eUI_HPDET_IN,      eSTATUS_WAIT, eRESULT_FAIL, "hp-i"⟩,
  ⟨eITEM_HPDET_OUT,     eUI_HPDET_OUT,     eSTATUS_WAIT, eRESULT_FAIL, "hp-o"⟩]

/-- The registry `m1_item` as the program starts: entry `i` of the initialiser. -/
def m1_item (i : Nat) : check_item := m1_item_table.getD i ⟨0, 0, 0, 0, ""⟩

/-- A registry holds the items of `m1_item` under their names: only `status`
and `result` are ever assigned. -/
def registry_names (items : Nat → check_item) : Prop :=
  ∀ i, (items i).name = (m1_item i).name

/-! ## main.c: the state and the external calls -/

/-- Modelled from the spec: `check_device/storage.h` is not among the sources;
these are the three device ids `check_device_storage` names. -/
inductive Storage
  | eSTORAGE_eMMC | eSTORAGE_SATA | eSTORAGE_NVME
  deriving DecidableEq, Repr

/-- Modelled from the spec: `check_device/system.h` is not among the sources;
these are the two ids `check_device_system` names. -/
inductive SystemId
  | eSYSTEM_MEM | eSYSTEM_FB_Y
  deriving DecidableEq, Repr

/-- Modelled from the spec: `check_device/adc.h` is not among the sources;
these are the two ids `check_device_adc` names. -/
inductive AdcId
  | eADC_H37 | eADC_H40
  deriving DecidableEq, Repr

/-- Modelled from the spec: `check_device/audio.h` is not among the sources;
these are the two channel ids `check_device_audio` names. -/
inductive AudioId
  | eAUDIO_LEFT | eAUDIO_RIGHT
  deriving DecidableEq, Repr

/-- Modelled from the spec: `check_device/ethernet.h` is not among the sources;
the link speed of 100 Mb/s. -/
def LINK_SPEED_100M : Int := 100
/-- Modelled from the spec: `check_device/ethernet.h` is not among the sources;
the link speed of 1 Gb/s. -/
def LINK_SPEED_1G : Int := 1000

def eHDMI_EDID : Int := 0
def eHDMI_HPD : Int := 1

def eUSB30_UP_R : Int := 0
def eUSB30_DN_R : Int := 1
def eUSB20_UP_R : Int := 2
def eUSB20_DN_R : Int := 3

/-- The value of `#define APP_LOOP_DELAY 500`. -/
def APP_LOOP_DELAY : Int := 500
/-- The value of `#define TIMEOUT_SEC 60`. -/
def TIMEOUT_SEC : Int := 60
/-- The value of `#define IPERF_SPEED_MIN 800`. -/
def IPERF_SPEED_MIN : Int := 800

/-- One entry of the trace: an assignment to `m1_item[item].status` (with the
status it overwrites) or a call of an external function. -/
inductive Call
  | set_status (item : Nat) (old new : Int)
  | get_my_ip
  | nlp_server_find
  | nlp_server_write_err (msg : String)
  | nlp_server_write_mac
  | nlp_server_write_udp (msg : String)
  | hdmi_check (id : Int)
  | system_check (id : SystemId)
  | adc_check (id : AdcId)
  | storage_check (id : Storage)
  | storage_rw (id : Storage)
  | usb_check (id : Int)
  | usb_rw (id : Int)
  | ethernet_link_check
  | ethernet_link_setup (speed : Int)
  | audio_check (id : AudioId)
  | iperf3_speed_check
  | efuse_set_board
  | efuse_control_read
  | efuse_control_write
  | efuse_get_mac
  | efuse_valid_check
  | mac_server_request
  | get_efuse_mac
  | usleep (usec : Int)
  | sleep (sec : Int)
  | header_init
  | header_pattern_set (id : Int)
  | gpio_set_value (gpio value : Int)
  | adc_board_init
  | adc_board_read (name : String)
  deriving DecidableEq, Repr

/-- What the external functions answer during one operation.  A function that
an operation may call several times answers by the number of the call. -/
structure Extern where
  get_my_ip : Int
  nlp_server_find : Int
  hdmi_check : Int → Int
  system_check : SystemId → Int
  adc_check : AdcId → Int
  storage_check : Storage → Int
  storage_rw : Storage → Int
  usb_check : Int → Int
  usb_rw : Int → Int
  ethernet_link_check : Int
  ethernet_link_setup : Int → Int
  audio_check : AudioId → Int
  iperf3_speed_check : Nat → Int
  efuse_control_read : Int
  efuse_control_write : Int
  efuse_valid_check : Nat → Int
  mac_server_request : Int
  get_efuse_mac : Nat → Int

/-- The fields of `client_t` that decide a branch.  The display handles and the
character buffers `nlp_ip`, `efuse_data` and `mac` only carry data between
external calls. -/
structure client_t where
  adc_fd : Int
  channel : Int
  test_model : Int
  board_mem : Int
  eth_switch : Int
  deriving DecidableEq, Repr

/-- The globals of `main.c`, the client record and the trace. -/
structure World where
  m1_item : Nat → check_item
  TimeoutStop : Int
  EventIR : Int
  JackStatus : Int
  client : client_t
  trace : List Call

/-- The program state as `main` starts: the initialised globals and the zeroed
client record. -/
def world_init : World :=
  { m1_item := m1_item, TimeoutStop := TIMEOUT_SEC, EventIR := 0, JackStatus := 0,
    client := ⟨0, 0, 0, 0, 0⟩, trace := [] }

/-- The assignment `m1_item[i].status = s`. -/
def set_status (i : Nat) (s : Int) (w : World) : World :=
  { w with
    m1_item := fun j => if j = i then { w.m1_item j with status := s } else w.m1_item j,
    trace := w.trace ++ [Call.set_status i (w.m1_item i).status s] }

/-- The assignment `m1_item[i].result = r`. -/
def set_result (i : Nat) (r : Int) (w : World) : World :=
  { w with
    m1_item := fun j => if j = i then { w.m1_item j with result := r } else w.m1_item j }

/-- A call of an external function. -/
def call (c : Call) (w : World) : World :=
  { w with trace := w.trace ++ [c] }

/-- The trace an operation writes when it runs from `w`. -/
def acts (f : World → World) (w : World) : List Call :=
  (f { w with trace := [] }).trace

/-! ## main.c: errcode_print -/

/-- The value of `#define PRINT_MAX_CHAR 50`. -/
def PRINT_MAX_CHAR : Nat := 50
/-- The value of `#define PRINT_MAX_LINE 2`. -/
def PRINT_MAX_LINE : Nat := 2

/-- The locals `pos`, `line` and `err_msg` of `errcode_print`.  `err_msg l` is
the C string that starts at `err_msg[l][0]`.  The rows are not bounded here:
the C array has `PRINT_MAX_LINE` of them, and `line` tells which rows a run
has written.  A run is a run of the C function only while `line` stays below
`PRINT_MAX_LINE`, which `errcode_fits` states; beyond that the C function
writes outside its array. -/
structure ErrBuf where
  pos : Nat
  line : Nat
  err_msg : Nat → List Char

/-- The C string of a zero terminated row after `sprintf (&row[pos], ...)` has
written the text `s` there: the write shows only when it starts at or before the
row's terminator. -/
def sprintf_at (row : List Char) (pos : Nat) (s : List Char) : List Char :=
  if pos ≤ row.length then row.take pos ++ s else row

/-- The body of the `for` loop of `errcode_print` for one item.  The `sprintf`
goes to row `line` whatever its value, as in the source, which never compares
`line` with `PRINT_MAX_LINE`; a row from `PRINT_MAX_LINE` on is outside the C
array, so the body describes the code only while `line < PRINT_MAX_LINE`. -/
def errcode_body (it : check_item) (s : ErrBuf) : ErrBuf :=
  if it.result = 0 then
    let s1 : ErrBuf :=
      if s.pos + it.name.length + 1 > PRINT_MAX_CHAR then
        { s with pos := 0, line := s.line + 1 }
      else s
    { pos := s1.pos + (it.name.length + 1),
      line := s1.line,
      err_msg := Function.update s1.err_msg s1.line
        (sprintf_at (s1.err_msg s1.line) s1.pos (it.name.data ++ [','])) }
  else s

/-- The state of `errcode_print` after the loop has handled the items `0 .. i-1`,
starting from `pos = 0`, `line = 0` and the zeroed buffer. -/
def errcode_scan (items : Nat → check_item) : Nat → ErrBuf
  | 0 => { pos := 0, line := 0, err_msg := fun _ => [] }
  | i + 1 => errcode_body (items i) (errcode_scan items i)

/-- The messages `errcode_print` hands to `nlp_server_write`, in order: the rows
`0 .. line` when `pos || line`, and none otherwise. -/
def errcode_sent (items : Nat → check_item) : List String :=
  let s := errcode_scan items eITEM_END
  if s.pos ≠ 0 ∨ s.line ≠ 0 then
    (List.range (s.line + 1)).map (fun i => String.mk (s.err_msg i))
  else []

/-- The value `errcode_print` returns. -/
def errcode_ret (items : Nat → check_item) : Int :=
  let s := errcode_scan items eITEM_END
  if s.pos ≠ 0 ∨ s.line ≠ 0 then 1 else 0

/-- The failing names of a registry in registry order, each followed by the
separator: the text a report is made of. -/
def fail_chunks (items : Nat → check_item) (n : Nat) : List String :=
  ((List.range n).filter (fun i => (items i).result = 0)).map (fun i => (items i).name ++ ",")

/-- The name `name` stands in one of the lines, between separators. -/
def reported (name : String) (lines : List String) : Prop :=
  ∃ l ∈ lines, (',' :: (name.data ++ [','])) <:+: (',' :: l.data)

instance (name : String) (lines : List String) : Decidable (reported name lines) := by
  unfold reported; infer_instance

/-- The function `errcode_print`: the messages go to the companion server one
by one, and the value returned tells whether there was any. -/
def errcode_print (w : World) : World × Int :=
  ({ w with trace := w.trace ++ (errcode_sent w.m1_item).map Call.nlp_server_write_err },
   errcode_ret w.m1_item)

/-- Facts about the state of `errcode_print` after `n` items that hold along
the loop. -/
structure ErrInv (items : Nat → check_item) (n : Nat) (s : ErrBuf) : Prop where
  pos_eq : s.pos = (s.err_msg s.line).length
  above : ∀ l, s.line < l → s.err_msg l = []
  len_le : ∀ l, (s.err_msg l).length ≤ PRINT_MAX_CHAR
  join_eq : ((List.range (s.line + 1)).map s.err_msg).flatten =
    ((fail_chunks items n).map String.data).flatten
  nonempty : ∀ l, l < s.line → s.err_msg l ≠ []
  comma : ∀ l, ∃ r, ',' :: s.err_msg l = r ++ [',']
  zero_iff : (s.pos = 0 ∧ s.line = 0) ↔ ∀ i, i < n → (items i).result ≠ 0
  line_zero : s.pos = 0 → s.line = 0
  token : ∀ i, i < n → (items i).result = 0 →
    ∃ l, l ≤ s.line ∧ (',' :: ((items i).name.data ++ [','])) <:+: (',' :: s.err_msg l)

/-- The two colours the final status indicator can take. -/
inductive Color
  | COLOR_RED | COLOR_GREEN
  deriving DecidableEq, Repr

/-- The report at the end of `check_status`: the MAC message when the identity
item passed, then `err = errcode_print (p)` and the colour
`err ? COLOR_RED : COLOR_GREEN` of the status indicator. -/
def check_status_report (w : World) : World × Color :=
  let w1 := if (w.m1_item eITEM_MAC_ADDR).result ≠ 0 then call Call.nlp_server_write_mac w else w
  let r := errcode_print w1
  (r.1, if r.2 ≠ 0 then Color.COLOR_RED else Color.COLOR_GREEN)

/-- The line `errcode_print` is building when its loop reaches item `n`. -/
def cur_row (items : Nat → check_item) (n : Nat) : List Char :=
  (errcode_scan items n).err_msg (errcode_scan items n).line

/-- The registry `m1_item` with the results replaced. -/
def with_results (r : Nat → Int) : Nat → check_item :=
  fun i => { m1_item i with result := r i }

/-! ## main.c: the check operations -/

/-- The function `check_server`. -/
def check_server (x : Extern) (w : World) : World × Int :=
  let w1 := set_status eITEM_SERVER_IP eSTATUS_RUN w
  let w2 := set_status eITEM_BOARD_IP eSTATUS_RUN w1
  let w3 := call Call.get_my_ip w2
  if x.get_my_ip ≠ 0 then
    let w4 := set_result eITEM_BOARD_IP eRESULT_PASS w3
    let w5 := set_status eITEM_BOARD_IP eSTATUS_STOP w4
    let w6 := call Call.nlp_server_find w5
    if x.nlp_server_find ≠ 0 then
      let w7 := set_result eITEM_SERVER_IP eRESULT_PASS w6
      let w8 := set_status eITEM_SERVER_IP eSTATUS_STOP w7
      (w8, 1)
    else (w6, 0)
  else (w3, 0)

/-- One of the two blocks of `check_device_hdmi` (EDID, HPD), which differ in
the item and the id only. -/
def check_device_hdmi_item (x : Extern) (item : Nat) (id : Int) (w : World) : World :=
  if (w.m1_item item).result = 0 then
    let w1 := set_status item eSTATUS_RUN w
    let w2 := call (Call.hdmi_check id) w1
    let value := x.hdmi_check id
    let w3 := set_result item (if value ≠ 0 then eRESULT_PASS else eRESULT_FAIL) w2
    set_status item eSTATUS_STOP w3
  else w

/-- The function `check_device_hdmi`. -/
def check_device_hdmi (x : Extern) (w : World) : World × Int :=
  let w1 := check_device_hdmi_item x eITEM_EDID eHDMI_EDID w
  let w2 := check_device_hdmi_item x eITEM_HPD eHDMI_HPD w1
  (w2, 1)

/-- The memory block of `check_device_system`: `if (TimeoutStop) { ... }`. -/
def check_device_system_mem (x : Extern) (w : World) : World :=
  if w.TimeoutStop ≠ 0 then
    let a := set_status eITEM_MEM eSTATUS_RUN w
    let b := call (Call.system_check SystemId.eSYSTEM_MEM) a
    let value := x.system_check SystemId.eSYSTEM_MEM
    let c := { b with client := { b.client with board_mem := value } }
    let d :=
      if c.client.test_model ≠ 0 then c
      else set_result eITEM_MEM (if value ≠ 0 then eRESULT_PASS else eRESULT_FAIL) c
    set_status eITEM_MEM eSTATUS_STOP d
  else w

/-- The framebuffer block of `check_device_system`. -/
def check_device_system_fb (x : Extern) (w : World) : World :=
  if (w.m1_item eITEM_FB).result = 0 then
    let a := set_status eITEM_FB eSTATUS_RUN w
    let b := call (Call.system_check SystemId.eSYSTEM_FB_Y) a
    let value := x.system_check SystemId.eSYSTEM_FB_Y
    let c := set_result eITEM_FB (if value = 1080 then eRESULT_PASS else eRESULT_FAIL) b
    set_status eITEM_FB eSTATUS_STOP c
  else w

/-- The last statement of `check_device_system`: the memory item fails when a
test model is set and the board memory differs from it. -/
def check_device_system_model (w : World) : World :=
  if w.client.test_model ≠ 0 ∧ w.client.test_model ≠ w.client.board_mem then
    set_result eITEM_MEM eRESULT_FAIL w
  else w

/-- The function `check_device_system`: its three statements in order. -/
def check_device_system (x : Extern) (w : World) : World × Int :=
  (check_device_system_model (check_device_system_fb x (check_device_system_mem x w)), 1)

/-- One of the two blocks of `check_device_adc` (ADC37, ADC40), which differ in
the item and the id only. -/
def check_device_adc_item (x : Extern) (item : Nat) (id : AdcId) (w : World) : World :=
  if (w.m1_item item).result = 0 then
    let w1 := set_status item eSTATUS_RUN w
    let w2 := call (Call.adc_check id) w1
    let adc_value := x.adc_check id
    let w3 := set_result item (if adc_value ≠ 0 then eRESULT_PASS else eRESULT_FAIL) w2
    set_status item eSTATUS_STOP w3
  else w

/-- The function `check_device_adc`. -/
def check_device_adc (x : Extern) (w : World) : World × Int :=
  let w1 := check_device_adc_item x eITEM_ADC37 AdcId.eADC_H37 w
  let w2 := check_device_adc_item x eITEM_ADC40 AdcId.eADC_H40 w1
  (w2, 1)

/-- The statement `if (efuse_control (p->efuse_data, EFUSE_READ)) { ... }` of
`check_mac_addr`, entered after the call of `efuse_control`; `efuse_valid_check`
answers its first call by `x.efuse_valid_check 0` and its second by
`x.efuse_valid_check 1`. -/
def check_mac_addr_fuse (x : Extern) (w : World) : World :=
  if x.efuse_control_read ≠ 0 then
    let a := call Call.efuse_get_mac w
    let b := call Call.efuse_valid_check a
    if x.efuse_valid_check 0 = 0 then
      let c := call Call.mac_server_request b
      if x.mac_server_request ≠ 0 then
        let d := call Call.efuse_control_write c
        if x.efuse_control_write ≠ 0 then
          let e := call Call.efuse_get_mac d
          let f := call Call.efuse_valid_check e
          if x.efuse_valid_check 1 ≠ 0 then set_result eITEM_MAC_ADDR eRESULT_PASS f else f
        else d
      else c
    else set_result eITEM_MAC_ADDR eRESULT_PASS b
  else w

/-- The function `check_mac_addr`. -/
def check_mac_addr (x : Extern) (w : World) : World × Int :=
  let w1 := call Call.efuse_set_board w
  let w2 := set_status eITEM_MAC_ADDR eSTATUS_RUN w1
  let w3 := call Call.efuse_control_read w2
  let w4 := check_mac_addr_fuse x w3
  let w5 := set_status eITEM_MAC_ADDR eSTATUS_STOP w4
  if (w5.m1_item eITEM_MAC_ADDR).result ≠ 0 then (w5, 1) else (w5, 0)

/-- One attempt of `check_iperf_speed`: the statements from the label
`retry_iperf` down to the assignment of STOP.  The measurement is the answer to
call number `k` of `iperf3_speed_check`. -/
def iperf_attempt (x : Extern) (k : Nat) (w : World) : World :=
  let w1 := set_status eITEM_IPERF eSTATUS_RUN w
  let w2 := call (Call.nlp_server_write_udp "start") w1
  let w3 := call (Call.usleep (APP_LOOP_DELAY * 1000)) w2
  let w4 := call Call.iperf3_speed_check w3
  let value := x.iperf3_speed_check k
  let w5 := call (Call.nlp_server_write_udp "stop") w4
  let w6 := call (Call.usleep (APP_LOOP_DELAY * 1000)) w5
  let w7 := set_result eITEM_IPERF
    (if value > IPERF_SPEED_MIN then eRESULT_PASS else eRESULT_FAIL) w6
  set_status eITEM_IPERF eSTATUS_STOP w7

/-- The body of `check_iperf_speed` from the label `retry_iperf` on, with
`retry` retries left and `k` measurements taken so far. -/
def check_iperf_retry (x : Extern) : Nat → Nat → World → World
  | 0, k, w =>
    let w8 := iperf_attempt x k w
    if (w8.m1_item eITEM_IPERF).result = 0 then
      call (Call.usleep (APP_LOOP_DELAY * 1000)) w8
    else w8
  | retry + 1, k, w =>
    let w8 := iperf_attempt x k w
    if (w8.m1_item eITEM_IPERF).result = 0 then
      check_iperf_retry x retry (k + 1) (call (Call.usleep (APP_LOOP_DELAY * 1000)) w8)
    else w8

/-- The function `check_iperf_speed`, which starts with `retry = 3`. -/
def check_iperf_speed (x : Extern) (w : World) : World × Int :=
  (check_iperf_retry x 3 0 w, 1)

/-- The number of entries `c` in a trace. -/
def count_calls (c : Call) (t : List Call) : Nat := t.count c

/-! ## main.c: the IR reader and the event dispatch -/

def eEVENT_NONE : Int := 0
def eEVENT_ETH_GLED : Int := 1
def eEVENT_ETH_OLED : Int := 2
def eEVENT_HP_L : Int := 3
def eEVENT_HP_R : Int := 4
def eEVENT_MAC_PRINT : Int := 5
def eEVENT_STOP : Int := 6
def eEVENT_ENTER : Int := 7
def eEVENT_BACK : Int := 8
def eEVENT_END : Int := 9

/-- Event types of `<linux/input.h>`, a system header. -/
def EV_SYN : Int := 0
def EV_KEY : Int := 1
def EV_SW : Int := 5
/-- Switch code of `<linux/input.h>`. -/
def SW_HEADPHONE_INSERT : Int := 2
/-- Key codes of `<linux/input.h>`. -/
def KEY_ENTER : Int := 28
def KEY_HOME : Int := 102
def KEY_LEFT : Int := 105
def KEY_RIGHT : Int := 106
def KEY_VOLUMEDOWN : Int := 114
def KEY_VOLUMEUP : Int := 115
def KEY_MENU : Int := 139
def KEY_BACK : Int := 158

/-- The fields of `struct input_event` the readers look at. -/
structure input_event where
  type : Int
  code : Int
  value : Int
  deriving DecidableEq, Repr

/-- The inner `switch (event.code)` of `check_device_ir`: the value it assigns
to `EventIR`. -/
def ir_key_event (code : Int) : Int :=
  if code = KEY_HOME then eEVENT_STOP
  else if code = KEY_VOLUMEDOWN then eEVENT_ETH_GLED
  else if code = KEY_VOLUMEUP then eEVENT_ETH_OLED
  else if code = KEY_MENU then eEVENT_MAC_PRINT
  else if code = KEY_LEFT then eEVENT_HP_L
  else if code = KEY_RIGHT then eEVENT_HP_R
  else if code = KEY_ENTER then eEVENT_ENTER
  else if code = KEY_BACK then eEVENT_BACK
  else eEVENT_NONE

/-- What `check_device_ir` does with one event it has read: the
`switch (event.type)`. -/
def check_device_ir_event (event : input_event) (w : World) : World :=
  if event.type = EV_SYN then w
  else if event.type = EV_KEY then
    let w1 := set_result eITEM_IR eRESULT_PASS w
    let w2 := set_status eITEM_IR eSTATUS_STOP w1
    { w2 with EventIR := ir_key_event event.code }
  else w

/-- What `check_hp_detect` does with one event it has read. -/
def check_hp_detect_event (event : input_event) (w : World) : World :=
  if event.type = EV_SYN then w
  else if event.type = EV_SW then
    if event.code = SW_HEADPHONE_INSERT then
      if event.value ≠ 0 then
        let w1 := set_status eITEM_HPDET_IN eSTATUS_STOP w
        let w2 := set_result eITEM_HPDET_IN eRESULT_PASS w1
        { w2 with JackStatus := 1 }
      else
        let w1 := set_status eITEM_HPDET_OUT eSTATUS_STOP w
        let w2 := set_result eITEM_HPDET_OUT eRESULT_PASS w1
        { w2 with JackStatus := 0 }
    else w
  else w

/-- The locals of the thread `check_spibt` that live across its polls: `status`,
and the number of calls of `get_efuse_mac` made so far. -/
structure SpibtLocal where
  status : Int
  reads : Nat
  deriving DecidableEq, Repr

/-- One of the two blocks of the loop of `check_spibt` (SPIBT_UP, SPIBT_DN),
which differ in the item only.  `get_efuse_mac` returns 0 or 1, so the `char`
that holds `status` keeps the value. -/
def check_spibt_item (x : Extern) (item : Nat) (l : SpibtLocal) (w : World) :
    World × SpibtLocal :=
  if (w.m1_item item).result ≠ eRESULT_PASS then
    let w1 := call Call.get_efuse_mac w
    if l.status ≠ x.get_efuse_mac l.reads then
      let w2 := call Call.get_efuse_mac w1
      let w3 := set_result item eRESULT_PASS w2
      (set_status item eSTATUS_STOP w3, ⟨x.get_efuse_mac (l.reads + 1), l.reads + 2⟩)
    else (w1, ⟨l.status, l.reads + 1⟩)
  else (w, l)

/-- One round of the loop of `check_spibt`. -/
def check_spibt_poll (x : Extern) (l : SpibtLocal) (w : World) : World × SpibtLocal :=
  let r1 := check_spibt_item x eITEM_SPIBT_UP l w
  let r2 := check_spibt_item x eITEM_SPIBT_DN r1.2 r1.1
  (call (Call.usleep (APP_LOOP_DELAY * 1000)) r2.1, r2.2)

/-- The second block of `check_device_ethernet` and its final `return 0`. -/
def check_device_ethernet_1g (x : Extern) (speed : Int) (w : World) : World × Int :=
  if w.EventIR = eEVENT_ETH_OLED ∧ speed ≠ LINK_SPEED_1G then
    let w1 := set_status eITEM_ETHERNET_1G eSTATUS_RUN w
    let w2 := call (Call.ethernet_link_setup LINK_SPEED_1G) w1
    if x.ethernet_link_setup LINK_SPEED_1G ≠ 0 then
      let w3 := set_status eITEM_ETHERNET_1G eSTATUS_STOP w2
      (set_result eITEM_ETHERNET_1G eRESULT_PASS w3, 1)
    else (w2, 0)
  else (w, 0)

/-- The function `check_device_ethernet`. -/
def check_device_ethernet (x : Extern) (w : World) : World × Int :=
  let w0 := call Call.ethernet_link_check w
  let speed := x.ethernet_link_check
  if w0.EventIR = eEVENT_ETH_GLED ∧ speed ≠ LINK_SPEED_100M then
    let w1 := set_status eITEM_ETHERNET_100M eSTATUS_RUN w0
    let w2 := call (Call.ethernet_link_setup LINK_SPEED_100M) w1
    if x.ethernet_link_setup LINK_SPEED_100M ≠ 0 then
      let w3 := set_status eITEM_ETHERNET_100M eSTATUS_STOP w2
      (set_result eITEM_ETHERNET_100M eRESULT_PASS w3, 1)
    else check_device_ethernet_1g x speed w2
  else check_device_ethernet_1g x speed w0

/-- The second block of `check_device_audio` and its final `return 1`. -/
def check_device_audio_right (x : Extern) (w : World) : World × Int :=
  if w.EventIR = eEVENT_HP_R then
    let w1 := call (Call.audio_check AudioId.eAUDIO_RIGHT) w
    if x.audio_check AudioId.eAUDIO_RIGHT ≠ 0 then
      let w2 := set_result eITEM_AUDIO_RIGHT eRESULT_PASS w1
      (set_status eITEM_AUDIO_RIGHT eSTATUS_STOP w2, 1)
    else (w1, 0)
  else (w, 1)

/-- The function `check_device_audio`. -/
def check_device_audio (x : Extern) (w : World) : World × Int :=
  if w.JackStatus = 0 then (w, 0)
  else if w.EventIR = eEVENT_HP_L then
    let w1 := call (Call.audio_check AudioId.eAUDIO_LEFT) w
    if x.audio_check AudioId.eAUDIO_LEFT ≠ 0 then
      let w2 := set_result eITEM_AUDIO_LEFT eRESULT_PASS w1
      check_device_audio_right x (set_status eITEM_AUDIO_LEFT eSTATUS_STOP w2)
    else (w1, 0)
  else check_device_audio_right x w

/-- One of the three blocks of the loop of `check_device_storage`, which differ
in the item and the device only.  The text of `sprintf (str, "%d MB/s", value)`
goes to the display only and is left out; the block describes the code for a
measurement whose text fits `char str[10]`, which `str_fits` states. -/
def check_device_storage_item (x : Extern) (item : Nat) (id : Storage) (w : World) : World :=
  if (w.m1_item item).result = 0 then
    let w0 := call (Call.storage_check id) w
    if x.storage_check id ≠ 0 then
      let w1 := set_status item eSTATUS_RUN w0
      let w2 := call (Call.storage_rw id) w1
      let value := x.storage_rw id
      let w3 := set_result item (if value ≠ 0 then eRESULT_PASS else eRESULT_FAIL) w2
      if (w3.m1_item item).result ≠ 0 then set_status item eSTATUS_STOP w3 else w3
    else w0
  else w

/-- One round of the loop of `check_device_storage`; the flag tells that the
loop was left through `break`. -/
def check_device_storage_poll (x : Extern) (w : World) : World × Bool :=
  let w1 := check_device_storage_item x eITEM_eMMC Storage.eSTORAGE_eMMC w
  let w2 := check_device_storage_item x eITEM_SATA Storage.eSTORAGE_SATA w1
  let w3 := check_device_storage_item x eITEM_NVME Storage.eSTORAGE_NVME w2
  if (w3.m1_item eITEM_eMMC).result ≠ 0 ∧ (w3.m1_item eITEM_SATA).result ≠ 0 ∧
      (w3.m1_item eITEM_NVME).result ≠ 0 then (w3, true)
  else (call (Call.usleep (APP_LOOP_DELAY * 1000)) w3, false)

/-- One of the four blocks of the loop of `check_device_usb`, which differ in
the item and the port only.  The text of `sprintf (str, "%d MB/s", value)` goes
to the display only and is left out; the block describes the code for a
measurement whose text fits `char str[10]`, which `str_fits` states. -/
def check_device_usb_item (x : Extern) (item : Nat) (id : Int) (w : World) : World :=
  if (w.m1_item item).result = 0 then
    let w0 := call (Call.usb_check id) w
    if x.usb_check id ≠ 0 then
      let w1 := set_status item eSTATUS_RUN w0
      let w2 := call (Call.usb_rw id) w1
      let value := x.usb_rw id
      let w3 := set_result item (if value ≠ 0 then eRESULT_PASS else eRESULT_FAIL) w2
      set_status item eSTATUS_STOP w3
    else w0
  else w

/-- One round of the loop of `check_device_usb`; the flag tells that the loop
was left through `break`. -/
def check_device_usb_poll (x : Extern) (w : World) : World × Bool :=
  let w1 := check_device_usb_item x eITEM_USB30_UP eUSB30_UP_R w
  let w2 := check_device_usb_item x eITEM_USB30_DN eUSB30_DN_R w1
  let w3 := check_device_usb_item x eITEM_USB20_UP eUSB20_UP_R w2
  let w4 := check_device_usb_item x eITEM_USB20_DN eUSB20_DN_R w3
  if (w4.m1_item eITEM_USB30_UP).result ≠ 0 ∧ (w4.m1_item eITEM_USB30_DN).result ≠ 0 ∧
      (w4.m1_item eITEM_USB20_UP).result ≠ 0 ∧ (w4.m1_item eITEM_USB20_DN).result ≠ 0 then
    (w4, true)
  else (call (Call.usleep (APP_LOOP_DELAY * 1000)) w4, false)

/-- The event dispatch at the end of one round of the loop of `main`: the
`if (EventIR != eEVENT_NONE)` statement.  The flag tells that `main` returned. -/
def main_dispatch (x : Extern) (w : World) : World × Bool :=
  if w.EventIR ≠ eEVENT_NONE then
    if w.EventIR = eEVENT_ETH_GLED ∨ w.EventIR = eEVENT_ETH_OLED then
      ({ (check_device_ethernet x w).1 with EventIR := eEVENT_NONE }, false)
    else if w.EventIR = eEVENT_HP_L ∨ w.EventIR = eEVENT_HP_R then
      ({ (check_device_audio x w).1 with EventIR := eEVENT_NONE }, false)
    else if w.EventIR = eEVENT_MAC_PRINT then
      let w1 :=
        if (w.m1_item eITEM_MAC_ADDR).result ≠ 0 then call Call.nlp_server_write_mac w else w
      ({ w1 with EventIR := eEVENT_NONE }, false)
    else if w.EventIR = eEVENT_STOP then
      ({ w with TimeoutStop := 0, EventIR := eEVENT_NONE }, false)
    else if w.EventIR = eEVENT_ENTER then
      let w1 :=
        if (w.m1_item eITEM_IPERF).result = 0 then (check_iperf_speed x w).1 else w
      ({ w1 with EventIR := eEVENT_NONE }, false)
    else if w.EventIR = eEVENT_BACK then
      (w, true)
    else ({ w with EventIR := eEVENT_NONE }, false)
  else (w, false)

/-- The check operations that assign statuses, one constructor each. -/
inductive Op
  | check_server
  | check_device_hdmi
  | check_device_system
  | check_device_adc
  | check_mac_addr
  | check_iperf_speed
  | check_device_ethernet
  | check_device_audio
  | storage_poll
  | usb_poll
  | hp_detect_event (event : input_event)
  | spibt_poll (l : SpibtLocal)
  | ir_event (event : input_event)
  deriving DecidableEq, Repr

/-- The state after an operation. -/
def run_op (x : Extern) : Op → World → World
  | Op.check_server, w => (check_server x w).1
  | Op.check_device_hdmi, w => (check_device_hdmi x w).1
  | Op.check_device_system, w => (check_device_system x w).1
  | Op.check_device_adc, w => (check_device_adc x w).1
  | Op.check_mac_addr, w => (check_mac_addr x w).1
  | Op.check_iperf_speed, w => (check_iperf_speed x w).1
  | Op.check_device_ethernet, w => (check_device_ethernet x w).1
  | Op.check_device_audio, w => (check_device_audio x w).1
  | Op.storage_poll, w => (check_device_storage_poll x w).1
  | Op.usb_poll, w => (check_device_usb_poll x w).1
  | Op.hp_detect_event event, w => check_hp_detect_event event w
  | Op.spibt_poll l, w => (check_spibt_poll x l w).1
  | Op.ir_event event, w => check_device_ir_event event w

/-- External functions that all answer `v`. -/
def extern_const (v : Int) : Extern :=
  { get_my_ip := v, nlp_server_find := v, hdmi_check := fun _ => v,
    system_check := fun _ => v, adc_check := fun _ => v, storage_check := fun _ => v,
    storage_rw := fun _ => v, usb_check := fun _ => v, usb_rw := fun _ => v,
    ethernet_link_check := v, ethernet_link_setup := fun _ => v,
    audio_check := fun _ => v, iperf3_speed_check := fun _ => v,
    efuse_control_read := v, efuse_control_write := v, efuse_valid_check := fun _ => v,
    mac_server_request := v, get_efuse_mac := fun _ => v }

/-- Answers of a board that finds its own address but no companion server. -/
def extern_ip_only : Extern := { extern_const 0 with get_my_ip := 1 }

/-- The state `client_setup` reaches when, after the HDMI and system checks, a
first `check_server` finds the board address but no server, and the next one
does not find the board address either. -/
def world_bip_rearmed : World :=
  (check_server (extern_const 0)
    (check_server extern_ip_only
      (check_device_system (extern_const 0)
        (check_device_hdmi (extern_const 0) world_init).1).1).1).1

/-- The trace entries one guarded block for `item` can write: its probes, and
assignments of RUN or STOP to the status of `item`. -/
def block_entry (item : Nat) (probes : List Call) (c : Call) : Prop :=
  c ∈ probes ∨ ∃ old, c = Call.set_status item old eSTATUS_RUN ∨
    c = Call.set_status item old eSTATUS_STOP

/-- Answers of a board whose link runs at 1 Gb/s and whose probes succeed. -/
def extern_link_1g_ok : Extern := { extern_const 1 with ethernet_link_check := LINK_SPEED_1G }

/-- Answers of a board whose link runs at 1 Gb/s and whose probes fail. -/
def extern_link_1g_fail : Extern := { extern_const 0 with ethernet_link_check := LINK_SPEED_1G }

/-- A press of the volume-down key on the remote. -/
def key_volumedown : input_event := ⟨EV_KEY, KEY_VOLUMEDOWN, 1⟩

/-- A press of the left key on the remote. -/
def key_left : input_event := ⟨EV_KEY, KEY_LEFT, 1⟩

/-- The number of attempts C10 names: the position of the first of the first
four measurements that is above the threshold, and 4 when there is none. -/
def iperf_attempts_expected (m : Nat → Int) : Nat :=
  match (List.range 4).find? (fun j => decide (m j > IPERF_SPEED_MIN)) with
  | some j => j + 1
  | none => 4

/-- The number of measurements the retry loop takes from measurement `k` on with
`retry` retries left. -/
def iperf_attempts_from (m : Nat → Int) : Nat → Nat → Nat
  | 0, _ => 1
  | retry + 1, k => if m k > IPERF_SPEED_MIN then 1 else 1 + iperf_attempts_from m retry (k + 1)

/-- Answers of a companion server that measures 500, 600 and 900 Mbits/sec. -/
def extern_iperf_500_600_900 : Extern :=
  { extern_const 0 with iperf3_speed_check := fun n => [500, 600, 900].getD n 0 }

/-! ## header.c and main.c: the header pattern engine -/

/-- The `for` loop of `pattern_write` over the pin indices still to visit: every
controlled pin is driven to the level the pattern names. -/
def pattern_write_scan (pattern : Int) : List Nat → World → World
  | [], w => w
  | i :: rest, w =>
    pattern_write_scan pattern rest
      (if header40 i ≠ 0 then call (Call.gpio_set_value (header40 i) (h40_pattern pattern i)) w
       else w)

/-- The function `pattern_write` of header.c. -/
def pattern_write (pattern : Int) (w : World) : World × Int :=
  if pattern < PATTERN_COUNT then
    (pattern_write_scan pattern (List.range HEADER40.length) w, 1)
  else (w, 0)

/-- The function `header_pattern_set` of header.c, with its call recorded. -/
def header_pattern_set (id : Int) (w : World) : World × Int :=
  pattern_write id (call (Call.header_pattern_set id) w)

/-- Modelled from the spec: `check_device/header.h` is not among the sources;
the number of patterns `check_header` walks through, one per header item. -/
def eHEADER_END : Nat := 4

/-- The sample memory `pattern40` of `check_header` after the `memset` and
`adc_board_read (p->adc_fd, "CON1", &pattern40[1], &cnt)`: entry 0 stays 0 and
the entries from 1 on hold what the ADC board read. -/
def con1_samples (read : Nat → Int) : Nat → Int :=
  fun j => if j = 0 then 0 else read j

/-- The body of the `for` loop of `check_header` for pattern `i`; `adc_board_read i`
is what the ADC board reads back while pattern `i` is driven. -/
def check_header_item (adc_board_read : Nat → Nat → Int) (i : Nat) (w : World) : World :=
  if (w.m1_item (eITEM_HEADER_PT1 + i)).result = 0 then
    let w1 := set_status (eITEM_HEADER_PT1 + i) eSTATUS_RUN w
    let w2 := (header_pattern_set i w1).1
    let w3 := call (Call.usleep (100 * 1000)) w2
    let w4 := call (Call.adc_board_read "CON1") w3
    let w5 :=
      if header_pattern_check i (con1_samples (adc_board_read i)) ≠ 0 then
        set_result (eITEM_HEADER_PT1 + i) eRESULT_PASS w4
      else set_result (eITEM_HEADER_PT1 + i) eRESULT_FAIL w4
    set_status (eITEM_HEADER_PT1 + i) eSTATUS_STOP w5
  else w

/-- The `for` loop of `check_header` after the patterns `0 .. n-1`. -/
def check_header_loop (adc_board_read : Nat → Nat → Int) : Nat → World → World
  | 0, w => w
  | n + 1, w => check_header_item adc_board_read n (check_header_loop adc_board_read n w)

/-- The function `check_header`; `init` is its static local, returned next to
the state and the value 1. -/
def check_header (adc_board_read : Nat → Nat → Int) (init : Int) (w : World) :
    World × Int × Int :=
  let w0 := if init = 0 then call Call.header_init w else w
  (check_header_loop adc_board_read eHEADER_END w0, 1, 1)

/-- The patterns a trace drives, in order: the ids of its `header_pattern_set`
calls. -/
def header_driven (t : List Call) : List Int :=
  t.filterMap (fun c => match c with
    | Call.header_pattern_set id => some id
    | _ => none)

/-- The header items whose result is FAIL in a registry, as pattern indices in
index order. -/
def header_pending (items : Nat → check_item) : List Int :=
  ((List.range eHEADER_END).filter
    (fun i => (items (eITEM_HEADER_PT1 + i)).result = 0)).map Int.ofNat

/-! ## main.c: the sequencer loop -/

/-- One round of the `while (1)` loop of `main`: the one-shot checks, the header
patterns, the sleep and the event dispatch.  The flag tells that `main`
returned. -/
def main_loop_body (x : Extern) (adc_board_read : Nat → Nat → Int) (init : Int) (w : World) :
    (World × Int) × Bool :=
  let w1 := (check_device_hdmi x w).1
  let w2 := (check_device_system x w1).1
  let w3 := (check_device_adc x w2).1
  let r := check_header adc_board_read init w3
  let w5 := call (Call.usleep (APP_LOOP_DELAY * 1000)) r.1
  let d := main_dispatch x w5
  ((d.1, r.2.1), d.2)

/-! ## main.c: the bootstrap -/

/-- The loop `while (!check_server (p)) usleep (APP_LOOP_DELAY * 1000);` of
`client_setup`, run for at most `fuel` calls; call number `n` of `check_server`
gets the answers `xs n`.  The result is the state in which `client_setup` goes
on, or `none` while the loop is still turning. -/
def client_setup_discover (xs : Nat → Extern) : Nat → Nat → World → Option World
  | 0, _, _ => none
  | fuel + 1, n, w =>
    let r := check_server (xs n) w
    if r.2 ≠ 0 then some r.1
    else client_setup_discover xs fuel (n + 1) (call (Call.usleep (APP_LOOP_DELAY * 1000)) r.1)

/-- The value of `#define TEST_MODEL_NONE 0`. -/
def TEST_MODEL_NONE : Int := 0
/-- The value of `#define TEST_MODEL_4GB 4`. -/
def TEST_MODEL_4GB : Int := 4
/-- The value of `#define TEST_MODEL_8GB 8`. -/
def TEST_MODEL_8GB : Int := 8

/-- Modelled from the spec: `nlp_server_ctrl/nlp_server_ctrl.h` is not among the
sources; the left channel of the companion server. -/
def NLP_SERVER_CHANNEL_LEFT : Int := 0
/-- Modelled from the spec: `nlp_server_ctrl/nlp_server_ctrl.h` is not among the
sources; the right channel of the companion server. -/
def NLP_SERVER_CHANNEL_RIGHT : Int := 1

/-- The function `check_i2cadc`: `adc_board_init` is the handle the ADC library
returns and `adc_board_read name` the value it reads on the named pin. -/
def check_i2cadc (adc_board_init : Int) (adc_board_read : String → Int) (w : World) :
    World × Int :=
  let w1 := call Call.adc_board_init w
  let w2 := { w1 with client := { w1.client with adc_fd := adc_board_init } }
  if w2.client.adc_fd = 0 ∨ w2.client.adc_fd = -1 then (w2, 0)
  else
    let w3 := call (Call.adc_board_read "P13.2") w2
    if adc_board_read "P13.2" > 2000 then
      let w4 := call (Call.adc_board_read "P3.2") w3
      let w5 := { w4 with client := { w4.client with
        channel := if adc_board_read "P3.2" > 4000 then NLP_SERVER_CHANNEL_RIGHT
          else NLP_SERVER_CHANNEL_LEFT } }
      let w6 := { w5 with client := { w5.client with test_model := TEST_MODEL_NONE } }
      let w7 := call (Call.adc_board_read "P3.8") w6
      let w8 :=
        if adc_board_read "P3.8" > 4000 then
          { w7 with client := { w7.client with test_model := TEST_MODEL_4GB } }
        else w7
      let w9 := call (Call.adc_board_read "P3.9") w8
      let w10 :=
        if adc_board_read "P3.9" > 4000 then
          { w9 with client := { w9.client with test_model := TEST_MODEL_8GB } }
        else w9
      (w10, 1)
    else (w3, 0)

/-! ## main.c: the watchdog -/

/-- The count `wait_item_cnt` of `check_status` after the items `0 .. n-1`: the
items whose status is not STOP. -/
def wait_item_cnt (items : Nat → check_item) : Nat → Nat
  | 0 => 0
  | n + 1 =>
    if (items n).status ≠ eSTATUS_STOP then wait_item_cnt items n + 1
    else wait_item_cnt items n

/-- The first part of one round of the heartbeat loop of `check_status`, down to
the `usleep`: `onoff` is toggled and, when it is set, `TimeoutStop` is
decremented under the guard `TimeoutStop && (p->adc_fd != -1)`.  The new
`onoff` is returned next to the state. -/
def check_status_beat (onoff : Int) (w : World) : World × Int :=
  let onoff1 : Int := if onoff = 0 then 1 else 0
  let w1 :=
    if onoff1 ≠ 0 then
      if w.TimeoutStop ≠ 0 ∧ w.client.adc_fd ≠ -1 then
        { w with TimeoutStop := w.TimeoutStop - 1 }
      else w
    else w
  (call (Call.usleep (APP_LOOP_DELAY * 1000)) w1, onoff1)

/-- The block that ends one round of the heartbeat loop: when no item waits,
`TimeoutStop = 0; break;`.  The flag tells that the loop was left. -/
def check_status_stop_test (w : World) : World × Bool :=
  if wait_item_cnt w.m1_item eITEM_END = 0 then ({ w with TimeoutStop := 0 }, true)
  else (w, false)

/-- One round of the heartbeat loop of `check_status`: the new state, the new
`onoff`, and whether the loop was left through `break`. -/
def check_status_iter (onoff : Int) (w : World) : World × Int × Bool :=
  let b := check_status_beat onoff w
  let t := check_status_stop_test b.1
  (t.1, b.2, t.2)

/-- The heartbeat loop `while (TimeoutStop) { ... }` of `check_status`, run for at
most `fuel` rounds on its own; `none` while it is still turning. -/
def check_status_loop : Nat → Int → World → Option (World × Int)
  | 0, _, _ => none
  | fuel + 1, onoff, w =>
    if w.TimeoutStop ≠ 0 then
      let r := check_status_iter onoff w
      if r.2.2 then some (r.1, r.2.1) else check_status_loop fuel r.2.1 r.1
    else some (w, onoff)

/-- A press of the home key on the remote: the emergency stop. -/
def key_home : input_event := ⟨EV_KEY, KEY_HOME, 1⟩

/-- The registry `m1_item` with every status replaced by STOP. -/
def all_stopped_items : Nat → check_item :=
  fun i => { m1_item i with status := eSTATUS_STOP }

/-- The headphone-detect worker fed the events of a list, one after the other. -/
def check_hp_detect_events (events : List input_event) (w : World) : World :=
  events.foldl (fun v e => check_hp_detect_event e v) w

/-- External answers, call by call, of a discovery that succeeds at the call
with number `n` (counted from 0) and not before. -/
def found_at (n : Nat) : Nat → Extern :=
  fun k => if k = n then extern_const 1 else extern_const 0

/-- The three storage items with their devices, in the order of the blocks of
`check_device_storage`. -/
def storage_items : List (Nat × Storage) :=
  [(eITEM_eMMC, Storage.eSTORAGE_eMMC), (eITEM_SATA, Storage.eSTORAGE_SATA),
   (eITEM_NVME, Storage.eSTORAGE_NVME)]

/-- The four USB items with their ports, in the order of the blocks of
`check_device_usb`. -/
def usb_items : List (Nat × Int) :=
  [(eITEM_USB30_UP, eUSB30_UP_R), (eITEM_USB30_DN, eUSB30_DN_R),
   (eITEM_USB20_UP, eUSB20_UP_R), (eITEM_USB20_DN, eUSB20_DN_R)]

/-- The storage blocks of a list of items, run one after the other. -/
def storage_blocks (x : Extern) (ps : List (Nat × Storage)) (w : World) : World :=
  ps.foldl (fun v p => check_device_storage_item x p.1 p.2 v) w

/-- The USB blocks of a list of items, run one after the other. -/
def usb_blocks (x : Extern) (ps : List (Nat × Int)) (w : World) : World :=
  ps.foldl (fun v p => check_device_usb_item x p.1 p.2 v) w

/-- Answers of a board on which every device is present and every measurement
gives 0. -/
def extern_ready_zero : Extern :=
  { extern_const 0 with storage_check := fun _ => 1, usb_check := fun _ => 1 }

/-- An ADC board that reads 0 mV on every pin, whatever is driven. -/
def adc_reads_zero : Nat → Nat → Int := fun _ _ => 0

/-- The state after a first `check_header` during which the ADC board reads
0 mV on every pin. -/
def world_header_once : World := (check_header adc_reads_zero 0 world_init).1

/-- The state at start up with the countdown `TimeoutStop` at 0 and no event
pending. -/
def world_countdown_over : World := { world_init with TimeoutStop := 0 }

/-- The state at start up with the event of the key BACK pending. -/
def world_back_pending : World := { world_init with EventIR := eEVENT_BACK }

/-! ## Inputs of the later theorems -/

/-- The registry after a bootstrap in which every check passed (board and
server address, memory, framebuffer, EDID, HPD, MAC address, iperf) and before
any worker has passed an item. -/
def registry_after_bootstrap (i : Nat) : check_item :=
  if i ∈ [eITEM_BOARD_IP, eITEM_SERVER_IP, eITEM_MEM, eITEM_FB, eITEM_EDID, eITEM_HPD,
      eITEM_MAC_ADDR, eITEM_IPERF] then
    { m1_item i with status := eSTATUS_STOP, result := eRESULT_PASS }
  else m1_item i

/-- Answers in which `iperf3_speed_check` measures `v` at every call. -/
def extern_iperf (v : Int) : Extern := { extern_const 0 with iperf3_speed_check := fun _ => v }

/-- A key event with a code that `check_device_ir` does not map. -/
def key_unmapped : input_event := ⟨EV_KEY, 0, 1⟩

/-- An event of a type other than `EV_SYN` and `EV_KEY`. -/
def event_unknown : input_event := ⟨EV_KEY + 1, KEY_BACK, 1⟩

/-- The state after the `check_device_system` call of `client_setup`, made with
no test model set, on a board whose probes all answer 4. -/
def world_mem_passed : World := (check_device_system (extern_const 4) world_init).1

/-- The state `world_mem_passed` after `check_i2cadc` has found the test model
of 4 GB. -/
def world_model_4gb : World :=
  { world_mem_passed with client := { world_mem_passed.client with test_model := TEST_MODEL_4GB } }

/-- The state at start up with the test model of 4 GB set: the memory item has
its initial result FAIL. -/
def world_model_first : World :=
  { world_init with client := { world_init.client with test_model := TEST_MODEL_4GB } }

/-- The state at start up with the jack inserted and the event of the key LEFT
pending. -/
def world_jack_left : World := { world_init with JackStatus := 1, EventIR := eEVENT_HP_L }

/-! ## main.c: the fuse reader `get_efuse_mac` and the thread `check_spibt` -/

/-- The function `tolowerstr`: `tolower` on every character of the string. -/
def tolowerstr (p : List Char) : List Char := p.map Char.toLower

/-- The libc function `strstr` on strings without their terminator: the part
of `s` that starts at the first occurrence of `pat`, or `none` for NULL. -/
def strstr : List Char → List Char → Option (List Char)
  | [], pat => if pat = [] then some [] else none
  | c :: s, pat => if pat <+: c :: s then some (c :: s) else strstr s pat

/-- The statements of `check_spibt` before its loop: the first call of
`get_efuse_mac`, kept in `status`, and the two assignments of RUN. -/
def check_spibt_init (x : Extern) (w : World) : World × SpibtLocal :=
  let w1 := call Call.get_efuse_mac w
  let w2 := set_status eITEM_SPIBT_UP eSTATUS_RUN w1
  let w3 := set_status eITEM_SPIBT_DN eSTATUS_RUN w2
  (w3, ⟨x.get_efuse_mac 0, 1⟩)

/-- The first `n` rounds of the `while (1)` loop of `check_spibt`. -/
def check_spibt_loop (x : Extern) : Nat → World × SpibtLocal → World × SpibtLocal
  | 0, s => s
  | n + 1, s => check_spibt_poll x (check_spibt_loop x n s).2 (check_spibt_loop x n s).1

/-- The thread `check_spibt` up to the end of round `n` of its loop. -/
def check_spibt (x : Extern) (n : Nat) (w : World) : World × SpibtLocal :=
  check_spibt_loop x n (check_spibt_init x w)

/-! ## Side conditions: the report buffer, the text buffer, the status steps -/

/-- The report of a registry fits the buffer `char err_msg[PRINT_MAX_LINE][PRINT_MAX_CHAR+1]`
of `errcode_print`: the loop ends with `line` below `PRINT_MAX_LINE`, so every
`sprintf` went to a row the array has.  Outside this condition the C function
writes beyond its buffer and `errcode_scan` does not describe it. -/
def errcode_fits (items : Nat → check_item) : Prop :=
  (errcode_scan items eITEM_END).line < PRINT_MAX_LINE

instance (items : Nat → check_item) : Decidable (errcode_fits items) := by
  unfold errcode_fits; infer_instance

/-- The registry in which every item has passed and stopped. -/
def registry_all_passed : Nat → check_item :=
  fun i => { m1_item i with status := eSTATUS_STOP, result := eRESULT_PASS }

/-- The state after a switch to 100 Mb/s has been asked for again on a board on
which every item had passed, and `ethernet_link_setup` has failed this time. -/
def world_eth_rearmed : World :=
  (check_device_ethernet extern_link_1g_fail
    { world_init with m1_item := registry_all_passed, EventIR := eEVENT_ETH_GLED }).1

/-- The registry in which the items 0 to 10, "ir" and "usb3u" have result FAIL:
the names up to "ir" fill the first row to exactly 50 characters. -/
def registry_row_of_50 : Nat → check_item :=
  with_results (fun i => if i ≤ 10 ∨ i = 15 ∨ i = 16 then 0 else 1)

/-- The registry in which exactly "mac" and "usb3u" have result FAIL. -/
def registry_mac_usb3u : Nat → check_item :=
  with_results (fun i => if i = eITEM_MAC_ADDR ∨ i = eITEM_USB30_UP then 0 else 1)

/-- From state `a` to state `b` every status is the one it was, or STOP. -/
def status_kept_or_stop (a b : World) : Prop :=
  ∀ i, (b.m1_item i).status = (a.m1_item i).status ∨ (b.m1_item i).status = eSTATUS_STOP

/-- The text that `sprintf (str, "%d MB/s", value)` writes in the storage and USB
workers, without its terminator. -/
def mbs_text (value : Int) : List Char := (toString value).data ++ " MB/s".data

/-- The text of a measurement and its terminator fit the buffer `char str[10]`
of the storage and USB workers.  For a measurement outside this condition the
`sprintf` writes beyond `str` before the result is assigned, and the item
blocks do not describe the code. -/
def str_fits (value : Int) : Prop := (mbs_text value).length + 1 ≤ 10

instance (value : Int) : Decidable (str_fits value) := by
  unfold str_fits; infer_instance

/-! ## main.c: the fuse reader `get_efuse_mac` -/

/-- What `get_efuse_mac` finds at `/sys/class/efuse/uuid` during one call: the
value `access` returns, whether `fopen` returns a stream, the line `fgets`
reads into `cmd_line` (`none` when it returns NULL), and the bytes that lie
behind the terminator of that line in memory (`behind k` is the byte `k + 1`
places after the terminator). -/
structure efuse_uuid_file where
  access : Int
  fopen : Bool
  fgets : Option (List Char)
  behind : Nat → Char

/-- The byte `*(ptr + i)` for a pointer `ptr` into the line: a character of the
rest of the line, then the terminator, then the bytes behind it. -/
def byte_at (ptr : List Char) (behind : Nat → Char) (i : Nat) : Char :=
  if h : i < ptr.length then ptr.get ⟨i, h⟩
  else if i = ptr.length then Char.ofNat 0
  else behind (i - ptr.length - 1)

/-- The loop `for (i = 0; i < 12; i++) mac_str[i] = *(ptr + i);` of
`get_efuse_mac`. -/
def mac_copy (ptr : List Char) (behind : Nat → Char) (mac_str : List Char) : List Char :=
  (List.range 12).map (byte_at ptr behind) ++ mac_str.drop 12

/-- The function `get_efuse_mac (char *mac_str)`: the buffer `mac_str` after the
call and the value returned. -/
def get_efuse_mac (f : efuse_uuid_file) (mac_str : List Char) : List Char × Int :=
  if f.access ≠ 0 then (mac_str, 0)
  else if f.fopen then
    match f.fgets with
    | some cmd_line =>
      match strstr (tolowerstr cmd_line) "001e06".data with
      | some ptr => (mac_copy ptr f.behind mac_str, 1)
      | none => (mac_str, 0)
    | none => (mac_str, 0)
  else (mac_str, 0)

/-- The fuse value one call of `get_efuse_mac` reads: the 12 characters it
leaves in `mac_str`, or `none` when it returns 0 and writes nothing. -/
def efuse_value (f : efuse_uuid_file) : Option (List Char) :=
  if (get_efuse_mac f []).2 ≠ 0 then some ((get_efuse_mac f []).1.take 12) else none

/-- The answers in which call number `n` of `get_efuse_mac` finds `files n`. -/
def extern_efuse (files : Nat → efuse_uuid_file) : Extern :=
  { extern_const 0 with get_efuse_mac := fun n => (get_efuse_mac (files n) []).2 }

/-- A fuse file that is there and holds the line `line`, with zero bytes behind
it in memory. -/
def efuse_line (line : String) : efuse_uuid_file :=
  ⟨0, true, some line.data, fun _ => Char.ofNat 0⟩

/-- A fuse file that is not there. -/
def efuse_absent : efuse_uuid_file := ⟨-1, false, none, fun _ => Char.ofNat 0⟩

/-- Reads that yield one value at the first call of `get_efuse_mac` and another
value at every later call. -/
def efuse_two_values (n : Nat) : efuse_uuid_file :=
  if n = 0 then efuse_line "001E06AAAAAA\n" else efuse_line "001E06BBBBBB\n"

/-- Reads that yield a value at the calls 0, 1 and 2 and find no file from call
3 on: the first block of the second poll sees the change. -/
def efuse_pulled (n : Nat) : efuse_uuid_file :=
  if n < 3 then efuse_line "001E06AAAAAA\n" else efuse_absent

/-- Reads that yield a value at the calls 0 and 1 and find no file from call 2
on: the second block of the first poll sees the change. -/
def efuse_pulled_early (n : Nat) : efuse_uuid_file :=
  if n < 2 then efuse_line "001E06AAAAAA\n" else efuse_absent

/-! ## Theorems: header pattern classification -/

theorem header_pattern_scan_eq_one (id : Int) (pattern40 : Nat → Int) (l : List Nat) :
    header_pattern_scan id pattern40 l = 1 ↔ ∀ i ∈ l, pin_ok id pattern40 i := by
  induction l with
  | nil => simp [header_pattern_scan]
  | cons i rest ih =>
    simp only [header_pattern_scan, List.forall_mem_cons, pin_ok]
    by_cases hc : header40 i = 0
    · simp [hc, ih, pin_ok]
    · by_cases hp : h40_pattern id i = 0
      · by_cases hv : pattern40 i > 300
        · simp [hc, hp, hv]
        · simp [hc, hp, hv, ih, pin_ok]
          intro _; omega
      · by_cases hv : pattern40 i < 3000
        · simp [hc, hp, hv]
        · simp [hc, hp, hv, ih, pin_ok]
          intro _; omega

theorem header_pattern_scan_congr (id : Int) (p q : Nat → Int) (l : List Nat)
    (h : ∀ i ∈ l, header40 i ≠ 0 → p i = q i) :
    header_pattern_scan id p l = header_pattern_scan id q l := by
  induction l with
  | nil => rfl
  | cons i rest ih =>
    have hrest := ih (fun j hj => h j (List.mem_cons_of_mem _ hj))
    by_cases hc : header40 i = 0
    · simp [header_pattern_scan, hc, hrest]
    · have hi := h i (List.mem_cons_self _ _) hc
      simp [header_pattern_scan, hc, hrest, hi]

/-- C1: for a pattern index `id` in 0..3 and any sample vector,
`header_pattern_check` returns 1 exactly when every controlled pin reads at
least 3000 mV where the pattern is high and at most 300 mV where it is low;
and two sample vectors that agree on the controlled pins get the same
verdict, so the samples at not-connected pins have no influence. -/
theorem header_pattern_check_spec (id : Int) (pattern40 : Nat → Int)
    (h0 : 0 ≤ id) (h4 : id < PATTERN_COUNT) :
    (header_pattern_check id pattern40 = 1 ↔
      ∀ i, i < 41 → header40 i ≠ 0 →
        (h40_pattern id i ≠ 0 → 3000 ≤ pattern40 i) ∧
        (h40_pattern id i = 0 → pattern40 i ≤ 300)) ∧
    (∀ other : Nat → Int, (∀ i, i < 41 → header40 i ≠ 0 → other i = pattern40 i) →
      header_pattern_check id other = header_pattern_check id pattern40) := by
  have _ := h0
  constructor
  · simp only [header_pattern_check, h4, if_true, header_pattern_scan_eq_one, pin_ok]
    constructor
    · intro h i hi
      exact h i (by simpa [HEADER40] using hi)
    · intro h i hi
      exact h i (by simpa [HEADER40] using hi)
  · intro other hagree
    simp only [header_pattern_check, h4, if_true]
    apply header_pattern_scan_congr
    intro i hi
    exact hagree i (by simpa [HEADER40] using hi)

/-- C1 at concrete samples of pattern 2: pin 8 is driven high and passes at
3100 mV but fails at 2800 mV; pin 7 is driven low and passes at 250 mV but
fails at 500 mV. -/
theorem header_pattern_check_spec_witness :
    h40_pattern 2 8 = 1 ∧ h40_pattern 2 7 = 0 ∧
    header_pattern_check 2 (cross0_with 8 3100) = 1 ∧
    header_pattern_check 2 (cross0_with 8 2800) = 0 ∧
    header_pattern_check 2 (cross0_with 7 250) = 1 ∧
    header_pattern_check 2 (cross0_with 7 500) = 0 ∧
    header_pattern_check 2 (fun i => if i = 0 then 99999 else cross0_with 8 3100 i) = 1 :=
  ⟨by decide, by decide,
   ((header_pattern_check_spec 2 (cross0_with 8 3100) (by decide) (by decide)).1).mpr
     (by decide),
   by decide,
   ((header_pattern_check_spec 2 (cross0_with 7 250) (by decide) (by decide)).1).mpr
     (by decide),
   by decide,
   by decide⟩

/-! ## Theorems: errcode_print -/

theorem m1_item_name_length (i : Nat) : (m1_item i).name.length + 1 ≤ 8 := by
  by_cases h : i < 32
  · interval_cases i <;> decide
  · have hd : m1_item i = ⟨0, 0, 0, 0, ""⟩ := by
      unfold m1_item
      apply List.getD_eq_default
      simp only [m1_item_table, List.length_cons, List.length_nil]
      omega
    rw [hd]; decide

theorem fail_chunks_succ (items : Nat → check_item) (n : Nat) :
    fail_chunks items (n + 1) = fail_chunks items n ++
      (if (items n).result = 0 then [(items n).name ++ ","] else []) := by
  unfold fail_chunks
  rw [List.range_succ, List.filter_append, List.map_append]
  by_cases h : (items n).result = 0 <;> simp [h]

theorem errInv_zero (items : Nat → check_item) : ErrInv items 0 (errcode_scan items 0) := by
  constructor <;> simp [errcode_scan, fail_chunks]

theorem map_update_range {β : Type} (f : Nat → β) (k : Nat) (v : β) (n : Nat) (h : n ≤ k) :
    (List.range n).map (Function.update f k v) = (List.range n).map f := by
  apply List.map_congr_left
  intro a ha
  have : a ≠ k := by
    have := List.mem_range.mp ha
    omega
  simp [Function.update, this]

theorem errInv_step (items : Nat → check_item) (n : Nat) (s : ErrBuf)
    (hlen : (items n).name.length + 1 ≤ PRINT_MAX_CHAR) (h : ErrInv items n s) :
    ErrInv items (n + 1) (errcode_body (items n) s) := by
  have hchunk : ((items n).name.data ++ [',']).length = (items n).name.length + 1 := by
    rw [List.length_append]; rfl
  by_cases hr : (items n).result = 0
  · by_cases hw : s.pos + (items n).name.length + 1 > PRINT_MAX_CHAR
    · -- a new line is begun
      have hrow : s.err_msg (s.line + 1) = [] := h.above _ (Nat.lt_succ_self _)
      have hbody : errcode_body (items n) s =
          { pos := (items n).name.length + 1, line := s.line + 1,
            err_msg := Function.update s.err_msg (s.line + 1)
              ((items n).name.data ++ [',']) } := by
        unfold errcode_body
        rw [if_pos hr]
        simp only [if_pos hw, hrow, sprintf_at]
        simp
      rw [hbody]
      constructor
      · simp only [Function.update_same]; exact hchunk.symm
      · intro l hl
        have : l ≠ s.line + 1 := by simp at hl; omega
        simp only [Function.update, this, dif_neg, not_false_eq_true]
        exact h.above l (by simp at hl; omega)
      · intro l
        by_cases hl : l = s.line + 1
        · subst hl; simp only [Function.update_same]; rw [hchunk]; exact hlen
        · simp only [Function.update, hl, dif_neg, not_false_eq_true]; exact h.len_le l
      · simp only
        rw [List.range_succ, List.map_append, map_update_range _ _ _ _ (le_refl _),
          List.flatten_append, h.join_eq, fail_chunks_succ]
        simp [hr]
      · intro l hl
        simp only at hl
        have hne : l ≠ s.line + 1 := by omega
        simp only [Function.update, hne, dif_neg, not_false_eq_true]
        by_cases hl2 : l < s.line
        · exact h.nonempty l hl2
        · have hl3 : l = s.line := by omega
          subst hl3
          intro hempty
          have hp := h.pos_eq
          rw [hempty] at hp
          simp at hp
          omega
      · intro l
        by_cases hl : l = s.line + 1
        · subst hl
          exact ⟨',' :: (items n).name.data, by simp⟩
        · simp only [Function.update, hl, dif_neg, not_false_eq_true]; exact h.comma l
      · simp only
        constructor
        · intro hz; omega
        · intro hall; exact absurd hr (hall n (Nat.lt_succ_self _))
      · intro hz
        simp only at hz
        omega
      · intro i hi hri
        by_cases hin : i = n
        · subst hin
          exact ⟨s.line + 1, le_refl _, by simp⟩
        · obtain ⟨l, hl, hinf⟩ := h.token i (by omega) hri
          refine ⟨l, by simp only; omega, ?_⟩
          have hne : l ≠ s.line + 1 := by omega
          simpa [Function.update, hne] using hinf
    · -- the name goes on the current line
      have hbody : errcode_body (items n) s =
          { pos := s.pos + ((items n).name.length + 1), line := s.line,
            err_msg := Function.update s.err_msg s.line
              (s.err_msg s.line ++ ((items n).name.data ++ [','])) } := by
        unfold errcode_body
        rw [if_pos hr]
        simp only [if_neg hw, sprintf_at]
        rw [h.pos_eq]
        simp
      rw [hbody]
      constructor
      · simp only [Function.update_same]
        rw [List.length_append, hchunk, ← h.pos_eq]
      · intro l hl
        have : l ≠ s.line := by simp at hl; omega
        simp only [Function.update, this, dif_neg, not_false_eq_true]
        exact h.above l (by simpa using hl)
      · intro l
        by_cases hl : l = s.line
        · subst hl
          simp only [Function.update_same]
          rw [List.length_append, hchunk, ← h.pos_eq]
          omega
        · simp only [Function.update, hl, dif_neg, not_false_eq_true]; exact h.len_le l
      · simp only
        have hj := h.join_eq
        rw [List.range_succ, List.map_append, List.flatten_append] at hj
        rw [List.range_succ, List.map_append, map_update_range _ _ _ _ (le_refl _),
          List.flatten_append, fail_chunks_succ]
        simp only [hr, if_true, List.map_append, List.flatten_append, ← hj]
        simp
      · intro l hl
        simp only at hl
        have hne : l ≠ s.line := by omega
        simp only [Function.update, hne, dif_neg, not_false_eq_true]
        exact h.nonempty l hl
      · intro l
        by_cases hl : l = s.line
        · subst hl
          exact ⟨',' :: (s.err_msg s.line ++ (items n).name.data), by simp⟩
        · simp only [Function.update, hl, dif_neg, not_false_eq_true]; exact h.comma l
      · simp only
        constructor
        · intro hz; omega
        · intro hall; exact absurd hr (hall n (Nat.lt_succ_self _))
      · intro hz
        simp only at hz
        omega
      · intro i hi hri
        by_cases hin : i = n
        · subst hin
          refine ⟨s.line, le_refl _, ?_⟩
          obtain ⟨r, hrr⟩ := h.comma s.line
          simp only [Function.update_same]
          refine ⟨r, [], ?_⟩
          have hgoal : ',' :: (s.err_msg s.line ++ ((items i).name.data ++ [','])) =
              (',' :: s.err_msg s.line) ++ ((items i).name.data ++ [',']) := rfl
          rw [hgoal, hrr]
          simp
        · obtain ⟨l, hl, hinf⟩ := h.token i (by omega) hri
          refine ⟨l, hl, ?_⟩
          by_cases hls : l = s.line
          · subst hls
            simp only [Function.update_same]
            rw [← List.cons_append]
            exact hinf.trans (List.infix_append' [] _ _)
          · simpa [Function.update, hls] using hinf
  · have hbody : errcode_body (items n) s = s := by simp [errcode_body, hr]
    rw [hbody]
    constructor
    · exact h.pos_eq
    · exact h.above
    · exact h.len_le
    · rw [h.join_eq, fail_chunks_succ]; simp [hr]
    · exact h.nonempty
    · exact h.comma
    · rw [h.zero_iff]
      constructor
      · intro hall i hi
        by_cases hin : i = n
        · subst hin; exact hr
        · exact hall i (by omega)
      · intro hall i hi
        exact hall i (by omega)
    · exact h.line_zero
    · intro i hi hri
      by_cases hin : i = n
      · subst hin; exact absurd hri hr
      · exact h.token i (by omega) hri

theorem errInv_scan (items : Nat → check_item) (hn : registry_names items) (n : Nat) :
    ErrInv items n (errcode_scan items n) := by
  induction n with
  | zero => exact errInv_zero items
  | succ k ih =>
    have hlen : (items k).name.length + 1 ≤ PRINT_MAX_CHAR := by
      rw [hn k]
      have := m1_item_name_length k
      simp only [PRINT_MAX_CHAR]
      omega
    exact errInv_step items k _ hlen ih

theorem string_join_data (l : List String) :
    (String.join l).data = (l.map String.data).flatten := by
  have hgen : ∀ (acc : String), (List.foldl (fun r s => r ++ s) acc l).data =
      acc.data ++ (l.map String.data).flatten := by
    induction l with
    | nil => intro acc; simp
    | cons a t ih => intro acc; simp [ih, List.append_assoc]
  simpa [String.join] using hgen ""

theorem getLast_of_comma (row r : List Char) (hne : row ≠ [])
    (h : ',' :: row = r ++ [',']) : row.getLast? = some ',' := by
  cases row with
  | nil => exact absurd rfl hne
  | cons a t =>
    have h1 : (',' :: a :: t).getLast? = (a :: t).getLast? := List.getLast?_cons_cons
    rw [← h1, h]
    simp

/-- C2: when the report of a registry needs at most `PRINT_MAX_LINE` lines,
`errcode_print` sends exactly the lines it built, their concatenation is the
concatenation of `name ++ ","` over the items with result FAIL in registry
order, every line sent ends with the separator, and at most `PRINT_MAX_LINE`
lines are sent. -/
theorem errcode_print_report (w : World) (hn : registry_names w.m1_item)
    (hfit : (errcode_scan w.m1_item eITEM_END).line < PRINT_MAX_LINE) :
    (errcode_print w).1.trace =
      w.trace ++ (errcode_sent w.m1_item).map Call.nlp_server_write_err ∧
    String.join (errcode_sent w.m1_item) = String.join (fail_chunks w.m1_item eITEM_END) ∧
    (∀ l, l ∈ errcode_sent w.m1_item → l.data.getLast? = some ',') ∧
    (errcode_sent w.m1_item).length ≤ PRINT_MAX_LINE := by
  have hinv := errInv_scan w.m1_item hn eITEM_END
  refine ⟨rfl, ?_, ?_, ?_⟩
  · apply String.ext
    rw [string_join_data, string_join_data, ← hinv.join_eq]
    unfold errcode_sent
    by_cases hz : (errcode_scan w.m1_item eITEM_END).pos ≠ 0 ∨
        (errcode_scan w.m1_item eITEM_END).line ≠ 0
    · simp only [hz, if_true, List.map_map]
      rfl
    · simp only [hz, if_false]
      have hz2 : (errcode_scan w.m1_item eITEM_END).pos = 0 ∧
          (errcode_scan w.m1_item eITEM_END).line = 0 := by
        constructor
        · by_contra hc; exact hz (Or.inl hc)
        · by_contra hc; exact hz (Or.inr hc)
      have hrow : (errcode_scan w.m1_item eITEM_END).err_msg 0 = [] := by
        have hp := hinv.pos_eq
        rw [hz2.1, hz2.2] at hp
        exact List.length_eq_zero.mp hp.symm
      rw [hz2.2]
      simp [hrow]
  · intro l hl
    unfold errcode_sent at hl
    by_cases hz : (errcode_scan w.m1_item eITEM_END).pos ≠ 0 ∨
        (errcode_scan w.m1_item eITEM_END).line ≠ 0
    · simp only [hz, if_true, List.mem_map, List.mem_range] at hl
      obtain ⟨i, hi, rfl⟩ := hl
      obtain ⟨r, hr⟩ := hinv.comma i
      apply getLast_of_comma _ r _ hr
      by_cases hil : i < (errcode_scan w.m1_item eITEM_END).line
      · exact hinv.nonempty i hil
      · have hieq : i = (errcode_scan w.m1_item eITEM_END).line := by omega
        subst hieq
        intro hempty
        have hp := hinv.pos_eq
        rw [hempty] at hp
        have hl0 := hinv.line_zero hp
        rcases hz with hz | hz
        · exact hz hp
        · exact hz hl0
    · simp only [hz, if_false] at hl
      exact absurd hl (List.not_mem_nil _)
  · unfold errcode_sent
    simp only
    split
    · simp only [List.length_map, List.length_range]
      omega
    · simp

/-- C2 at the registry in which exactly "mac" and "usb3u" have result FAIL: the
report is the single line "mac,usb3u,". -/
theorem errcode_print_report_witness :
    errcode_sent (with_results (fun i => if i = eITEM_MAC_ADDR ∨ i = eITEM_USB30_UP then 0 else 1))
      = ["mac,usb3u,"] ∧
    String.join (errcode_sent
      (with_results (fun i => if i = eITEM_MAC_ADDR ∨ i = eITEM_USB30_UP then 0 else 1)))
      = String.join (fail_chunks
      (with_results (fun i => if i = eITEM_MAC_ADDR ∨ i = eITEM_USB30_UP then 0 else 1))
      eITEM_END) :=
  ⟨by decide,
   (errcode_print_report
      { world_init with
        m1_item := with_results (fun i => if i = eITEM_MAC_ADDR ∨ i = eITEM_USB30_UP then 0 else 1) }
      (fun _ => rfl) (by decide)).2.1⟩

theorem errcode_ret_eq_one_iff (items : Nat → check_item) (hn : registry_names items) :
    errcode_ret items = 1 ↔ ∃ i, i < eITEM_END ∧ (items i).result = eRESULT_FAIL := by
  have hz := (errInv_scan items hn eITEM_END).zero_iff
  unfold errcode_ret
  simp only [eRESULT_FAIL]
  by_cases hc : (errcode_scan items eITEM_END).pos ≠ 0 ∨ (errcode_scan items eITEM_END).line ≠ 0
  · simp only [hc, if_true, true_iff]
    by_contra hne
    apply (not_and_or.mpr hc)
    apply hz.mpr
    intro i hi hri
    exact hne ⟨i, hi, hri⟩
  · simp only [hc, if_false]
    constructor
    · intro h01; exact absurd h01 (by decide)
    · rintro ⟨i, hi, hri⟩
      have hboth : (errcode_scan items eITEM_END).pos = 0 ∧
          (errcode_scan items eITEM_END).line = 0 := by
        constructor
        · by_contra hx; exact hc (Or.inl hx)
        · by_contra hx; exact hc (Or.inr hx)
      exact absurd hri (hz.mp hboth i hi)

theorem errcode_ret_zero_or_one (items : Nat → check_item) :
    errcode_ret items = 0 ∨ errcode_ret items = 1 := by
  unfold errcode_ret
  simp only
  split
  · exact Or.inr rfl
  · exact Or.inl rfl

theorem check_status_report_red_iff (w : World) :
    (check_status_report w).2 = Color.COLOR_RED ↔ errcode_ret w.m1_item = 1 := by
  have hsame : (check_status_report w).2 =
      if errcode_ret w.m1_item ≠ 0 then Color.COLOR_RED else Color.COLOR_GREEN := by
    unfold check_status_report errcode_print
    simp only
    split <;> rfl
  rw [hsame]
  rcases errcode_ret_zero_or_one w.m1_item with h0 | h1
  · simp [h0]
  · simp [h1]

/-! ## Theorems: the guarded blocks -/

theorem storage_item_skip (x : Extern) (item : Nat) (id : Storage) (w : World)
    (h : (w.m1_item item).result ≠ 0) : check_device_storage_item x item id w = w := by
  simp [check_device_storage_item, h]

theorem storage_item_frame (x : Extern) (item : Nat) (id : Storage) (w : World) (j : Nat)
    (hj : j ≠ item) : (check_device_storage_item x item id w).m1_item j = w.m1_item j := by
  simp only [check_device_storage_item, set_status, set_result, call]
  split_ifs <;> simp [hj]

theorem usb_item_skip (x : Extern) (item : Nat) (id : Int) (w : World)
    (h : (w.m1_item item).result ≠ 0) : check_device_usb_item x item id w = w := by
  simp [check_device_usb_item, h]

theorem usb_item_frame (x : Extern) (item : Nat) (id : Int) (w : World) (j : Nat)
    (hj : j ≠ item) : (check_device_usb_item x item id w).m1_item j = w.m1_item j := by
  simp only [check_device_usb_item, set_status, set_result, call]
  split_ifs <;> simp [hj]

theorem system_model_trace (w : World) :
    (check_device_system_model w).trace = w.trace := by
  simp only [check_device_system_model, set_result]
  split_ifs <;> rfl

theorem spibt_item_keep (x : Extern) (item : Nat) (l : SpibtLocal) (w : World) (j : Nat)
    (h : (w.m1_item j).result = eRESULT_PASS) :
    (check_spibt_item x item l w).1.m1_item j = w.m1_item j := by
  by_cases hj : j = item
  · subst hj
    simp [check_spibt_item, h]
  · simp only [check_spibt_item, set_status, set_result, call]
    split_ifs <;> simp [hj]

theorem probe_not_block_entry (item : Nat) (probes : List Call) (c : Call)
    (hc : c ∉ probes) (hs : ∀ i o n, c ≠ Call.set_status i o n) :
    ¬ block_entry item probes c := by
  rintro (h | ⟨old, h | h⟩)
  · exact hc h
  · exact hs _ _ _ h
  · exact hs _ _ _ h

theorem not_entry_of_probe (item : Nat) (probes ps : List Call) (c : Call) (hc : c ∈ ps)
    (hdis : ∀ p, p ∈ ps → p ∉ probes ∧ ∀ i o n, p ≠ Call.set_status i o n) :
    ¬ block_entry item probes c :=
  probe_not_block_entry item probes c (hdis c hc).1 (hdis c hc).2

theorem set_status_result (i : Nat) (st : Int) (w : World) (j : Nat) :
    ((set_status i st w).m1_item j).result = (w.m1_item j).result := by
  simp only [set_status]
  split_ifs with h
  · subst h; rfl
  · rfl

theorem set_result_pass (i : Nat) (w : World) (j : Nat)
    (h : (w.m1_item j).result = eRESULT_PASS) :
    ((set_result i eRESULT_PASS w).m1_item j).result = eRESULT_PASS := by
  simp only [set_result]
  split_ifs with hj
  · rfl
  · exact h

theorem set_status_same (i : Nat) (st : Int) (w : World) (j : Nat)
    (h : (w.m1_item j).status = st) : (set_status i st w).m1_item j = w.m1_item j := by
  simp only [set_status]
  split_ifs with hj
  · subst hj
    cases hw : w.m1_item j
    rw [hw] at h
    simp only at h
    simp [h]
  · rfl

theorem set_result_same (i : Nat) (r : Int) (w : World) (j : Nat)
    (h : (w.m1_item j).result = r) : (set_result i r w).m1_item j = w.m1_item j := by
  simp only [set_result]
  split_ifs with hj
  · subst hj
    cases hw : w.m1_item j
    rw [hw] at h
    simp only at h
    simp [h]
  · rfl

theorem hp_detect_keep (event : input_event) (w : World) (item : Nat)
    (hpass : (w.m1_item item).result = eRESULT_PASS) :
    ((check_hp_detect_event event w).m1_item item).result = eRESULT_PASS ∧
    ((w.m1_item item).status = eSTATUS_STOP →
      (check_hp_detect_event event w).m1_item item = w.m1_item item) := by
  have key : ∀ i : Nat,
      ((set_result i eRESULT_PASS (set_status i eSTATUS_STOP w)).m1_item item).result
        = eRESULT_PASS ∧
      ((w.m1_item item).status = eSTATUS_STOP →
        (set_result i eRESULT_PASS (set_status i eSTATUS_STOP w)).m1_item item
          = w.m1_item item) := by
    intro i
    have h1 : ((set_status i eSTATUS_STOP w).m1_item item).result = eRESULT_PASS := by
      rw [set_status_result]; exact hpass
    refine ⟨set_result_pass i _ item h1, fun hs => ?_⟩
    rw [set_result_same i _ _ item h1, set_status_same i _ w item hs]
  simp only [check_hp_detect_event]
  split_ifs
  · exact ⟨hpass, fun _ => rfl⟩
  · exact key eITEM_HPDET_IN
  · exact key eITEM_HPDET_OUT
  · exact ⟨hpass, fun _ => rfl⟩
  · exact ⟨hpass, fun _ => rfl⟩

theorem ir_event_key (e : input_event) (w : World) (h : e.type = EV_KEY) :
    check_device_ir_event e w =
      { set_status eITEM_IR eSTATUS_STOP (set_result eITEM_IR eRESULT_PASS w) with
        EventIR := ir_key_event e.code } := by
  have hs : ¬ e.type = EV_SYN := by rw [h]; decide
  unfold check_device_ir_event
  rw [if_neg hs, if_pos h]

/-- C8: when a key event B is processed after an event A with no dispatch in
between, `EventIR` holds the event of B's key code alone, and the dispatch that
follows is, state and calls, the dispatch that follows B alone: the event of A
is lost.  `EventIR` is one value, which an event either keeps or overwrites. -/
theorem ir_last_event_wins (x : Extern) (w : World) (A B : input_event)
    (hA : A.type = EV_KEY) (hB : B.type = EV_KEY) :
    (check_device_ir_event A w).EventIR = ir_key_event A.code ∧
    (check_device_ir_event B (check_device_ir_event A w)).EventIR = ir_key_event B.code ∧
    main_dispatch x { check_device_ir_event B (check_device_ir_event A w) with trace := [] } =
      main_dispatch x { check_device_ir_event B w with trace := [] } ∧
    (∀ (e : input_event) (v : World), (check_device_ir_event e v).EventIR = v.EventIR ∨
      (check_device_ir_event e v).EventIR = ir_key_event e.code) := by
  refine ⟨?_, ?_, ?_, ?_⟩
  · rw [ir_event_key A w hA]
  · rw [ir_event_key B _ hB]
  · have hw : ({ check_device_ir_event B (check_device_ir_event A w) with trace := [] } : World)
        = { check_device_ir_event B w with trace := [] } := by
      rw [ir_event_key B _ hB, ir_event_key B w hB, ir_event_key A w hA]
      simp only [set_status, set_result]
      congr 1
      funext j
      by_cases hj : j = eITEM_IR
      · simp [hj]
      · simp [hj]
    rw [hw]
  · intro e v
    simp only [check_device_ir_event]
    split_ifs
    · exact Or.inl rfl
    · exact Or.inr rfl
    · exact Or.inl rfl

set_option maxRecDepth 100000 in
/-- C8 at the keys volume-down then left: only the audio-left event is pending,
and the dispatch calls no ethernet function. -/
theorem ir_last_event_wins_witness :
    (check_device_ir_event key_left (check_device_ir_event key_volumedown world_init)).EventIR
      = eEVENT_HP_L ∧
    Call.ethernet_link_check ∉ (main_dispatch (extern_const 1)
      { check_device_ir_event key_left (check_device_ir_event key_volumedown world_init)
        with trace := [] }).1.trace :=
  ⟨(ir_last_event_wins (extern_const 1) world_init key_volumedown key_left rfl rfl).2.1,
   by decide⟩

/-- C9: an event of type EV_KEY sets `EventIR` to `ir_key_event` of its code;
the eight keys map to their events, every other code maps to `eEVENT_NONE`, and
the value is always one of the nine events.  `eEVENT_ETH_GLED` asks
`check_device_ethernet` for the 100M link and `eEVENT_ETH_OLED` for the 1G
link. -/
theorem ir_key_mapping :
    (∀ (w : World) (e : input_event), e.type = EV_KEY →
      (check_device_ir_event e w).EventIR = ir_key_event e.code) ∧
    ir_key_event KEY_VOLUMEDOWN = eEVENT_ETH_GLED ∧
    ir_key_event KEY_VOLUMEUP = eEVENT_ETH_OLED ∧
    ir_key_event KEY_LEFT = eEVENT_HP_L ∧
    ir_key_event KEY_RIGHT = eEVENT_HP_R ∧
    ir_key_event KEY_MENU = eEVENT_MAC_PRINT ∧
    ir_key_event KEY_HOME = eEVENT_STOP ∧
    ir_key_event KEY_ENTER = eEVENT_ENTER ∧
    ir_key_event KEY_BACK = eEVENT_BACK ∧
    (∀ code : Int, code ∉ [KEY_VOLUMEDOWN, KEY_VOLUMEUP, KEY_LEFT, KEY_RIGHT, KEY_MENU,
        KEY_HOME, KEY_ENTER, KEY_BACK] → ir_key_event code = eEVENT_NONE) ∧
    (∀ code : Int, ir_key_event code ∈ [eEVENT_NONE, eEVENT_ETH_GLED, eEVENT_ETH_OLED,
        eEVENT_HP_L, eEVENT_HP_R, eEVENT_MAC_PRINT, eEVENT_STOP, eEVENT_ENTER, eEVENT_BACK]) ∧
    (∀ (x : Extern) (w : World), w.EventIR = eEVENT_ETH_GLED →
      x.ethernet_link_check ≠ LINK_SPEED_100M →
      Call.ethernet_link_setup LINK_SPEED_100M ∈
        acts (run_op x Op.check_device_ethernet) w ∧
      Call.ethernet_link_setup LINK_SPEED_1G ∉
        acts (run_op x Op.check_device_ethernet) w) ∧
    (∀ (x : Extern) (w : World), w.EventIR = eEVENT_ETH_OLED →
      x.ethernet_link_check ≠ LINK_SPEED_1G →
      Call.ethernet_link_setup LINK_SPEED_1G ∈
        acts (run_op x Op.check_device_ethernet) w ∧
      Call.ethernet_link_setup LINK_SPEED_100M ∉
        acts (run_op x Op.check_device_ethernet) w) := by
  refine ⟨?_, by decide, by decide, by decide, by decide, by decide, by decide, by decide,
    by decide, ?_, ?_, ?_, ?_⟩
  · intro w e he
    rw [ir_event_key e w he]
  · intro code hcode
    simp only [List.mem_cons, List.mem_singleton, List.mem_nil_iff, or_false, not_or] at hcode
    obtain ⟨h1, h2, h3, h4, h5, h6, h7, h8⟩ := hcode
    simp [ir_key_event, h1, h2, h3, h4, h5, h6, h7, h8]
  · intro code
    simp only [ir_key_event]
    split_ifs <;> simp
  · intro x w he hs
    simp only [acts, run_op, check_device_ethernet, check_device_ethernet_1g, set_status,
      set_result, call, he]
    split_ifs <;> simp_all [eEVENT_ETH_GLED, eEVENT_ETH_OLED, LINK_SPEED_100M, LINK_SPEED_1G]
  · intro x w he hs
    simp only [acts, run_op, check_device_ethernet, check_device_ethernet_1g, set_status,
      set_result, call, he]
    split_ifs <;> simp_all [eEVENT_ETH_GLED, eEVENT_ETH_OLED, LINK_SPEED_100M, LINK_SPEED_1G]

/-! ## Theorems: the throughput retry -/

theorem iperf_attempt_item (x : Extern) (k : Nat) (v : World) :
    ((iperf_attempt x k v).m1_item eITEM_IPERF).result =
      (if x.iperf3_speed_check k > IPERF_SPEED_MIN then eRESULT_PASS else eRESULT_FAIL) ∧
    ((iperf_attempt x k v).m1_item eITEM_IPERF).status = eSTATUS_STOP := by
  simp [iperf_attempt, set_status, set_result, call]

theorem iperf_attempt_count (x : Extern) (k : Nat) (v : World) :
    count_calls Call.iperf3_speed_check (iperf_attempt x k v).trace =
      count_calls Call.iperf3_speed_check v.trace + 1 := by
  simp [iperf_attempt, set_status, set_result, call, count_calls, List.count_append,
    List.count_cons, List.count_nil]

theorem iperf_retry_count (x : Extern) (retry k : Nat) (w : World) :
    count_calls Call.iperf3_speed_check (check_iperf_retry x retry k w).trace =
      count_calls Call.iperf3_speed_check w.trace +
        iperf_attempts_from x.iperf3_speed_check retry k := by
  have hsleep : ∀ (k : Nat) (v : World), count_calls Call.iperf3_speed_check
      (call (Call.usleep (APP_LOOP_DELAY * 1000)) (iperf_attempt x k v)).trace =
      count_calls Call.iperf3_speed_check v.trace + 1 := by
    intro k v
    have := iperf_attempt_count x k v
    simp only [count_calls] at this
    simp only [call, count_calls, List.count_append]
    rw [this]
    simp
  induction retry generalizing k w with
  | zero =>
    simp only [check_iperf_retry, iperf_attempts_from]
    split_ifs
    · exact hsleep k w
    · exact iperf_attempt_count x k w
  | succ r ih =>
    have hres := (iperf_attempt_item x k w).1
    simp only [check_iperf_retry, iperf_attempts_from]
    by_cases hp : x.iperf3_speed_check k > IPERF_SPEED_MIN
    · rw [if_pos hp] at hres
      have hne : ¬ ((iperf_attempt x k w).m1_item eITEM_IPERF).result = 0 := by
        rw [hres]; decide
      rw [if_neg hne, if_pos hp]
      exact iperf_attempt_count x k w
    · rw [if_neg hp] at hres
      rw [if_pos (by rw [hres]; rfl), if_neg hp, ih, hsleep k w]
      omega

theorem iperf_retry_item (x : Extern) (retry k : Nat) (w : World) :
    (((check_iperf_retry x retry k w).m1_item eITEM_IPERF).result = eRESULT_PASS ↔
      ∃ j, k ≤ j ∧ j ≤ k + retry ∧ x.iperf3_speed_check j > IPERF_SPEED_MIN) ∧
    ((check_iperf_retry x retry k w).m1_item eITEM_IPERF).status = eSTATUS_STOP := by
  induction retry generalizing k w with
  | zero =>
    have hres := iperf_attempt_item x k w
    simp only [check_iperf_retry]
    by_cases hp : x.iperf3_speed_check k > IPERF_SPEED_MIN
    · rw [if_pos hp] at hres
      have hne : ¬ ((iperf_attempt x k w).m1_item eITEM_IPERF).result = 0 := by
        rw [hres.1]; decide
      rw [if_neg hne]
      exact ⟨⟨fun _ => ⟨k, le_refl _, by omega, hp⟩, fun _ => hres.1⟩, hres.2⟩
    · rw [if_neg hp] at hres
      rw [if_pos (by rw [hres.1]; rfl)]
      refine ⟨⟨fun h => ?_, fun h => ?_⟩, hres.2⟩
      · rw [show (call (Call.usleep (APP_LOOP_DELAY * 1000)) (iperf_attempt x k w)).m1_item
          = (iperf_attempt x k w).m1_item from rfl, hres.1] at h
        exact absurd h (by decide)
      · obtain ⟨j, h1, h2, h3⟩ := h
        have : j = k := by omega
        subst this
        exact absurd h3 hp
  | succ r ih =>
    have hres := iperf_attempt_item x k w
    simp only [check_iperf_retry]
    by_cases hp : x.iperf3_speed_check k > IPERF_SPEED_MIN
    · rw [if_pos hp] at hres
      have hne : ¬ ((iperf_attempt x k w).m1_item eITEM_IPERF).result = 0 := by
        rw [hres.1]; decide
      rw [if_neg hne]
      exact ⟨⟨fun _ => ⟨k, le_refl _, by omega, hp⟩, fun _ => hres.1⟩, hres.2⟩
    · rw [if_neg hp] at hres
      rw [if_pos (by rw [hres.1]; rfl)]
      have h := ih (k + 1) (call (Call.usleep (APP_LOOP_DELAY * 1000)) (iperf_attempt x k w))
      refine ⟨h.1.trans ⟨?_, ?_⟩, h.2⟩
      · rintro ⟨j, h1, h2, h3⟩
        exact ⟨j, by omega, by omega, h3⟩
      · rintro ⟨j, h1, h2, h3⟩
        have hjk : j ≠ k := by
          intro hjk; subst hjk; exact hp h3
        exact ⟨j, by omega, by omega, h3⟩

theorem iperf_attempts_from_expected (m : Nat → Int) :
    iperf_attempts_from m 3 0 = iperf_attempts_expected m := by
  simp only [iperf_attempts_from, iperf_attempts_expected]
  have hr : List.range 4 = [0, 1, 2, 3] := by decide
  rw [hr]
  by_cases h0 : m 0 > IPERF_SPEED_MIN
  · simp [List.find?, h0]
  · by_cases h1 : m 1 > IPERF_SPEED_MIN
    · simp [List.find?, h0, h1]
    · by_cases h2 : m 2 > IPERF_SPEED_MIN
      · simp [List.find?, h0, h1, h2]
      · by_cases h3 : m 3 > IPERF_SPEED_MIN
        · simp [List.find?, h0, h1, h2, h3]
        · simp [List.find?, h0, h1, h2, h3]

theorem iperf_attempts_from_bounds (m : Nat → Int) (retry k : Nat) :
    1 ≤ iperf_attempts_from m retry k ∧ iperf_attempts_from m retry k ≤ retry + 1 ∧
    (∀ j, j + 1 < iperf_attempts_from m retry k → ¬ m (k + j) > IPERF_SPEED_MIN) ∧
    (iperf_attempts_from m retry k < retry + 1 →
      m (k + (iperf_attempts_from m retry k - 1)) > IPERF_SPEED_MIN) := by
  induction retry generalizing k with
  | zero =>
    simp only [iperf_attempts_from]
    refine ⟨le_refl _, le_refl _, fun j hj => by omega, fun h => by omega⟩
  | succ r ih =>
    simp only [iperf_attempts_from]
    by_cases hp : m k > IPERF_SPEED_MIN
    · rw [if_pos hp]
      refine ⟨le_refl _, by omega, fun j hj => by omega, fun _ => by simpa using hp⟩
    · rw [if_neg hp]
      obtain ⟨h1, h2, h3, h4⟩ := ih (k + 1)
      refine ⟨by omega, by omega, ?_, ?_⟩
      · intro j hj
        cases j with
        | zero => simpa using hp
        | succ j' =>
          have := h3 j' (by omega)
          rw [show k + (j' + 1) = k + 1 + j' from by omega]
          exact this
      · intro hlt
        have := h4 (by omega)
        rw [show k + (1 + iperf_attempts_from m r (k + 1) - 1) =
          k + 1 + (iperf_attempts_from m r (k + 1) - 1) from by omega]
        exact this

/-- C10: `check_iperf_speed` measures exactly as often as the position of the
first of the first four measurements above `IPERF_SPEED_MIN` says, and four
times when there is none: at least once, at most four times, every attempt
before the last one failed, and a run of fewer than four attempts ended on a
passing one.  It leaves the throughput item at STOP, with result PASS exactly
when one of the first four measurements passed.  With the measurements 500,
600, 900 it measures three times and ends PASS. -/
theorem check_iperf_speed_attempts (x : Extern) (w : World) :
    count_calls Call.iperf3_speed_check (acts (run_op x Op.check_iperf_speed) w) =
      iperf_attempts_expected x.iperf3_speed_check ∧
    1 ≤ iperf_attempts_expected x.iperf3_speed_check ∧
    iperf_attempts_expected x.iperf3_speed_check ≤ 4 ∧
    (∀ j, j + 1 < iperf_attempts_expected x.iperf3_speed_check →
      ¬ x.iperf3_speed_check j > IPERF_SPEED_MIN) ∧
    (iperf_attempts_expected x.iperf3_speed_check < 4 →
      x.iperf3_speed_check (iperf_attempts_expected x.iperf3_speed_check - 1)
        > IPERF_SPEED_MIN) ∧
    (((check_iperf_speed x w).1.m1_item eITEM_IPERF).result = eRESULT_PASS ↔
      ∃ j, j < 4 ∧ x.iperf3_speed_check j > IPERF_SPEED_MIN) ∧
    ((check_iperf_speed x w).1.m1_item eITEM_IPERF).status = eSTATUS_STOP ∧
    (check_iperf_speed x w).2 = 1 ∧
    count_calls Call.iperf3_speed_check
      (acts (run_op extern_iperf_500_600_900 Op.check_iperf_speed) world_init) = 3 ∧
    ((check_iperf_speed extern_iperf_500_600_900 world_init).1.m1_item eITEM_IPERF).result
      = eRESULT_PASS := by
  have hb := iperf_attempts_from_bounds x.iperf3_speed_check 3 0
  rw [iperf_attempts_from_expected] at hb
  obtain ⟨hb1, hb2, hb3, hb4⟩ := hb
  have hitem := iperf_retry_item x 3 0 w
  refine ⟨?_, hb1, hb2, ?_, ?_, ?_, hitem.2, rfl, ?_, ?_⟩
  · have h := iperf_retry_count x 3 0 { w with trace := [] }
    rw [iperf_attempts_from_expected] at h
    simp only [acts, run_op, check_iperf_speed]
    rw [h]
    simp [count_calls]
  · intro j hj
    have := hb3 j hj
    simpa using this
  · intro hlt
    have := hb4 (by omega)
    simpa using this
  · refine hitem.1.trans ⟨?_, ?_⟩
    · rintro ⟨j, _, h2, h3⟩
      exact ⟨j, by omega, h3⟩
    · rintro ⟨j, h1, h2⟩
      exact ⟨j, Nat.zero_le _, by omega, h2⟩
  · have h := iperf_retry_count extern_iperf_500_600_900 3 0 { world_init with trace := [] }
    simp only [acts, run_op, check_iperf_speed]
    rw [h]
    decide
  · exact (iperf_retry_item extern_iperf_500_600_900 3 0 world_init).1.mpr
      ⟨2, by decide, by decide, by decide⟩

/-! ## Theorems: the watchdog -/

theorem wait_item_cnt_eq_zero (items : Nat → check_item) (n : Nat) :
    wait_item_cnt items n = 0 ↔ ∀ i, i < n → (items i).status = eSTATUS_STOP := by
  induction n with
  | zero => simp [wait_item_cnt]
  | succ k ih =>
    simp only [wait_item_cnt]
    by_cases hk : (items k).status = eSTATUS_STOP
    · simp only [hk, ne_eq, not_true_eq_false, if_false, ih]
      constructor
      · intro h i hi
        by_cases hik : i = k
        · subst hik; exact hk
        · exact h i (by omega)
      · intro h i hi
        exact h i (by omega)
    · simp only [ne_eq, hk, not_false_eq_true, if_true]
      constructor
      · intro h; omega
      · intro h; exact absurd (h k (Nat.lt_succ_self _)) hk

theorem check_status_beat_items (onoff : Int) (w : World) :
    (check_status_beat onoff w).1.m1_item = w.m1_item := by
  simp only [check_status_beat, call]
  split_ifs <;> rfl

/-- C12, evaluated: as `main` starts the client record is zeroed, so `adc_fd` is
0, a handle with which `check_i2cadc` returns 0 at once; yet the first round
of the heartbeat loop decrements `TimeoutStop` from 60 to 59, because the loop
only tests `adc_fd != -1`.  With the handle -1 the same round leaves
`TimeoutStop` at 60. -/
theorem watchdog_counts_with_handle_zero :
    world_init.client.adc_fd = 0 ∧
    (check_i2cadc 0 (fun _ => 5000) world_init).2 = 0 ∧
    (check_i2cadc (-1) (fun _ => 5000) world_init).2 = 0 ∧
    world_init.TimeoutStop = 60 ∧
    (check_status_iter 0 world_init).1.TimeoutStop = 59 ∧
    (check_status_iter 0
      { world_init with client := { world_init.client with adc_fd := -1 } }).1.TimeoutStop
      = 60 := by
  decide

/-- C13: the test that ends a round of the heartbeat loop is true exactly when
each of the `eITEM_END` = 32 registry items has status STOP; then
`TimeoutStop` becomes 0 and the loop is left, and otherwise the test changes
nothing.  The same holds of a whole round, and the loop, entered with
`TimeoutStop` non-zero and every item at STOP, ends after this round with
`TimeoutStop` = 0. -/
theorem all_stopped_test (w : World) :
    eITEM_END = 32 ∧
    ((check_status_stop_test w).2 = true ↔
      ∀ i, i < eITEM_END → (w.m1_item i).status = eSTATUS_STOP) ∧
    ((check_status_stop_test w).2 = true → (check_status_stop_test w).1.TimeoutStop = 0) ∧
    ((check_status_stop_test w).2 = false → (check_status_stop_test w).1 = w) ∧
    ((∃ i, i < eITEM_END ∧
        ((w.m1_item i).status = eSTATUS_WAIT ∨ (w.m1_item i).status = eSTATUS_RUN)) →
      (check_status_stop_test w).2 = false ∧
      (check_status_stop_test w).1.TimeoutStop = w.TimeoutStop) ∧
    (∀ onoff, (check_status_iter onoff w).2.2 = true ↔
      ∀ i, i < eITEM_END → (w.m1_item i).status = eSTATUS_STOP) ∧
    (∀ fuel onoff, w.TimeoutStop ≠ 0 →
      (∀ i, i < eITEM_END → (w.m1_item i).status = eSTATUS_STOP) →
      ∃ v o, check_status_loop (fuel + 1) onoff w = some (v, o) ∧ v.TimeoutStop = 0) := by
  have hiff : ∀ v : World, (check_status_stop_test v).2 = true ↔
      ∀ i, i < eITEM_END → (v.m1_item i).status = eSTATUS_STOP := by
    intro v
    rw [← wait_item_cnt_eq_zero]
    simp only [check_status_stop_test]
    split_ifs with h
    · simp [h]
    · simp [h]
  have hzero : ∀ v : World, (check_status_stop_test v).2 = true →
      (check_status_stop_test v).1.TimeoutStop = 0 := by
    intro v
    simp only [check_status_stop_test]
    split_ifs with h
    · intro _; rfl
    · intro hf; exact absurd hf (by simp)
  have hsame : (check_status_stop_test w).2 = false → (check_status_stop_test w).1 = w := by
    simp only [check_status_stop_test]
    split_ifs with h
    · intro hf; exact absurd hf (by simp)
    · intro _; rfl
  have hiter : ∀ onoff, (check_status_iter onoff w).2.2 = true ↔
      ∀ i, i < eITEM_END → (w.m1_item i).status = eSTATUS_STOP := by
    intro onoff
    have := hiff (check_status_beat onoff w).1
    rw [check_status_beat_items] at this
    exact this
  refine ⟨rfl, hiff w, hzero w, hsame, ?_, hiter, ?_⟩
  · rintro ⟨i, hi, hs⟩
    have hf : (check_status_stop_test w).2 = false := by
      cases hb : (check_status_stop_test w).2 with
      | false => rfl
      | true =>
        have hall := (hiff w).mp hb i hi
        rcases hs with hs | hs <;> rw [hs] at hall <;> exact absurd hall (by decide)
    exact ⟨hf, by rw [hsame hf]⟩
  · intro fuel onoff hT hall
    have hb := (hiter onoff).mpr hall
    refine ⟨(check_status_iter onoff w).1, (check_status_iter onoff w).2.1, ?_, ?_⟩
    · simp only [check_status_loop, hT, ne_eq, not_false_eq_true, if_true, hb]
    · exact hzero _ hb

set_option maxRecDepth 100000 in
/-- C13 at the starting registry, where items wait, and at the registry with
every item at STOP. -/
theorem all_stopped_test_witness :
    (check_status_stop_test world_init).2 = false ∧
    (check_status_stop_test { world_init with m1_item := all_stopped_items }).2 = true ∧
    (check_status_stop_test
      { world_init with m1_item := all_stopped_items }).1.TimeoutStop = 0 :=
  ⟨by decide,
   (all_stopped_test { world_init with m1_item := all_stopped_items }).2.1.mpr (by decide),
   (all_stopped_test { world_init with m1_item := all_stopped_items }).2.2.1 (by decide)⟩

/-! ## Theorems: the event dispatch -/

/-- C14: the dispatch of the emergency-stop event sets `TimeoutStop` to 0 and
`EventIR` to `eEVENT_NONE`; it makes no call, leaves every registry item, the
jack status and the client record as they are, and `main` goes on. -/
theorem emergency_stop_dispatch (x : Extern) (w : World) (h : w.EventIR = eEVENT_STOP) :
    (main_dispatch x w).1.TimeoutStop = 0 ∧
    (main_dispatch x w).1.m1_item = w.m1_item ∧
    (main_dispatch x w).1.EventIR = eEVENT_NONE ∧
    (main_dispatch x w).1.trace = w.trace ∧
    (main_dispatch x w).1.JackStatus = w.JackStatus ∧
    (main_dispatch x w).1.client = w.client ∧
    (main_dispatch x w).2 = false := by
  have h1 : w.EventIR ≠ eEVENT_NONE := by rw [h]; decide
  have h2 : ¬ (w.EventIR = eEVENT_ETH_GLED ∨ w.EventIR = eEVENT_ETH_OLED) := by
    rw [h]; decide
  have h3 : ¬ (w.EventIR = eEVENT_HP_L ∨ w.EventIR = eEVENT_HP_R) := by rw [h]; decide
  have h4 : ¬ w.EventIR = eEVENT_MAC_PRINT := by rw [h]; decide
  have hd : main_dispatch x w =
      ({ w with TimeoutStop := 0, EventIR := eEVENT_NONE }, false) := by
    unfold main_dispatch
    rw [if_pos h1, if_neg h2, if_neg h3, if_neg h4, if_pos h]
  rw [hd]
  exact ⟨rfl, rfl, rfl, rfl, rfl, rfl, rfl⟩

set_option maxRecDepth 100000 in
/-- C14 at the state after the home key was pressed. -/
theorem emergency_stop_dispatch_witness :
    (check_device_ir_event key_home world_init).EventIR = eEVENT_STOP ∧
    (main_dispatch (extern_const 1) (check_device_ir_event key_home world_init)).1.TimeoutStop
      = 0 ∧
    (main_dispatch (extern_const 1) (check_device_ir_event key_home world_init)).1.EventIR
      = eEVENT_NONE :=
  ⟨by decide,
   (emergency_stop_dispatch (extern_const 1) (check_device_ir_event key_home world_init)
      (by decide)).1,
   (emergency_stop_dispatch (extern_const 1) (check_device_ir_event key_home world_init)
      (by decide)).2.2.1⟩

/-! ## Theorems: the headphone jack -/

theorem hp_detect_other (e : input_event) (w : World)
    (h : ¬ (e.type = EV_SW ∧ e.code = SW_HEADPHONE_INSERT)) :
    check_hp_detect_event e w = w := by
  unfold check_hp_detect_event
  split_ifs with h1 h2 h3 h4
  · rfl
  · exact absurd ⟨h2, h3⟩ h
  · exact absurd ⟨h2, h3⟩ h
  · rfl
  · rfl

theorem hp_detect_insert (e : input_event) (w : World) (ht : e.type = EV_SW)
    (hc : e.code = SW_HEADPHONE_INSERT) (hv : e.value ≠ 0) :
    check_hp_detect_event e w =
      { set_result eITEM_HPDET_IN eRESULT_PASS (set_status eITEM_HPDET_IN eSTATUS_STOP w) with
        JackStatus := 1 } := by
  have hs : ¬ e.type = EV_SYN := by rw [ht]; decide
  unfold check_hp_detect_event
  rw [if_neg hs, if_pos ht, if_pos hc, if_pos hv]

theorem hp_detect_remove (e : input_event) (w : World) (ht : e.type = EV_SW)
    (hc : e.code = SW_HEADPHONE_INSERT) (hv : e.value = 0) :
    check_hp_detect_event e w =
      { set_result eITEM_HPDET_OUT eRESULT_PASS (set_status eITEM_HPDET_OUT eSTATUS_STOP w) with
        JackStatus := 0 } := by
  have hs : ¬ e.type = EV_SYN := by rw [ht]; decide
  have hv2 : ¬ e.value ≠ 0 := by simp [hv]
  unfold check_hp_detect_event
  rw [if_neg hs, if_pos ht, if_pos hc, if_neg hv2]

/-- C20: a SW_HEADPHONE_INSERT switch event with a non-zero value sets the
detect-in item to PASS and STOP and `JackStatus` to 1, leaving the detect-out
item alone; with the value 0 it sets the detect-out item to PASS and STOP and
`JackStatus` to 0, leaving the detect-in item alone; any other event changes
nothing; and through any sequence of events a detect item that is PASS and
STOP stays as it is. -/
theorem hp_detect_events (w : World) :
    (∀ e : input_event, e.type = EV_SW → e.code = SW_HEADPHONE_INSERT → e.value ≠ 0 →
      ((check_hp_detect_event e w).m1_item eITEM_HPDET_IN).result = eRESULT_PASS ∧
      ((check_hp_detect_event e w).m1_item eITEM_HPDET_IN).status = eSTATUS_STOP ∧
      (check_hp_detect_event e w).JackStatus = 1 ∧
      (check_hp_detect_event e w).m1_item eITEM_HPDET_OUT = w.m1_item eITEM_HPDET_OUT) ∧
    (∀ e : input_event, e.type = EV_SW → e.code = SW_HEADPHONE_INSERT → e.value = 0 →
      ((check_hp_detect_event e w).m1_item eITEM_HPDET_OUT).result = eRESULT_PASS ∧
      ((check_hp_detect_event e w).m1_item eITEM_HPDET_OUT).status = eSTATUS_STOP ∧
      (check_hp_detect_event e w).JackStatus = 0 ∧
      (check_hp_detect_event e w).m1_item eITEM_HPDET_IN = w.m1_item eITEM_HPDET_IN) ∧
    (∀ e : input_event, ¬ (e.type = EV_SW ∧ e.code = SW_HEADPHONE_INSERT) →
      check_hp_detect_event e w = w) ∧
    (∀ (events : List input_event) (item : Nat),
      item = eITEM_HPDET_IN ∨ item = eITEM_HPDET_OUT →
      (w.m1_item item).result = eRESULT_PASS → (w.m1_item item).status = eSTATUS_STOP →
      (check_hp_detect_events events w).m1_item item = w.m1_item item) := by
  refine ⟨?_, ?_, fun e h => hp_detect_other e w h, ?_⟩
  · intro e ht hc hv
    rw [hp_detect_insert e w ht hc hv]
    simp [set_status, set_result, eITEM_HPDET_IN, eITEM_HPDET_OUT]
  · intro e ht hc hv
    rw [hp_detect_remove e w ht hc hv]
    simp [set_status, set_result, eITEM_HPDET_IN, eITEM_HPDET_OUT]
  · intro events item _ hr hs
    unfold check_hp_detect_events
    induction events generalizing w with
    | nil => rfl
    | cons e rest ih =>
      simp only [List.foldl_cons]
      have hk := hp_detect_keep e w item hr
      have heq := hk.2 hs
      rw [ih (check_hp_detect_event e w) (by rw [heq]; exact hr) (by rw [heq]; exact hs), heq]

/-! ## Theorems: the ethernet link -/

/-- C19: on a switch-speed event, `check_device_ethernet` with the link already
at the requested speed calls no `ethernet_link_setup`, changes no item and
returns 0; with the link at another speed it returns 1 exactly when
`ethernet_link_setup` for the requested speed succeeds, the requested item
then being STOP and PASS, and it returns 0 with that item's result unchanged
when the setup fails.  The LED item and the other speed's item are never
changed. -/
theorem ethernet_switch (x : Extern) (w : World) :
    (w.EventIR = eEVENT_ETH_GLED →
      (x.ethernet_link_check = LINK_SPEED_100M →
        (∀ speed, Call.ethernet_link_setup speed ∉
          acts (run_op x Op.check_device_ethernet) w) ∧
        (check_device_ethernet x w).1.m1_item = w.m1_item ∧
        (check_device_ethernet x w).2 = 0) ∧
      (x.ethernet_link_check ≠ LINK_SPEED_100M →
        ((check_device_ethernet x w).2 = 1 ↔ x.ethernet_link_setup LINK_SPEED_100M ≠ 0) ∧
        ((check_device_ethernet x w).2 = 0 ↔ x.ethernet_link_setup LINK_SPEED_100M = 0) ∧
        (x.ethernet_link_setup LINK_SPEED_100M ≠ 0 →
          ((check_device_ethernet x w).1.m1_item eITEM_ETHERNET_100M).status = eSTATUS_STOP ∧
          ((check_device_ethernet x w).1.m1_item eITEM_ETHERNET_100M).result = eRESULT_PASS) ∧
        (x.ethernet_link_setup LINK_SPEED_100M = 0 →
          ((check_device_ethernet x w).1.m1_item eITEM_ETHERNET_100M).result =
            (w.m1_item eITEM_ETHERNET_100M).result)) ∧
      (check_device_ethernet x w).1.m1_item eITEM_ETHERNET_1G = w.m1_item eITEM_ETHERNET_1G ∧
      (check_device_ethernet x w).1.m1_item eITEM_ETHERNET_LED =
        w.m1_item eITEM_ETHERNET_LED) ∧
    (w.EventIR = eEVENT_ETH_OLED →
      (x.ethernet_link_check = LINK_SPEED_1G →
        (∀ speed, Call.ethernet_link_setup speed ∉
          acts (run_op x Op.check_device_ethernet) w) ∧
        (check_device_ethernet x w).1.m1_item = w.m1_item ∧
        (check_device_ethernet x w).2 = 0) ∧
      (x.ethernet_link_check ≠ LINK_SPEED_1G →
        ((check_device_ethernet x w).2 = 1 ↔ x.ethernet_link_setup LINK_SPEED_1G ≠ 0) ∧
        ((check_device_ethernet x w).2 = 0 ↔ x.ethernet_link_setup LINK_SPEED_1G = 0) ∧
        (x.ethernet_link_setup LINK_SPEED_1G ≠ 0 →
          ((check_device_ethernet x w).1.m1_item eITEM_ETHERNET_1G).status = eSTATUS_STOP ∧
          ((check_device_ethernet x w).1.m1_item eITEM_ETHERNET_1G).result = eRESULT_PASS) ∧
        (x.ethernet_link_setup LINK_SPEED_1G = 0 →
          ((check_device_ethernet x w).1.m1_item eITEM_ETHERNET_1G).result =
            (w.m1_item eITEM_ETHERNET_1G).result)) ∧
      (check_device_ethernet x w).1.m1_item eITEM_ETHERNET_100M =
        w.m1_item eITEM_ETHERNET_100M ∧
      (check_device_ethernet x w).1.m1_item eITEM_ETHERNET_LED =
        w.m1_item eITEM_ETHERNET_LED) := by
  have hgo : eEVENT_ETH_GLED ≠ eEVENT_ETH_OLED := by decide
  have hog : eEVENT_ETH_OLED ≠ eEVENT_ETH_GLED := by decide
  constructor
  · intro he
    refine ⟨?_, ?_, ?_, ?_⟩
    · intro hs
      simp [acts, run_op, check_device_ethernet, check_device_ethernet_1g, call, he, hs, hgo]
    · intro hs
      by_cases hset : x.ethernet_link_setup LINK_SPEED_100M = 0
      · simp [check_device_ethernet, check_device_ethernet_1g, call, set_status, set_result,
          he, hs, hset, hgo, eITEM_ETHERNET_100M]
      · simp [check_device_ethernet, check_device_ethernet_1g, call, set_status, set_result,
          he, hs, hset, hgo, eITEM_ETHERNET_100M]
    · by_cases hs : x.ethernet_link_check = LINK_SPEED_100M
      · simp [check_device_ethernet, check_device_ethernet_1g, call, he, hs, hgo]
      · by_cases hset : x.ethernet_link_setup LINK_SPEED_100M = 0
        · simp [check_device_ethernet, check_device_ethernet_1g, call, set_status,
            set_result, he, hs, hset, hgo, eITEM_ETHERNET_100M, eITEM_ETHERNET_1G]
        · simp [check_device_ethernet, check_device_ethernet_1g, call, set_status,
            set_result, he, hs, hset, hgo, eITEM_ETHERNET_100M, eITEM_ETHERNET_1G]
    · by_cases hs : x.ethernet_link_check = LINK_SPEED_100M
      · simp [check_device_ethernet, check_device_ethernet_1g, call, he, hs, hgo]
      · by_cases hset : x.ethernet_link_setup LINK_SPEED_100M = 0
        · simp [check_device_ethernet, check_device_ethernet_1g, call, set_status,
            set_result, he, hs, hset, hgo, eITEM_ETHERNET_100M, eITEM_ETHERNET_LED]
        · simp [check_device_ethernet, check_device_ethernet_1g, call, set_status,
            set_result, he, hs, hset, hgo, eITEM_ETHERNET_100M, eITEM_ETHERNET_LED]
  · intro he
    refine ⟨?_, ?_, ?_, ?_⟩
    · intro hs
      simp [acts, run_op, check_device_ethernet, check_device_ethernet_1g, call, he, hs, hog]
    · intro hs
      by_cases hset : x.ethernet_link_setup LINK_SPEED_1G = 0
      · simp [check_device_ethernet, check_device_ethernet_1g, call, set_status, set_result,
          he, hs, hset, hog, eITEM_ETHERNET_1G]
      · simp [check_device_ethernet, check_device_ethernet_1g, call, set_status, set_result,
          he, hs, hset, hog, eITEM_ETHERNET_1G]
    · by_cases hs : x.ethernet_link_check = LINK_SPEED_1G
      · simp [check_device_ethernet, check_device_ethernet_1g, call, he, hs, hog]
      · by_cases hset : x.ethernet_link_setup LINK_SPEED_1G = 0
        · simp [check_device_ethernet, check_device_ethernet_1g, call, set_status,
            set_result, he, hs, hset, hog, eITEM_ETHERNET_100M, eITEM_ETHERNET_1G]
        · simp [check_device_ethernet, check_device_ethernet_1g, call, set_status,
            set_result, he, hs, hset, hog, eITEM_ETHERNET_100M, eITEM_ETHERNET_1G]
    · by_cases hs : x.ethernet_link_check = LINK_SPEED_1G
      · simp [check_device_ethernet, check_device_ethernet_1g, call, he, hs, hog]
      · by_cases hset : x.ethernet_link_setup LINK_SPEED_1G = 0
        · simp [check_device_ethernet, check_device_ethernet_1g, call, set_status,
            set_result, he, hs, hset, hog, eITEM_ETHERNET_1G, eITEM_ETHERNET_LED]
        · simp [check_device_ethernet, check_device_ethernet_1g, call, set_status,
            set_result, he, hs, hset, hog, eITEM_ETHERNET_1G, eITEM_ETHERNET_LED]

set_option maxRecDepth 100000 in
/-- C20 at the starting state: the jack goes in and comes out again. -/
theorem hp_detect_events_witness :
    ((check_hp_detect_event ⟨EV_SW, SW_HEADPHONE_INSERT, 1⟩ world_init).m1_item
      eITEM_HPDET_IN).result = eRESULT_PASS ∧
    (check_hp_detect_event ⟨EV_SW, SW_HEADPHONE_INSERT, 1⟩ world_init).JackStatus = 1 ∧
    (check_hp_detect_events
      [⟨EV_SW, SW_HEADPHONE_INSERT, 1⟩, ⟨EV_SW, SW_HEADPHONE_INSERT, 0⟩] world_init).JackStatus
      = 0 :=
  ⟨((hp_detect_events world_init).1 ⟨EV_SW, SW_HEADPHONE_INSERT, 1⟩ rfl rfl (by decide)).1,
   ((hp_detect_events world_init).1 ⟨EV_SW, SW_HEADPHONE_INSERT, 1⟩ rfl rfl (by decide)).2.2.1,
   by decide⟩

set_option maxRecDepth 100000 in
/-- C19 at the state after volume-down was pressed, with the link at 1 Gb/s
and a switch that succeeds. -/
theorem ethernet_switch_witness :
    (check_device_ir_event key_volumedown world_init).EventIR = eEVENT_ETH_GLED ∧
    (check_device_ethernet extern_link_1g_ok
      (check_device_ir_event key_volumedown world_init)).2 = 1 ∧
    ((check_device_ethernet extern_link_1g_ok
      (check_device_ir_event key_volumedown world_init)).1.m1_item
        eITEM_ETHERNET_100M).status = eSTATUS_STOP :=
  ⟨by decide,
   (((ethernet_switch extern_link_1g_ok (check_device_ir_event key_volumedown world_init)).1
      (by decide)).2.1 (by decide)).1.mpr (by decide),
   ((((ethernet_switch extern_link_1g_ok (check_device_ir_event key_volumedown world_init)).1
      (by decide)).2.1 (by decide)).2.2.1 (by decide)).1⟩

/-! ## Theorems: the server discovery -/

theorem check_server_ret (x : Extern) (w : World) :
    (check_server x w).2 = (if x.get_my_ip ≠ 0 ∧ x.nlp_server_find ≠ 0 then 1 else 0) := by
  unfold check_server
  by_cases h1 : x.get_my_ip = 0
  · simp [h1]
  · by_cases h2 : x.nlp_server_find = 0
    · simp [h1, h2]
    · simp [h1, h2]

theorem check_server_counts (x : Extern) (w : World) (d : Int) :
    count_calls (Call.usleep d) (check_server x w).1.trace = count_calls (Call.usleep d) w.trace ∧
    count_calls Call.get_my_ip (check_server x w).1.trace =
      count_calls Call.get_my_ip w.trace + 1 := by
  unfold check_server
  by_cases h1 : x.get_my_ip = 0
  · simp [h1, set_status, set_result, call, count_calls, List.count_append, List.count_cons]
  · by_cases h2 : x.nlp_server_find = 0
    · simp [h1, h2, set_status, set_result, call, count_calls, List.count_append,
        List.count_cons]
    · simp [h1, h2, set_status, set_result, call, count_calls, List.count_append,
        List.count_cons]

theorem discover_from (xs : Nat → Extern) (m : Nat) :
    ∀ (n : Nat) (w : World),
      (∀ k, n ≤ k → k < n + m → ¬ ((xs k).get_my_ip ≠ 0 ∧ (xs k).nlp_server_find ≠ 0)) →
      ((xs (n + m)).get_my_ip ≠ 0 ∧ (xs (n + m)).nlp_server_find ≠ 0) →
      (∀ fuel, fuel ≤ m → client_setup_discover xs fuel n w = none) ∧
      (∀ fuel, m < fuel → ∃ v, client_setup_discover xs fuel n w = some v ∧
        count_calls (Call.usleep (APP_LOOP_DELAY * 1000)) v.trace =
          count_calls (Call.usleep (APP_LOOP_DELAY * 1000)) w.trace + m ∧
        count_calls Call.get_my_ip v.trace = count_calls Call.get_my_ip w.trace + (m + 1)) := by
  induction m with
  | zero =>
    intro n w _ hok
    constructor
    · intro fuel hf
      have : fuel = 0 := by omega
      subst this
      rfl
    · intro fuel hf
      obtain ⟨f, rfl⟩ : ∃ f, fuel = f + 1 := ⟨fuel - 1, by omega⟩
      have hret : (check_server (xs n) w).2 ≠ 0 := by
        rw [check_server_ret, if_pos (by simpa using hok)]; decide
      refine ⟨(check_server (xs n) w).1, ?_, ?_, ?_⟩
      · simp only [client_setup_discover, hret, ne_eq, not_false_eq_true, if_true]
      · rw [(check_server_counts (xs n) w _).1]; rfl
      · rw [(check_server_counts (xs n) w (APP_LOOP_DELAY * 1000)).2]
  | succ m ih =>
    intro n w hfail hok
    have hret : ¬ (check_server (xs n) w).2 ≠ 0 := by
      rw [check_server_ret, if_neg (hfail n (le_refl _) (by omega))]; decide
    have hrec := ih (n + 1) (call (Call.usleep (APP_LOOP_DELAY * 1000)) (check_server (xs n) w).1)
      (fun k h1 h2 => hfail k (by omega) (by omega))
      (by rw [show n + 1 + m = n + (m + 1) from by omega]; exact hok)
    have hsl : count_calls (Call.usleep (APP_LOOP_DELAY * 1000))
        (call (Call.usleep (APP_LOOP_DELAY * 1000)) (check_server (xs n) w).1).trace =
        count_calls (Call.usleep (APP_LOOP_DELAY * 1000)) w.trace + 1 := by
      have := (check_server_counts (xs n) w (APP_LOOP_DELAY * 1000)).1
      simp only [count_calls] at this
      simp only [call, count_calls, List.count_append, this]
      simp
    have hip : count_calls Call.get_my_ip
        (call (Call.usleep (APP_LOOP_DELAY * 1000)) (check_server (xs n) w).1).trace =
        count_calls Call.get_my_ip w.trace + 1 := by
      have := (check_server_counts (xs n) w (APP_LOOP_DELAY * 1000)).2
      simp only [count_calls] at this
      simp only [call, count_calls, List.count_append, this]
      simp
    constructor
    · intro fuel hf
      cases fuel with
      | zero => rfl
      | succ f =>
        simp only [client_setup_discover, hret, if_false]
        exact hrec.1 f (by omega)
    · intro fuel hf
      obtain ⟨f, rfl⟩ : ∃ f, fuel = f + 1 := ⟨fuel - 1, by omega⟩
      obtain ⟨v, hv, h1, h2⟩ := hrec.2 f (by omega)
      refine ⟨v, ?_, ?_, ?_⟩
      · simp only [client_setup_discover, hret, if_false]
        exact hv
      · rw [h1, hsl]; omega
      · rw [h2, hip]; omega

set_option maxRecDepth 100000 in
/-- C11, as stated, fails: when the first call of `check_server` succeeds
(N = 1) the loop goes on without any sleep, and when the third call is the
first to succeed (N = 3) it has slept twice. -/
theorem discover_sleeps_one_less :
    (client_setup_discover (found_at 0) 5 0 world_init).map
      (fun v => count_calls (Call.usleep (APP_LOOP_DELAY * 1000)) v.trace) = some 0 ∧
    (client_setup_discover (found_at 2) 5 0 world_init).map
      (fun v => count_calls (Call.usleep (APP_LOOP_DELAY * 1000)) v.trace) = some 2 := by
  decide

/-- C11, amended: a call of `check_server` succeeds exactly when both the board
address and the server are found; when that first happens at the N-th call
(N ≥ 1), the loop of `client_setup` does not go on within fewer than N calls,
and given N calls or more it goes on after exactly N calls of `check_server`
and exactly N - 1 sleeps of `APP_LOOP_DELAY` ms. -/
theorem discover_sleeps (xs : Nat → Extern) (w : World) (N : Nat) (hN : 1 ≤ N)
    (hfail : ∀ k, k + 1 < N → ¬ ((xs k).get_my_ip ≠ 0 ∧ (xs k).nlp_server_find ≠ 0))
    (hok : (xs (N - 1)).get_my_ip ≠ 0 ∧ (xs (N - 1)).nlp_server_find ≠ 0) :
    (∀ (k : Nat) (v : World), (check_server (xs k) v).2 = 1 ↔
      ((xs k).get_my_ip ≠ 0 ∧ (xs k).nlp_server_find ≠ 0)) ∧
    (∀ fuel, fuel < N → client_setup_discover xs fuel 0 w = none) ∧
    (∀ fuel, N ≤ fuel → ∃ v, client_setup_discover xs fuel 0 w = some v ∧
      count_calls (Call.usleep (APP_LOOP_DELAY * 1000)) v.trace =
        count_calls (Call.usleep (APP_LOOP_DELAY * 1000)) w.trace + (N - 1) ∧
      count_calls Call.get_my_ip v.trace = count_calls Call.get_my_ip w.trace + N) := by
  have h := discover_from xs (N - 1) 0 w
    (fun k _ hk => hfail k (by omega))
    (by rw [Nat.zero_add]; exact hok)
  refine ⟨?_, ?_, ?_⟩
  · intro k v
    rw [check_server_ret]
    split_ifs with hc
    · simp [hc]
    · simp [hc]
  · intro fuel hf
    exact h.1 fuel (by omega)
  · intro fuel hf
    obtain ⟨v, hv, h1, h2⟩ := h.2 fuel (by omega)
    refine ⟨v, hv, h1, ?_⟩
    rw [h2]
    omega

set_option maxRecDepth 100000 in
/-- C11, amended, at a discovery that succeeds at the third call: the loop
is still turning after two calls and has slept twice when it goes on. -/
theorem discover_sleeps_witness :
    client_setup_discover (found_at 2) 2 0 world_init = none ∧
    ∃ v, client_setup_discover (found_at 2) 3 0 world_init = some v ∧
      count_calls (Call.usleep (APP_LOOP_DELAY * 1000)) v.trace =
        count_calls (Call.usleep (APP_LOOP_DELAY * 1000)) world_init.trace + (3 - 1) ∧
      count_calls Call.get_my_ip v.trace = count_calls Call.get_my_ip world_init.trace + 3 :=
  ⟨(discover_sleeps (found_at 2) world_init 3 (by decide)
      (by intro k hk; have hk2 : k < 2 := by omega
          interval_cases k <;> decide) (by decide)).2.1 2 (by decide),
   (discover_sleeps (found_at 2) world_init 3 (by decide)
      (by intro k hk; have hk2 : k < 2 := by omega
          interval_cases k <;> decide) (by decide)).2.2 3 (le_refl _)⟩

/-! ## Theorems: the storage and USB measurements -/

theorem storage_item_run (x : Extern) (item : Nat) (id : Storage) (w : World)
    (hr : (w.m1_item item).result = 0) (hc : x.storage_check id ≠ 0) :
    (check_device_storage_item x item id w).trace = w.trace ++
      ([Call.storage_check id, Call.set_status item (w.m1_item item).status eSTATUS_RUN,
        Call.storage_rw id] ++
        (if x.storage_rw id ≠ 0 then [Call.set_status item eSTATUS_RUN eSTATUS_STOP]
         else [])) ∧
    ((check_device_storage_item x item id w).m1_item item).result =
      (if x.storage_rw id ≠ 0 then eRESULT_PASS else eRESULT_FAIL) ∧
    ((check_device_storage_item x item id w).m1_item item).status =
      (if x.storage_rw id ≠ 0 then eSTATUS_STOP else eSTATUS_RUN) := by
  by_cases hv : x.storage_rw id = 0
  · simp [check_device_storage_item, hr, hc, hv, set_status, set_result, call, eRESULT_FAIL]
  · simp [check_device_storage_item, hr, hc, hv, set_status, set_result, call, eRESULT_PASS]

theorem usb_item_run (x : Extern) (item : Nat) (id : Int) (w : World)
    (hr : (w.m1_item item).result = 0) (hc : x.usb_check id ≠ 0) :
    (check_device_usb_item x item id w).trace = w.trace ++
      [Call.usb_check id, Call.set_status item (w.m1_item item).status eSTATUS_RUN,
        Call.usb_rw id, Call.set_status item eSTATUS_RUN eSTATUS_STOP] ∧
    ((check_device_usb_item x item id w).m1_item item).result =
      (if x.usb_rw id ≠ 0 then eRESULT_PASS else eRESULT_FAIL) ∧
    ((check_device_usb_item x item id w).m1_item item).status = eSTATUS_STOP := by
  by_cases hv : x.usb_rw id = 0
  · simp [check_device_usb_item, hr, hc, hv, set_status, set_result, call, eRESULT_FAIL]
  · simp [check_device_usb_item, hr, hc, hv, set_status, set_result, call, eRESULT_PASS]

theorem storage_item_ext (x : Extern) (item : Nat) (id : Storage) (w : World) :
    ∃ ext, (check_device_storage_item x item id w).trace = w.trace ++ ext ∧
      ∀ c, c ∈ ext → block_entry item [Call.storage_check id, Call.storage_rw id] c := by
  by_cases hr : (w.m1_item item).result = 0
  · by_cases hc : x.storage_check id = 0
    · refine ⟨[Call.storage_check id], ?_, ?_⟩
      · simp [check_device_storage_item, hr, hc, call]
      · intro c hmem
        simp only [List.mem_singleton] at hmem
        subst hmem
        exact Or.inl (by simp)
    · refine ⟨_, (storage_item_run x item id w hr hc).1, ?_⟩
      intro c hmem
      simp only [List.mem_append, List.mem_cons, List.mem_singleton, List.mem_nil_iff,
        or_false] at hmem
      rcases hmem with (h | h | h) | h
      · subst h; exact Or.inl (by simp)
      · subst h; exact Or.inr ⟨_, Or.inl rfl⟩
      · subst h; exact Or.inl (by simp)
      · split_ifs at h
        · simp only [List.mem_singleton] at h
          subst h; exact Or.inr ⟨_, Or.inr rfl⟩
        · simp at h
  · exact ⟨[], by rw [storage_item_skip x item id w hr]; simp, by simp⟩

theorem usb_item_ext (x : Extern) (item : Nat) (id : Int) (w : World) :
    ∃ ext, (check_device_usb_item x item id w).trace = w.trace ++ ext ∧
      ∀ c, c ∈ ext → block_entry item [Call.usb_check id, Call.usb_rw id] c := by
  by_cases hr : (w.m1_item item).result = 0
  · by_cases hc : x.usb_check id = 0
    · refine ⟨[Call.usb_check id], ?_, ?_⟩
      · simp [check_device_usb_item, hr, hc, call]
      · intro c hmem
        simp only [List.mem_singleton] at hmem
        subst hmem
        exact Or.inl (by simp)
    · refine ⟨_, (usb_item_run x item id w hr hc).1, ?_⟩
      intro c hmem
      simp only [List.mem_cons, List.mem_singleton, List.mem_nil_iff, or_false] at hmem
      rcases hmem with h | h | h | h
      · subst h; exact Or.inl (by simp)
      · subst h; exact Or.inr ⟨_, Or.inl rfl⟩
      · subst h; exact Or.inl (by simp)
      · subst h; exact Or.inr ⟨_, Or.inr rfl⟩
  · exact ⟨[], by rw [usb_item_skip x item id w hr]; simp, by simp⟩

theorem count_of_ext (t ext : List Call) (c : Call) (h : c ∉ ext) :
    count_calls c (t ++ ext) = count_calls c t := by
  simp only [count_calls, List.count_append]
  rw [List.count_eq_zero.mpr h]
  rfl

theorem storage_blocks_rest (x : Extern) (item : Nat) (c : Call) :
    ∀ (ps : List (Nat × Storage)) (w : World),
      (∀ p, p ∈ ps → p.1 ≠ item) →
      (∀ p, p ∈ ps → ¬ block_entry p.1 [Call.storage_check p.2, Call.storage_rw p.2] c) →
      (storage_blocks x ps w).m1_item item = w.m1_item item ∧
      count_calls c (storage_blocks x ps w).trace = count_calls c w.trace ∧
      (∀ d, d ∈ w.trace → d ∈ (storage_blocks x ps w).trace) := by
  intro ps
  induction ps with
  | nil => intro w _ _; exact ⟨rfl, rfl, fun _ h => h⟩
  | cons p rest ih =>
    intro w hi hc
    have hrec := ih (check_device_storage_item x p.1 p.2 w)
      (fun q hq => hi q (List.mem_cons_of_mem _ hq))
      (fun q hq => hc q (List.mem_cons_of_mem _ hq))
    obtain ⟨ext, hext, hentries⟩ := storage_item_ext x p.1 p.2 w
    have hfr := storage_item_frame x p.1 p.2 w item (fun h => hi p (List.mem_cons_self _ _) h.symm)
    have hnot : c ∉ ext := fun hmem => hc p (List.mem_cons_self _ _) (hentries c hmem)
    refine ⟨?_, ?_, ?_⟩
    · show (storage_blocks x rest _).m1_item item = _
      rw [hrec.1, hfr]
    · show count_calls c (storage_blocks x rest _).trace = _
      rw [hrec.2.1, hext, count_of_ext _ _ _ hnot]
    · intro d hd
      apply hrec.2.2
      rw [hext]
      exact List.mem_append_left _ hd

theorem usb_blocks_rest (x : Extern) (item : Nat) (c : Call) :
    ∀ (ps : List (Nat × Int)) (w : World),
      (∀ p, p ∈ ps → p.1 ≠ item) →
      (∀ p, p ∈ ps → ¬ block_entry p.1 [Call.usb_check p.2, Call.usb_rw p.2] c) →
      (usb_blocks x ps w).m1_item item = w.m1_item item ∧
      count_calls c (usb_blocks x ps w).trace = count_calls c w.trace ∧
      (∀ d, d ∈ w.trace → d ∈ (usb_blocks x ps w).trace) := by
  intro ps
  induction ps with
  | nil => intro w _ _; exact ⟨rfl, rfl, fun _ h => h⟩
  | cons p rest ih =>
    intro w hi hc
    have hrec := ih (check_device_usb_item x p.1 p.2 w)
      (fun q hq => hi q (List.mem_cons_of_mem _ hq))
      (fun q hq => hc q (List.mem_cons_of_mem _ hq))
    obtain ⟨ext, hext, hentries⟩ := usb_item_ext x p.1 p.2 w
    have hfr := usb_item_frame x p.1 p.2 w item (fun h => hi p (List.mem_cons_self _ _) h.symm)
    have hnot : c ∉ ext := fun hmem => hc p (List.mem_cons_self _ _) (hentries c hmem)
    refine ⟨?_, ?_, ?_⟩
    · show (usb_blocks x rest _).m1_item item = _
      rw [hrec.1, hfr]
    · show count_calls c (usb_blocks x rest _).trace = _
      rw [hrec.2.1, hext, count_of_ext _ _ _ hnot]
    · intro d hd
      apply hrec.2.2
      rw [hext]
      exact List.mem_append_left _ hd

theorem rw_not_entry_storage (item : Nat) (id id2 : Storage) (h : id2 ≠ id) :
    ¬ block_entry item [Call.storage_check id2, Call.storage_rw id2] (Call.storage_rw id) := by
  apply probe_not_block_entry
  · simp [h.symm]
  · intro i o n hcon; cases hcon

theorem rw_not_entry_usb (item : Nat) (id id2 : Int) (h : id2 ≠ id) :
    ¬ block_entry item [Call.usb_check id2, Call.usb_rw id2] (Call.usb_rw id) := by
  apply probe_not_block_entry
  · simp [h.symm]
  · intro i o n hcon; cases hcon

theorem storage_blocks_target (x : Extern) (item : Nat) (id : Storage)
    (hc : x.storage_check id ≠ 0) :
    ∀ (ps : List (Nat × Storage)) (w : World),
      ps.Pairwise (fun p q => p.1 ≠ q.1 ∧ p.2 ≠ q.2) → (item, id) ∈ ps →
      (w.m1_item item).result = 0 →
      count_calls (Call.storage_rw id) (storage_blocks x ps w).trace =
        count_calls (Call.storage_rw id) w.trace + 1 ∧
      Call.set_status item (w.m1_item item).status eSTATUS_RUN ∈
        (storage_blocks x ps w).trace ∧
      ((storage_blocks x ps w).m1_item item).result =
        (if x.storage_rw id ≠ 0 then eRESULT_PASS else eRESULT_FAIL) ∧
      ((storage_blocks x ps w).m1_item item).status =
        (if x.storage_rw id ≠ 0 then eSTATUS_STOP else eSTATUS_RUN) := by
  intro ps
  induction ps with
  | nil => intro w _ hmem; exact absurd hmem (List.not_mem_nil _)
  | cons p rest ih =>
    intro w hpw hmem hr
    rw [List.pairwise_cons] at hpw
    obtain ⟨hp, hrest⟩ := hpw
    rcases List.mem_cons.mp hmem with heq | hin
    · subst heq
      obtain ⟨htr, hres, hst⟩ := storage_item_run x item id w hr hc
      have hothers := storage_blocks_rest x item (Call.storage_rw id) rest
        (check_device_storage_item x item id w)
        (fun q hq => (hp q hq).1.symm)
        (fun q hq => rw_not_entry_storage q.1 id q.2 (hp q hq).2.symm)
      refine ⟨?_, ?_, ?_, ?_⟩
      · show count_calls _ (storage_blocks x rest _).trace = _
        rw [hothers.2.1, htr]
        simp only [count_calls, List.count_append]
        split_ifs <;> simp [List.count_cons]
      · apply hothers.2.2
        rw [htr]
        simp
      · show ((storage_blocks x rest _).m1_item item).result = _
        rw [hothers.1, hres]
      · show ((storage_blocks x rest _).m1_item item).status = _
        rw [hothers.1, hst]
    · have hne := hp (item, id) hin
      have hfr := storage_item_frame x p.1 p.2 w item (fun h => hne.1 h.symm)
      obtain ⟨ext, hext, hentries⟩ := storage_item_ext x p.1 p.2 w
      have hnot : Call.storage_rw id ∉ ext :=
        fun hm => rw_not_entry_storage p.1 id p.2 hne.2 (hentries _ hm)
      have hrec := ih (check_device_storage_item x p.1 p.2 w) hrest hin (by rw [hfr]; exact hr)
      rw [hfr] at hrec
      refine ⟨?_, hrec.2.1, hrec.2.2.1, hrec.2.2.2⟩
      show count_calls _ (storage_blocks x rest _).trace = _
      rw [hrec.1, hext, count_of_ext _ _ _ hnot]

theorem usb_blocks_target (x : Extern) (item : Nat) (id : Int)
    (hc : x.usb_check id ≠ 0) :
    ∀ (ps : List (Nat × Int)) (w : World),
      ps.Pairwise (fun p q => p.1 ≠ q.1 ∧ p.2 ≠ q.2) → (item, id) ∈ ps →
      (w.m1_item item).result = 0 →
      count_calls (Call.usb_rw id) (usb_blocks x ps w).trace =
        count_calls (Call.usb_rw id) w.trace + 1 ∧
      Call.set_status item (w.m1_item item).status eSTATUS_RUN ∈
        (usb_blocks x ps w).trace ∧
      ((usb_blocks x ps w).m1_item item).result =
        (if x.usb_rw id ≠ 0 then eRESULT_PASS else eRESULT_FAIL) ∧
      ((usb_blocks x ps w).m1_item item).status = eSTATUS_STOP := by
  intro ps
  induction ps with
  | nil => intro w _ hmem; exact absurd hmem (List.not_mem_nil _)
  | cons p rest ih =>
    intro w hpw hmem hr
    rw [List.pairwise_cons] at hpw
    obtain ⟨hp, hrest⟩ := hpw
    rcases List.mem_cons.mp hmem with heq | hin
    · subst heq
      obtain ⟨htr, hres, hst⟩ := usb_item_run x item id w hr hc
      have hothers := usb_blocks_rest x item (Call.usb_rw id) rest
        (check_device_usb_item x item id w)
        (fun q hq => (hp q hq).1.symm)
        (fun q hq => rw_not_entry_usb q.1 id q.2 (hp q hq).2.symm)
      refine ⟨?_, ?_, ?_, ?_⟩
      · show count_calls _ (usb_blocks x rest _).trace = _
        rw [hothers.2.1, htr]
        simp [count_calls, List.count_append, List.count_cons]
      · apply hothers.2.2
        rw [htr]
        simp
      · show ((usb_blocks x rest _).m1_item item).result = _
        rw [hothers.1, hres]
      · show ((usb_blocks x rest _).m1_item item).status = _
        rw [hothers.1, hst]
    · have hne := hp (item, id) hin
      have hfr := usb_item_frame x p.1 p.2 w item (fun h => hne.1 h.symm)
      obtain ⟨ext, hext, hentries⟩ := usb_item_ext x p.1 p.2 w
      have hnot : Call.usb_rw id ∉ ext :=
        fun hm => rw_not_entry_usb p.1 id p.2 hne.2 (hentries _ hm)
      have hrec := ih (check_device_usb_item x p.1 p.2 w) hrest hin (by rw [hfr]; exact hr)
      rw [hfr] at hrec
      refine ⟨?_, hrec.2.1, hrec.2.2.1, hrec.2.2.2⟩
      show count_calls _ (usb_blocks x rest _).trace = _
      rw [hrec.1, hext, count_of_ext _ _ _ hnot]

theorem storage_poll_blocks (x : Extern) (w : World) :
    (check_device_storage_poll x w).1 = storage_blocks x storage_items w ∨
    (check_device_storage_poll x w).1 =
      call (Call.usleep (APP_LOOP_DELAY * 1000)) (storage_blocks x storage_items w) := by
  simp only [check_device_storage_poll, storage_blocks, storage_items, List.foldl]
  split_ifs
  · exact Or.inl rfl
  · exact Or.inr rfl

theorem usb_poll_blocks (x : Extern) (w : World) :
    (check_device_usb_poll x w).1 = usb_blocks x usb_items w ∨
    (check_device_usb_poll x w).1 =
      call (Call.usleep (APP_LOOP_DELAY * 1000)) (usb_blocks x usb_items w) := by
  simp only [check_device_usb_poll, usb_blocks, usb_items, List.foldl]
  split_ifs
  · exact Or.inl rfl
  · exact Or.inr rfl

theorem storage_poll_target (x : Extern) (w : World) (item : Nat) (id : Storage)
    (hmem : (item, id) ∈ storage_items) (hr : (w.m1_item item).result = eRESULT_FAIL)
    (hc : x.storage_check id ≠ 0) :
    count_calls (Call.storage_rw id) (acts (run_op x Op.storage_poll) w) = 1 ∧
    Call.set_status item (w.m1_item item).status eSTATUS_RUN ∈
      acts (run_op x Op.storage_poll) w ∧
    ((run_op x Op.storage_poll w).m1_item item).result =
      (if x.storage_rw id ≠ 0 then eRESULT_PASS else eRESULT_FAIL) ∧
    ((run_op x Op.storage_poll w).m1_item item).status =
      (if x.storage_rw id ≠ 0 then eSTATUS_STOP else eSTATUS_RUN) := by
  have hpw : storage_items.Pairwise (fun p q => p.1 ≠ q.1 ∧ p.2 ≠ q.2) := by decide
  have h0 := storage_blocks_target x item id hc storage_items { w with trace := [] } hpw hmem hr
  have h1 := storage_blocks_target x item id hc storage_items w hpw hmem hr
  refine ⟨?_, ?_, ?_, ?_⟩
  · simp only [acts, run_op]
    rcases storage_poll_blocks x { w with trace := [] } with h | h
    · rw [h, h0.1]; simp [count_calls]
    · rw [h]
      show count_calls _ (_ ++ [_]) = 1
      rw [count_of_ext _ _ _ (by simp), h0.1]; simp [count_calls]
  · simp only [acts, run_op]
    rcases storage_poll_blocks x { w with trace := [] } with h | h
    · rw [h]; exact h0.2.1
    · rw [h]
      exact List.mem_append_left _ h0.2.1
  · simp only [run_op]
    rcases storage_poll_blocks x w with h | h
    · rw [h]; exact h1.2.2.1
    · rw [h]; exact h1.2.2.1
  · simp only [run_op]
    rcases storage_poll_blocks x w with h | h
    · rw [h]; exact h1.2.2.2
    · rw [h]; exact h1.2.2.2

theorem usb_poll_target (x : Extern) (w : World) (item : Nat) (id : Int)
    (hmem : (item, id) ∈ usb_items) (hr : (w.m1_item item).result = eRESULT_FAIL)
    (hc : x.usb_check id ≠ 0) :
    count_calls (Call.usb_rw id) (acts (run_op x Op.usb_poll) w) = 1 ∧
    Call.set_status item (w.m1_item item).status eSTATUS_RUN ∈
      acts (run_op x Op.usb_poll) w ∧
    ((run_op x Op.usb_poll w).m1_item item).result =
      (if x.usb_rw id ≠ 0 then eRESULT_PASS else eRESULT_FAIL) ∧
    ((run_op x Op.usb_poll w).m1_item item).status = eSTATUS_STOP := by
  have hpw : usb_items.Pairwise (fun p q => p.1 ≠ q.1 ∧ p.2 ≠ q.2) := by decide
  have h0 := usb_blocks_target x item id hc usb_items { w with trace := [] } hpw hmem hr
  have h1 := usb_blocks_target x item id hc usb_items w hpw hmem hr
  refine ⟨?_, ?_, ?_, ?_⟩
  · simp only [acts, run_op]
    rcases usb_poll_blocks x { w with trace := [] } with h | h
    · rw [h, h0.1]; simp [count_calls]
    · rw [h]
      show count_calls _ (_ ++ [_]) = 1
      rw [count_of_ext _ _ _ (by simp), h0.1]; simp [count_calls]
  · simp only [acts, run_op]
    rcases usb_poll_blocks x { w with trace := [] } with h | h
    · rw [h]; exact h0.2.1
    · rw [h]
      exact List.mem_append_left _ h0.2.1
  · simp only [run_op]
    rcases usb_poll_blocks x w with h | h
    · rw [h]; exact h1.2.2.1
    · rw [h]; exact h1.2.2.1
  · simp only [run_op]
    rcases usb_poll_blocks x w with h | h
    · rw [h]; exact h1.2.2.2
    · rw [h]; exact h1.2.2.2

/-! ## Theorems: the header pattern engine -/

theorem header_driven_append (t u : List Call) :
    header_driven (t ++ u) = header_driven t ++ header_driven u := by
  simp [header_driven, List.filterMap_append]

theorem pattern_write_scan_spec (pattern : Int) (l : List Nat) :
    ∀ w : World,
      (pattern_write_scan pattern l w).m1_item = w.m1_item ∧
      (pattern_write_scan pattern l w).EventIR = w.EventIR ∧
      header_driven (pattern_write_scan pattern l w).trace = header_driven w.trace ∧
      count_calls (Call.adc_board_read "CON1") (pattern_write_scan pattern l w).trace =
        count_calls (Call.adc_board_read "CON1") w.trace := by
  induction l with
  | nil => intro w; exact ⟨rfl, rfl, rfl, rfl⟩
  | cons i rest ih =>
    intro w
    simp only [pattern_write_scan]
    split_ifs with h
    · obtain ⟨h1, h2, h3, h4⟩ := ih (call (Call.gpio_set_value (header40 i)
        (h40_pattern pattern i)) w)
      refine ⟨h1, h2, ?_, ?_⟩
      · rw [h3]
        simp [call, header_driven, List.filterMap_append]
      · rw [h4]
        simp [call, count_calls, List.count_append, List.count_cons]
    · exact ih w

theorem header_pattern_set_spec (id : Int) (w : World) :
    (header_pattern_set id w).1.m1_item = w.m1_item ∧
    (header_pattern_set id w).1.EventIR = w.EventIR ∧
    header_driven (header_pattern_set id w).1.trace = header_driven w.trace ++ [id] ∧
    count_calls (Call.adc_board_read "CON1") (header_pattern_set id w).1.trace =
      count_calls (Call.adc_board_read "CON1") w.trace := by
  have hcall : header_driven (call (Call.header_pattern_set id) w).trace =
      header_driven w.trace ++ [id] := by
    simp [call, header_driven, List.filterMap_append]
  have hcnt : count_calls (Call.adc_board_read "CON1")
      (call (Call.header_pattern_set id) w).trace =
      count_calls (Call.adc_board_read "CON1") w.trace := by
    simp [call, count_calls, List.count_append, List.count_cons]
  simp only [header_pattern_set, pattern_write]
  split_ifs
  · obtain ⟨h1, h2, h3, h4⟩ := pattern_write_scan_spec id (List.range HEADER40.length)
      (call (Call.header_pattern_set id) w)
    exact ⟨h1, h2, by rw [h3, hcall], by rw [h4, hcnt]⟩
  · exact ⟨rfl, rfl, hcall, hcnt⟩

theorem check_header_item_skip (rd : Nat → Nat → Int) (i : Nat) (w : World)
    (h : (w.m1_item (eITEM_HEADER_PT1 + i)).result ≠ 0) : check_header_item rd i w = w := by
  simp [check_header_item, h]

theorem check_header_item_run (rd : Nat → Nat → Int) (i : Nat) (w : World)
    (h : (w.m1_item (eITEM_HEADER_PT1 + i)).result = 0) :
    header_driven (check_header_item rd i w).trace = header_driven w.trace ++ [(i : Int)] ∧
    count_calls (Call.adc_board_read "CON1") (check_header_item rd i w).trace =
      count_calls (Call.adc_board_read "CON1") w.trace + 1 ∧
    ((check_header_item rd i w).m1_item (eITEM_HEADER_PT1 + i)).result =
      (if header_pattern_check i (con1_samples (rd i)) ≠ 0 then eRESULT_PASS
       else eRESULT_FAIL) ∧
    ((check_header_item rd i w).m1_item (eITEM_HEADER_PT1 + i)).status = eSTATUS_STOP := by
  obtain ⟨_, _, h3, h4⟩ := header_pattern_set_spec i
    (set_status (eITEM_HEADER_PT1 + i) eSTATUS_RUN w)
  have h3b : header_driven (header_pattern_set (↑i)
      (set_status (eITEM_HEADER_PT1 + i) eSTATUS_RUN w)).1.trace =
      header_driven w.trace ++ [(i : Int)] := by
    rw [h3]
    simp [set_status, header_driven, List.filterMap_append]
  have h4b : List.count (Call.adc_board_read "CON1") (header_pattern_set (↑i)
      (set_status (eITEM_HEADER_PT1 + i) eSTATUS_RUN w)).1.trace =
      List.count (Call.adc_board_read "CON1") w.trace := by
    have := h4
    simp only [count_calls] at this
    rw [this]
    simp [set_status, List.count_append, List.count_cons]
  simp only [check_header_item, h, if_true]
  generalize (header_pattern_set (↑i) (set_status (eITEM_HEADER_PT1 + i) eSTATUS_RUN w)).1 = W
    at h3b h4b ⊢
  refine ⟨?_, ?_, ?_, ?_⟩
  · split_ifs <;>
      simp [set_status, set_result, call, header_driven_append, h3b] <;>
      simp [header_driven]
  · split_ifs <;>
      simp [set_status, set_result, call, count_calls, List.count_append, List.count_cons,
        h4b]
  · split_ifs <;> simp [set_status, set_result, call]
  · split_ifs <;> simp [set_status, set_result, call]

theorem check_header_item_frame (rd : Nat → Nat → Int) (i : Nat) (w : World) (j : Nat)
    (hj : j ≠ eITEM_HEADER_PT1 + i) :
    (check_header_item rd i w).m1_item j = w.m1_item j := by
  by_cases h : (w.m1_item (eITEM_HEADER_PT1 + i)).result = 0
  · obtain ⟨h1, _, _, _⟩ := header_pattern_set_spec i
      (set_status (eITEM_HEADER_PT1 + i) eSTATUS_RUN w)
    have h1j : (header_pattern_set (↑i)
        (set_status (eITEM_HEADER_PT1 + i) eSTATUS_RUN w)).1.m1_item j = w.m1_item j := by
      rw [h1]; simp [set_status, hj]
    simp only [check_header_item, h, if_true]
    generalize (header_pattern_set (↑i) (set_status (eITEM_HEADER_PT1 + i) eSTATUS_RUN w)).1
      = W at h1j ⊢
    split_ifs <;> simp [set_status, set_result, call, hj, h1j]
  · rw [check_header_item_skip rd i w h]

theorem check_header_item_event (rd : Nat → Nat → Int) (i : Nat) (w : World) :
    (check_header_item rd i w).EventIR = w.EventIR := by
  by_cases h : (w.m1_item (eITEM_HEADER_PT1 + i)).result = 0
  · obtain ⟨_, h2, _, _⟩ := header_pattern_set_spec i
      (set_status (eITEM_HEADER_PT1 + i) eSTATUS_RUN w)
    have h2b : (header_pattern_set (↑i)
        (set_status (eITEM_HEADER_PT1 + i) eSTATUS_RUN w)).1.EventIR = w.EventIR := by
      rw [h2]; rfl
    simp only [check_header_item, h, if_true]
    generalize (header_pattern_set (↑i) (set_status (eITEM_HEADER_PT1 + i) eSTATUS_RUN w)).1
      = W at h2b ⊢
    split_ifs <;> simp [set_status, set_result, call, h2b]
  · rw [check_header_item_skip rd i w h]

theorem check_header_loop_spec (rd : Nat → Nat → Int) (n : Nat) (w : World) :
    header_driven (check_header_loop rd n w).trace = header_driven w.trace ++
      ((List.range n).filter
        (fun i => (w.m1_item (eITEM_HEADER_PT1 + i)).result = 0)).map Int.ofNat ∧
    count_calls (Call.adc_board_read "CON1") (check_header_loop rd n w).trace =
      count_calls (Call.adc_board_read "CON1") w.trace +
        ((List.range n).filter
          (fun i => (w.m1_item (eITEM_HEADER_PT1 + i)).result = 0)).length ∧
    (∀ j, (∀ i, i < n → j ≠ eITEM_HEADER_PT1 + i) →
      (check_header_loop rd n w).m1_item j = w.m1_item j) ∧
    (∀ i, i < n → (w.m1_item (eITEM_HEADER_PT1 + i)).result = 0 →
      ((check_header_loop rd n w).m1_item (eITEM_HEADER_PT1 + i)).result =
        (if header_pattern_check i (con1_samples (rd i)) ≠ 0 then eRESULT_PASS
         else eRESULT_FAIL) ∧
      ((check_header_loop rd n w).m1_item (eITEM_HEADER_PT1 + i)).status = eSTATUS_STOP) ∧
    (∀ i, i < n → (w.m1_item (eITEM_HEADER_PT1 + i)).result ≠ 0 →
      (check_header_loop rd n w).m1_item (eITEM_HEADER_PT1 + i) =
        w.m1_item (eITEM_HEADER_PT1 + i)) ∧
    (check_header_loop rd n w).EventIR = w.EventIR := by
  induction n with
  | zero =>
    refine ⟨by simp [check_header_loop], by simp [check_header_loop], fun _ _ => rfl,
      fun i hi => absurd hi (Nat.not_lt_zero _), fun i hi => absurd hi (Nat.not_lt_zero _), rfl⟩
  | succ n ih =>
    obtain ⟨ih1, ih2, ih3, ih4, ih5, ih6⟩ := ih
    have hsame : (check_header_loop rd n w).m1_item (eITEM_HEADER_PT1 + n) =
        w.m1_item (eITEM_HEADER_PT1 + n) :=
      ih3 _ (fun i hi => by omega)
    have hother : ∀ i, i < n →
        (check_header_item rd n (check_header_loop rd n w)).m1_item (eITEM_HEADER_PT1 + i) =
        (check_header_loop rd n w).m1_item (eITEM_HEADER_PT1 + i) :=
      fun i hi => check_header_item_frame rd n _ _ (by omega)
    simp only [check_header_loop, List.range_succ, List.filter_append, List.map_append,
      List.length_append]
    by_cases hr : (w.m1_item (eITEM_HEADER_PT1 + n)).result = 0
    · have hr2 : ((check_header_loop rd n w).m1_item (eITEM_HEADER_PT1 + n)).result = 0 := by
        rw [hsame]; exact hr
      obtain ⟨r1, r2, r3, r4⟩ := check_header_item_run rd n _ hr2
      refine ⟨?_, ?_, ?_, ?_, ?_, ?_⟩
      · rw [r1, ih1]
        simp [hr]
      · rw [r2, ih2]
        simp [hr]
        omega
      · intro j hj
        rw [check_header_item_frame rd n _ j (hj n (Nat.lt_succ_self _))]
        exact ih3 j (fun i hi => hj i (by omega))
      · intro i hi hri
        by_cases hin : i = n
        · subst hin
          exact ⟨r3, r4⟩
        · rw [hother i (by omega)]
          exact ih4 i (by omega) hri
      · intro i hi hri
        by_cases hin : i = n
        · subst hin
          exact absurd hr hri
        · rw [hother i (by omega)]
          exact ih5 i (by omega) hri
      · rw [check_header_item_event, ih6]
    · have hr2 : ((check_header_loop rd n w).m1_item (eITEM_HEADER_PT1 + n)).result ≠ 0 := by
        rw [hsame]; exact hr
      rw [check_header_item_skip rd n _ hr2]
      refine ⟨?_, ?_, ?_, ?_, ?_, ih6⟩
      · rw [ih1]
        simp [hr]
      · rw [ih2]
        simp [hr]
      · intro j hj
        exact ih3 j (fun i hi => hj i (by omega))
      · intro i hi hri
        by_cases hin : i = n
        · subst hin
          exact absurd hri hr
        · exact ih4 i (by omega) hri
      · intro i hi hri
        by_cases hin : i = n
        · subst hin
          exact hsame
        · exact ih5 i (by omega) hri

set_option maxRecDepth 100000 in
/-- C16, as stated, fails: the first call of `check_header` drives all four
patterns, not one; and when the read back leaves the patterns 0, 2 and 3 at
FAIL, the next call drives these three again. -/
theorem check_header_drives_all_pending :
    header_driven (acts (fun v => (check_header adc_reads_zero 0 v).1) world_init)
      = [0, 1, 2, 3] ∧
    header_pending world_header_once.m1_item = [0, 2, 3] ∧
    header_driven (acts (fun v => (check_header adc_reads_zero 1 v).1) world_header_once)
      = [0, 2, 3] := by
  decide

/-- C16, amended: a call of `check_header` drives and samples, once each and in
index order, exactly the patterns whose item has result FAIL when the call
starts: all four at the first call, and at a later call those that have not
passed yet.  Each of them ends at STOP with the result its classification
gives, whatever the classification of the patterns before it; a pattern whose
item has passed is not driven again and its item stays as it is. -/
theorem check_header_drives (rd : Nat → Nat → Int) (init : Int) (w : World) :
    header_driven (acts (fun v => (check_header rd init v).1) w) = header_pending w.m1_item ∧
    count_calls (Call.adc_board_read "CON1") (acts (fun v => (check_header rd init v).1) w)
      = (header_pending w.m1_item).length ∧
    (∀ i, i < eHEADER_END → (w.m1_item (eITEM_HEADER_PT1 + i)).result = eRESULT_FAIL →
      (i : Int) ∈ header_driven (acts (fun v => (check_header rd init v).1) w) ∧
      ((check_header rd init w).1.m1_item (eITEM_HEADER_PT1 + i)).result =
        (if header_pattern_check i (con1_samples (rd i)) ≠ 0 then eRESULT_PASS
         else eRESULT_FAIL) ∧
      ((check_header rd init w).1.m1_item (eITEM_HEADER_PT1 + i)).status = eSTATUS_STOP) ∧
    (∀ i, i < eHEADER_END → (w.m1_item (eITEM_HEADER_PT1 + i)).result ≠ eRESULT_FAIL →
      (i : Int) ∉ header_driven (acts (fun v => (check_header rd init v).1) w) ∧
      (check_header rd init w).1.m1_item (eITEM_HEADER_PT1 + i) =
        w.m1_item (eITEM_HEADER_PT1 + i)) ∧
    ((∀ i, i < eHEADER_END → (w.m1_item (eITEM_HEADER_PT1 + i)).result = eRESULT_FAIL) →
      header_driven (acts (fun v => (check_header rd init v).1) w) = [0, 1, 2, 3]) := by
  have hdriven : header_driven (acts (fun v => (check_header rd init v).1) w) =
      header_pending w.m1_item := by
    simp only [acts, check_header]
    split_ifs
    · rw [(check_header_loop_spec rd eHEADER_END _).1]
      simp [call, header_driven, header_pending]
    · rw [(check_header_loop_spec rd eHEADER_END _).1]
      simp [header_driven, header_pending]
  have hitems : ∀ v : World, (check_header rd init v).1 =
      check_header_loop rd eHEADER_END (if init = 0 then call Call.header_init v else v) := by
    intro v; rfl
  have hw0 : (if init = 0 then call Call.header_init w else w).m1_item = w.m1_item := by
    split_ifs <;> rfl
  have hmem : ∀ i : Nat, (i : Int) ∈ header_pending w.m1_item ↔
      (i < eHEADER_END ∧ (w.m1_item (eITEM_HEADER_PT1 + i)).result = 0) := by
    intro i
    simp only [header_pending, List.mem_map, List.mem_filter, List.mem_range,
      decide_eq_true_eq]
    constructor
    · rintro ⟨a, ⟨ha, hra⟩, hai⟩
      have : a = i := Int.ofNat.inj hai
      subst this
      exact ⟨ha, hra⟩
    · rintro ⟨hi, hri⟩
      exact ⟨i, ⟨hi, hri⟩, rfl⟩
  refine ⟨hdriven, ?_, ?_, ?_, ?_⟩
  · simp only [acts, check_header]
    split_ifs
    · rw [(check_header_loop_spec rd eHEADER_END _).2.1]
      simp [call, count_calls, header_pending]
    · rw [(check_header_loop_spec rd eHEADER_END _).2.1]
      simp [count_calls, header_pending]
  · intro i hi hr
    refine ⟨by rw [hdriven]; exact (hmem i).mpr ⟨hi, hr⟩, ?_⟩
    rw [hitems w]
    exact (check_header_loop_spec rd eHEADER_END _).2.2.2.1 i hi (by rw [hw0]; exact hr)
  · intro i hi hr
    refine ⟨by rw [hdriven]; exact fun h => hr ((hmem i).mp h).2, ?_⟩
    rw [hitems w, (check_header_loop_spec rd eHEADER_END _).2.2.2.2.1 i hi
      (by rw [hw0]; exact hr), hw0]
  · intro hall
    rw [hdriven]
    have h0 := hall 0 (by decide)
    have h1 := hall 1 (by decide)
    have h2 := hall 2 (by decide)
    have h3 := hall 3 (by decide)
    simp only [eRESULT_FAIL] at h0 h1 h2 h3
    have h0b : (w.m1_item eITEM_HEADER_PT1).result = 0 := h0
    simp [header_pending, eHEADER_END, List.range_succ, List.filter, h0b, h1, h2, h3]

set_option maxRecDepth 100000 in
/-- C16, amended, at the state after a first call with 0 mV on every pin:
pattern 1, all low, has passed and is not driven again, pattern 2 is. -/
theorem check_header_drives_witness :
    (world_header_once.m1_item (eITEM_HEADER_PT1 + 1)).result = eRESULT_PASS ∧
    (1 : Int) ∉ header_driven
      (acts (fun v => (check_header adc_reads_zero 1 v).1) world_header_once) ∧
    (2 : Int) ∈ header_driven
      (acts (fun v => (check_header adc_reads_zero 1 v).1) world_header_once) :=
  ⟨by decide,
   ((check_header_drives adc_reads_zero 1 world_header_once).2.2.2.1 1 (by decide)
      (by decide)).1,
   ((check_header_drives adc_reads_zero 1 world_header_once).2.2.1 2 (by decide)
      (by decide)).1⟩

/-! ## Theorems: the sequencer loop -/

theorem hdmi_item_event (x : Extern) (item : Nat) (id : Int) (w : World) :
    (check_device_hdmi_item x item id w).EventIR = w.EventIR := by
  simp only [check_device_hdmi_item, set_status, set_result, call]
  split_ifs <;> rfl

theorem adc_item_event (x : Extern) (item : Nat) (id : AdcId) (w : World) :
    (check_device_adc_item x item id w).EventIR = w.EventIR := by
  simp only [check_device_adc_item, set_status, set_result, call]
  split_ifs <;> rfl

theorem system_mem_event (x : Extern) (w : World) :
    (check_device_system_mem x w).EventIR = w.EventIR := by
  simp only [check_device_system_mem, set_status, set_result, call]
  split_ifs <;> rfl

theorem system_fb_event (x : Extern) (w : World) :
    (check_device_system_fb x w).EventIR = w.EventIR := by
  simp only [check_device_system_fb, set_status, set_result, call]
  split_ifs <;> rfl

theorem system_model_event (w : World) :
    (check_device_system_model w).EventIR = w.EventIR := by
  simp only [check_device_system_model, set_result]
  split_ifs <;> rfl

theorem check_header_event (rd : Nat → Nat → Int) (init : Int) (w : World) :
    (check_header rd init w).1.EventIR = w.EventIR := by
  simp only [check_header]
  rw [(check_header_loop_spec rd eHEADER_END _).2.2.2.2.2]
  split_ifs <;> rfl

theorem main_dispatch_flag (x : Extern) (w : World) :
    (main_dispatch x w).2 = true ↔ w.EventIR = eEVENT_BACK := by
  simp only [main_dispatch]
  split_ifs <;>
    simp_all [eEVENT_NONE, eEVENT_ETH_GLED, eEVENT_ETH_OLED, eEVENT_HP_L, eEVENT_HP_R,
      eEVENT_MAC_PRINT, eEVENT_STOP, eEVENT_ENTER, eEVENT_BACK] <;>
    omega

theorem main_dispatch_event (x : Extern) (w : World) (h : w.EventIR ≠ eEVENT_BACK) :
    (main_dispatch x w).1.EventIR = eEVENT_NONE := by
  simp only [main_dispatch]
  split_ifs <;> simp_all

theorem main_loop_body_dispatched (x : Extern) (rd : Nat → Nat → Int) (init : Int)
    (w : World) :
    ∃ v : World, v.EventIR = w.EventIR ∧
      (main_loop_body x rd init w).2 = (main_dispatch x v).2 ∧
      (main_loop_body x rd init w).1.1 = (main_dispatch x v).1 := by
  refine ⟨call (Call.usleep (APP_LOOP_DELAY * 1000))
    (check_header rd init (check_device_adc x (check_device_system x
      (check_device_hdmi x w).1).1).1).1, ?_, rfl, rfl⟩
  show (check_header rd init (check_device_adc x (check_device_system x
      (check_device_hdmi x w).1).1).1).1.EventIR = w.EventIR
  rw [check_header_event]
  simp only [check_device_adc, check_device_system, check_device_hdmi, adc_item_event,
    system_model_event, system_fb_event, system_mem_event, hdmi_item_event]

/-- C15, as stated, fails: with the countdown `TimeoutStop` at 0 and no event
pending, one round of the loop of `main` does not end the loop. -/
theorem loop_goes_on_at_countdown_zero :
    world_countdown_over.TimeoutStop = 0 ∧
    (main_loop_body (extern_const 0) adc_reads_zero 0 world_countdown_over).2 = false := by
  refine ⟨rfl, ?_⟩
  obtain ⟨v, hv, hflag, _⟩ :=
    main_loop_body_dispatched (extern_const 0) adc_reads_zero 0 world_countdown_over
  rw [hflag, Bool.eq_false_iff]
  intro h
  have hb := (main_dispatch_flag (extern_const 0) v).mp h
  rw [hv] at hb
  exact absurd hb (by decide)

/-- C15, amended: one round of the loop of `main` ends the loop iff the event
pending at the round is `eEVENT_BACK`, whatever the countdown `TimeoutStop`
holds, 0 included; with any other event, or none, the loop goes on and
`EventIR` is `eEVENT_NONE` after the round. -/
theorem loop_ends_on_back_only (x : Extern) (rd : Nat → Nat → Int) (init : Int) (w : World) :
    ((main_loop_body x rd init w).2 = true ↔ w.EventIR = eEVENT_BACK) ∧
    (w.EventIR ≠ eEVENT_BACK →
      (main_loop_body x rd init w).2 = false ∧
      (main_loop_body x rd init w).1.1.EventIR = eEVENT_NONE) := by
  obtain ⟨v, hv, hflag, hworld⟩ := main_loop_body_dispatched x rd init w
  have hiff : (main_loop_body x rd init w).2 = true ↔ w.EventIR = eEVENT_BACK := by
    rw [hflag, ← hv]
    exact main_dispatch_flag x v
  refine ⟨hiff, fun h => ⟨?_, ?_⟩⟩
  · rw [Bool.eq_false_iff]
    exact fun hf => h (hiff.mp hf)
  · rw [hworld]
    exact main_dispatch_event x v (by rw [hv]; exact h)

/-- C15, amended, at start up: with the event of the key BACK pending the round
ends the loop; with the event of the key HOME pending it does not, and the
event is cleared. -/
theorem loop_ends_on_back_only_witness :
    (main_loop_body (extern_const 1) adc_reads_zero 0 world_back_pending).2 = true ∧
    (check_device_ir_event key_home world_init).EventIR ≠ eEVENT_BACK ∧
    (main_loop_body (extern_const 1) adc_reads_zero 0
      (check_device_ir_event key_home world_init)).2 = false ∧
    (main_loop_body (extern_const 1) adc_reads_zero 0
      (check_device_ir_event key_home world_init)).1.1.EventIR = eEVENT_NONE :=
  ⟨(loop_ends_on_back_only (extern_const 1) adc_reads_zero 0 world_back_pending).1.mpr rfl,
   by decide,
   (loop_ends_on_back_only (extern_const 1) adc_reads_zero 0
      (check_device_ir_event key_home world_init)).2 (by decide)⟩

/-! ## Theorems: the initial registry -/

set_option maxRecDepth 100000 in
/-- C23: in the initial registry `m1_item` every item has status WAIT and
result FAIL, except the two items `eITEM_STATUS` (named "sta") and
`eITEM_ETHERNET_LED` (named "eth-led"), which have status STOP and result
PASS; these two are the only items that are not WAIT or not FAIL, and the
program starts from this registry. -/
theorem registry_initial :
    (∀ i, i < eITEM_END →
      (if i = eITEM_STATUS ∨ i = eITEM_ETHERNET_LED then
        (m1_item i).status = eSTATUS_STOP ∧ (m1_item i).result = eRESULT_PASS
       else (m1_item i).status = eSTATUS_WAIT ∧ (m1_item i).result = eRESULT_FAIL) ∧
      ((m1_item i).name = "sta" ↔ i = eITEM_STATUS) ∧
      ((m1_item i).name = "eth-led" ↔ i = eITEM_ETHERNET_LED)) ∧
    (List.range eITEM_END).filter
      (fun i => (m1_item i).status ≠ eSTATUS_WAIT ∨ (m1_item i).result ≠ eRESULT_FAIL)
      = [eITEM_STATUS, eITEM_ETHERNET_LED] ∧
    m1_item_table.length = eITEM_END ∧
    world_init.m1_item = m1_item := by
  refine ⟨?_, by decide, by decide, rfl⟩
  decide

/-! ## Theorems: the iperf threshold -/

/-- C25, as stated, fails: an attempt that measures exactly 800 Mb/s ends with
result FAIL. -/
theorem iperf_800_fails :
    ((iperf_attempt (extern_iperf 800) 0 world_init).m1_item eITEM_IPERF).result
      = eRESULT_FAIL := by
  rw [(iperf_attempt_item (extern_iperf 800) 0 world_init).1]
  decide

/-- C25, amended: an attempt of `check_iperf_speed` ends with result PASS iff
the measured value is greater than `IPERF_SPEED_MIN` = 800, that is at least
801, and with result FAIL otherwise; the status is STOP either way. -/
theorem iperf_threshold (x : Extern) (k : Nat) (w : World) :
    IPERF_SPEED_MIN = 800 ∧
    (((iperf_attempt x k w).m1_item eITEM_IPERF).result = eRESULT_PASS ↔
      801 ≤ x.iperf3_speed_check k) ∧
    (((iperf_attempt x k w).m1_item eITEM_IPERF).result = eRESULT_FAIL ↔
      x.iperf3_speed_check k ≤ 800) ∧
    ((iperf_attempt x k w).m1_item eITEM_IPERF).status = eSTATUS_STOP := by
  obtain ⟨h1, h2⟩ := iperf_attempt_item x k w
  refine ⟨rfl, ?_, ?_, h2⟩
  · rw [h1]
    simp only [IPERF_SPEED_MIN, eRESULT_PASS, eRESULT_FAIL]
    split_ifs with h
    · constructor
      · intro _; omega
      · intro _; rfl
    · constructor
      · intro h0; exact absurd h0 (by decide)
      · intro h0; omega
  · rw [h1]
    simp only [IPERF_SPEED_MIN, eRESULT_PASS, eRESULT_FAIL]
    split_ifs with h
    · constructor
      · intro h0; exact absurd h0 (by decide)
      · intro h0; omega
    · constructor
      · intro _; omega
      · intro _; rfl

/-! ## Theorems: the liveness item of the IR reader -/

/-- C26: an event of type EV_KEY, whatever its code, sets the item `eITEM_IR`
to result PASS and status STOP; an event of any other type leaves the whole
state as it is, the item `eITEM_IR` and `EventIR` included.  A key event with
an unmapped code sets the item all the same and clears `EventIR`. -/
theorem ir_liveness :
    (∀ (w : World) (e : input_event), e.type = EV_KEY →
      ((check_device_ir_event e w).m1_item eITEM_IR).result = eRESULT_PASS ∧
      ((check_device_ir_event e w).m1_item eITEM_IR).status = eSTATUS_STOP) ∧
    (∀ (w : World) (e : input_event), e.type ≠ EV_KEY →
      check_device_ir_event e w = w ∧
      (check_device_ir_event e w).m1_item eITEM_IR = w.m1_item eITEM_IR ∧
      (check_device_ir_event e w).EventIR = w.EventIR) ∧
    ((check_device_ir_event key_unmapped world_back_pending).m1_item eITEM_IR).result
      = eRESULT_PASS ∧
    (check_device_ir_event key_unmapped world_back_pending).EventIR = eEVENT_NONE ∧
    (check_device_ir_event event_unknown world_init).m1_item eITEM_IR = m1_item eITEM_IR := by
  refine ⟨?_, ?_, by decide, by decide, by decide⟩
  · intro w e h
    rw [ir_event_key e w h]
    simp [set_status, set_result]
  · intro w e h
    have hw : check_device_ir_event e w = w := by
      unfold check_device_ir_event
      rw [if_neg h]
      split_ifs <;> rfl
    rw [hw]
    exact ⟨rfl, rfl, rfl⟩

/-! ## Theorems: the rows of the error report -/

set_option maxRecDepth 100000 in
/-- C29 fails on the code: with the startup registry, and also with the
registry after a bootstrap in which every check passed, the loop of
`errcode_print` raises `line` to 2 = `PRINT_MAX_LINE` and writes names into
row 2 of a buffer that has the rows 0 and 1 only. -/
theorem errcode_line_reaches_two :
    (errcode_scan world_init.m1_item eITEM_END).line = PRINT_MAX_LINE ∧
    (errcode_scan world_init.m1_item eITEM_END).err_msg 2
      = "h4,bt-u,bt_d,adc37,adc40,hp-l,hp-r,hp-i,hp-o,".data ∧
    (errcode_scan registry_after_bootstrap eITEM_END).line = PRINT_MAX_LINE ∧
    (errcode_scan registry_after_bootstrap eITEM_END).err_msg 2
      = "hp-i,hp-o,".data := by
  decide

/-! ## Theorems: pattern indices outside the table -/

/-- C30 fails on the code: for an index at or above `PATTERN_COUNT`,
`header_pattern_set` returns 0 and drives no pin, but `header_pattern_check`
returns 1, the value of a pattern that passed, for every sample vector. -/
theorem header_out_of_table :
    header_pattern_check 4 (fun _ => 0) = 1 ∧
    (header_pattern_set 4 world_init).2 = 0 ∧
    (∀ (id : Int) (samples : Nat → Int), PATTERN_COUNT ≤ id →
      header_pattern_check id samples = 1) ∧
    (∀ (id : Int) (w : World), PATTERN_COUNT ≤ id →
      (header_pattern_set id w).2 = 0 ∧
      acts (fun v => (header_pattern_set id v).1) w = [Call.header_pattern_set id]) := by
  refine ⟨by decide, by decide, ?_, ?_⟩
  · intro id samples h
    have h2 : ¬ id < PATTERN_COUNT := not_lt.mpr h
    simp [header_pattern_check, h2]
  · intro id w h
    have h2 : ¬ id < PATTERN_COUNT := not_lt.mpr h
    simp [header_pattern_set, pattern_write, h2, acts, call]

/-! ## Theorems: the MAC address check -/

/-- C22: from the item `eITEM_MAC_ADDR` at result FAIL, `check_mac_addr` returns
1 with the item at PASS iff the fuse read succeeds and either the value read is
valid, or the server request, the fuse write and the second validity check all
succeed; otherwise it returns 0 with the item at FAIL.  The item ends at STOP in
every case, and when the value read is valid neither `mac_server_request` nor
the fuse write is called. -/
theorem check_mac_addr_spec (x : Extern) (w : World)
    (h : (w.m1_item eITEM_MAC_ADDR).result = eRESULT_FAIL) :
    (((check_mac_addr x w).2 = 1 ∧
        ((check_mac_addr x w).1.m1_item eITEM_MAC_ADDR).result = eRESULT_PASS) ↔
      (x.efuse_control_read ≠ 0 ∧ (x.efuse_valid_check 0 ≠ 0 ∨
        (x.efuse_valid_check 0 = 0 ∧ x.mac_server_request ≠ 0 ∧ x.efuse_control_write ≠ 0 ∧
          x.efuse_valid_check 1 ≠ 0)))) ∧
    (((check_mac_addr x w).2 = 1 ∧
        ((check_mac_addr x w).1.m1_item eITEM_MAC_ADDR).result = eRESULT_PASS) ∨
     ((check_mac_addr x w).2 = 0 ∧
        ((check_mac_addr x w).1.m1_item eITEM_MAC_ADDR).result = eRESULT_FAIL)) ∧
    ((check_mac_addr x w).1.m1_item eITEM_MAC_ADDR).status = eSTATUS_STOP ∧
    (x.efuse_control_read ≠ 0 → x.efuse_valid_check 0 ≠ 0 →
      Call.mac_server_request ∉ acts (fun v => (check_mac_addr x v).1) w ∧
      Call.efuse_control_write ∉ acts (fun v => (check_mac_addr x v).1) w) := by
  simp only [eRESULT_FAIL] at h
  by_cases h1 : x.efuse_control_read = 0
  · simp [check_mac_addr, check_mac_addr_fuse, h1, h, set_status, set_result, call, acts,
      eRESULT_PASS, eRESULT_FAIL]
  · by_cases h2 : x.efuse_valid_check 0 = 0
    · by_cases h3 : x.mac_server_request = 0
      · simp [check_mac_addr, check_mac_addr_fuse, h1, h2, h3, h, set_status, set_result, call,
          acts, eRESULT_PASS, eRESULT_FAIL]
      · by_cases h4 : x.efuse_control_write = 0
        · simp [check_mac_addr, check_mac_addr_fuse, h1, h2, h3, h4, h, set_status, set_result,
            call, acts, eRESULT_PASS, eRESULT_FAIL]
        · by_cases h5 : x.efuse_valid_check 1 = 0
          · simp [check_mac_addr, check_mac_addr_fuse, h1, h2, h3, h4, h5, h, set_status,
              set_result, call, acts, eRESULT_PASS, eRESULT_FAIL]
          · simp [check_mac_addr, check_mac_addr_fuse, h1, h2, h3, h4, h5, h, set_status,
              set_result, call, acts, eRESULT_PASS, eRESULT_FAIL]
    · simp [check_mac_addr, check_mac_addr_fuse, h1, h2, h, set_status, set_result, call, acts,
        eRESULT_PASS, eRESULT_FAIL]

set_option maxRecDepth 100000 in
/-- C22 at start up: with a fuse that reads and holds a valid value the check
returns 1 and asks the server nothing; with a fuse that cannot be read it
returns 0. -/
theorem check_mac_addr_spec_witness :
    (check_mac_addr (extern_const 1) world_init).2 = 1 ∧
    Call.mac_server_request ∉ acts (fun v => (check_mac_addr (extern_const 1) v).1) world_init ∧
    (check_mac_addr (extern_const 0) world_init).2 = 0 :=
  ⟨((check_mac_addr_spec (extern_const 1) world_init rfl).1.mpr (by decide)).1,
   ((check_mac_addr_spec (extern_const 1) world_init rfl).2.2.2 (by decide) (by decide)).1,
   by decide⟩

/-! ## Theorems: the audio check -/

/-- C24: `check_device_audio` with the jack removed returns 0, makes no call and
changes nothing.  It calls `audio_check` for a channel only with the jack
inserted and that channel's event pending, and changes an item only when that
call succeeds, the item being the one of that channel.  With the jack inserted
and the event of a channel pending it calls `audio_check` once, for that
channel: on success the channel's item is at PASS and STOP, on failure the
function returns 0 and no item changes; the item of the other channel stays as
it is either way. -/
theorem audio_gate (x : Extern) (w : World) :
    (w.JackStatus = 0 →
      check_device_audio x w = (w, 0) ∧ acts (fun v => (check_device_audio x v).1) w = []) ∧
    (∀ id, Call.audio_check id ∈ acts (fun v => (check_device_audio x v).1) w →
      w.JackStatus ≠ 0 ∧
      ((id = AudioId.eAUDIO_LEFT ∧ w.EventIR = eEVENT_HP_L) ∨
       (id = AudioId.eAUDIO_RIGHT ∧ w.EventIR = eEVENT_HP_R))) ∧
    (∀ j, (check_device_audio x w).1.m1_item j ≠ w.m1_item j →
      w.JackStatus ≠ 0 ∧
      ((j = eITEM_AUDIO_LEFT ∧ w.EventIR = eEVENT_HP_L ∧
          x.audio_check AudioId.eAUDIO_LEFT ≠ 0) ∨
       (j = eITEM_AUDIO_RIGHT ∧ w.EventIR = eEVENT_HP_R ∧
          x.audio_check AudioId.eAUDIO_RIGHT ≠ 0))) ∧
    (w.JackStatus ≠ 0 → w.EventIR = eEVENT_HP_L →
      acts (fun v => (check_device_audio x v).1) w
        = Call.audio_check AudioId.eAUDIO_LEFT ::
          (if x.audio_check AudioId.eAUDIO_LEFT ≠ 0 then
            [Call.set_status eITEM_AUDIO_LEFT (w.m1_item eITEM_AUDIO_LEFT).status eSTATUS_STOP]
           else []) ∧
      (x.audio_check AudioId.eAUDIO_LEFT ≠ 0 →
        ((check_device_audio x w).1.m1_item eITEM_AUDIO_LEFT).result = eRESULT_PASS ∧
        ((check_device_audio x w).1.m1_item eITEM_AUDIO_LEFT).status = eSTATUS_STOP) ∧
      (x.audio_check AudioId.eAUDIO_LEFT = 0 →
        (check_device_audio x w).2 = 0 ∧ (check_device_audio x w).1.m1_item = w.m1_item) ∧
      (check_device_audio x w).1.m1_item eITEM_AUDIO_RIGHT = w.m1_item eITEM_AUDIO_RIGHT) ∧
    (w.JackStatus ≠ 0 → w.EventIR = eEVENT_HP_R →
      acts (fun v => (check_device_audio x v).1) w
        = Call.audio_check AudioId.eAUDIO_RIGHT ::
          (if x.audio_check AudioId.eAUDIO_RIGHT ≠ 0 then
            [Call.set_status eITEM_AUDIO_RIGHT (w.m1_item eITEM_AUDIO_RIGHT).status eSTATUS_STOP]
           else []) ∧
      (x.audio_check AudioId.eAUDIO_RIGHT ≠ 0 →
        ((check_device_audio x w).1.m1_item eITEM_AUDIO_RIGHT).result = eRESULT_PASS ∧
        ((check_device_audio x w).1.m1_item eITEM_AUDIO_RIGHT).status = eSTATUS_STOP) ∧
      (x.audio_check AudioId.eAUDIO_RIGHT = 0 →
        (check_device_audio x w).2 = 0 ∧ (check_device_audio x w).1.m1_item = w.m1_item) ∧
      (check_device_audio x w).1.m1_item eITEM_AUDIO_LEFT = w.m1_item eITEM_AUDIO_LEFT) := by
  by_cases hj : w.JackStatus = 0
  · simp [check_device_audio, hj, acts]
  · by_cases hl : w.EventIR = eEVENT_HP_L
    · have hr : ¬ w.EventIR = eEVENT_HP_R := by rw [hl]; decide
      by_cases al : x.audio_check AudioId.eAUDIO_LEFT = 0
      · simp [check_device_audio, check_device_audio_right, hj, hl, al, acts, call,
          eEVENT_HP_L, eEVENT_HP_R]
      · simp [check_device_audio, check_device_audio_right, hj, hl, al, acts, call,
          set_status, set_result, eEVENT_HP_L, eEVENT_HP_R, eITEM_AUDIO_LEFT,
          eITEM_AUDIO_RIGHT]
        intro j hne
        by_contra hjl
        exact hne (by simp [hjl])
    · by_cases hr : w.EventIR = eEVENT_HP_R
      · by_cases ar : x.audio_check AudioId.eAUDIO_RIGHT = 0
        · simp [check_device_audio, check_device_audio_right, hj, hr, ar, acts, call,
            eEVENT_HP_L, eEVENT_HP_R]
        · simp [check_device_audio, check_device_audio_right, hj, hr, ar, acts, call,
            set_status, set_result, eEVENT_HP_L, eEVENT_HP_R, eITEM_AUDIO_LEFT,
            eITEM_AUDIO_RIGHT]
          intro j hne
          by_contra hjl
          exact hne (by simp [hjl])
      · simp [check_device_audio, check_device_audio_right, hj, hl, hr, acts]

/-! ## Theorems: the one-shot checks of the loop -/

theorem system_fb_frame (x : Extern) (w : World) (j : Nat) (hj : j ≠ eITEM_FB) :
    (check_device_system_fb x w).m1_item j = w.m1_item j := by
  simp only [check_device_system_fb, set_status, set_result, call]
  split_ifs <;> simp [hj]

theorem system_fb_client (x : Extern) (w : World) :
    (check_device_system_fb x w).client = w.client := by
  simp only [check_device_system_fb, set_status, set_result, call]
  split_ifs <;> rfl

theorem system_mem_count (x : Extern) (w : World) :
    count_calls (Call.system_check SystemId.eSYSTEM_MEM) (check_device_system x w).1.trace =
      count_calls (Call.system_check SystemId.eSYSTEM_MEM) w.trace +
        (if w.TimeoutStop ≠ 0 then 1 else 0) := by
  have hmodel : ∀ v : World, (check_device_system_model v).trace = v.trace :=
    system_model_trace
  have hfb : ∀ v : World, count_calls (Call.system_check SystemId.eSYSTEM_MEM)
      (check_device_system_fb x v).trace =
      count_calls (Call.system_check SystemId.eSYSTEM_MEM) v.trace := by
    intro v
    simp only [check_device_system_fb, set_status, set_result, call, count_calls]
    split_ifs <;> simp [List.count_append, List.count_cons]
  simp only [check_device_system]
  rw [hmodel, hfb]
  simp only [check_device_system_mem, set_status, set_result, call, count_calls]
  split_ifs <;> simp [List.count_append, List.count_cons]

set_option maxRecDepth 100000 in
/-- C28, as stated, fails: with the test model of 4 GB set, the countdown
running and the memory item at its initial result FAIL, a
`check_device_system` that measures 4 GB leaves the result at FAIL. -/
theorem memory_model_first_call_fails :
    world_model_first.client.test_model = TEST_MODEL_4GB ∧
    0 < world_model_first.TimeoutStop ∧
    (extern_const 4).system_check SystemId.eSYSTEM_MEM = TEST_MODEL_4GB ∧
    ((check_device_system (extern_const 4) world_model_first).1.m1_item eITEM_MEM).result
      = eRESULT_FAIL := by
  decide

/-- C28, amended: with a test model set (4 or 8) and the countdown running,
after a call of `check_device_system` the result of the memory item is PASS iff
the size measured in that call equals the test model and the result was PASS
before the call; from a result FAIL it stays FAIL.  The call measures the
memory once, stores the size in `board_mem` and ends with the status at STOP. -/
theorem memory_model_check (x : Extern) (w : World)
    (hm : w.client.test_model = TEST_MODEL_4GB ∨ w.client.test_model = TEST_MODEL_8GB)
    (ht : 0 < w.TimeoutStop) :
    (((check_device_system x w).1.m1_item eITEM_MEM).result = eRESULT_PASS ↔
      (x.system_check SystemId.eSYSTEM_MEM = w.client.test_model ∧
        (w.m1_item eITEM_MEM).result = eRESULT_PASS)) ∧
    ((w.m1_item eITEM_MEM).result = eRESULT_FAIL →
      ((check_device_system x w).1.m1_item eITEM_MEM).result = eRESULT_FAIL) ∧
    (x.system_check SystemId.eSYSTEM_MEM ≠ w.client.test_model →
      ((check_device_system x w).1.m1_item eITEM_MEM).result = eRESULT_FAIL) ∧
    (check_device_system x w).1.client.board_mem = x.system_check SystemId.eSYSTEM_MEM ∧
    ((check_device_system x w).1.m1_item eITEM_MEM).status = eSTATUS_STOP ∧
    count_calls (Call.system_check SystemId.eSYSTEM_MEM)
      (acts (fun v => (check_device_system x v).1) w) = 1 := by
  have ht0 : w.TimeoutStop ≠ 0 := by omega
  have hm0 : w.client.test_model ≠ 0 := by
    rcases hm with h | h <;> rw [h] <;> decide
  have hmem : (check_device_system_mem x w).m1_item eITEM_MEM =
      { w.m1_item eITEM_MEM with status := eSTATUS_STOP } := by
    simp [check_device_system_mem, ht0, hm0, set_status, set_result, call]
  have hcl : (check_device_system_mem x w).client =
      { w.client with board_mem := x.system_check SystemId.eSYSTEM_MEM } := by
    simp [check_device_system_mem, ht0, hm0, set_status, set_result, call]
  have hfb : (check_device_system_fb x (check_device_system_mem x w)).m1_item eITEM_MEM =
      { w.m1_item eITEM_MEM with status := eSTATUS_STOP } := by
    rw [system_fb_frame _ _ _ (by decide), hmem]
  have hfc : (check_device_system_fb x (check_device_system_mem x w)).client =
      { w.client with board_mem := x.system_check SystemId.eSYSTEM_MEM } := by
    rw [system_fb_client, hcl]
  have hcount : count_calls (Call.system_check SystemId.eSYSTEM_MEM)
      (acts (fun v => (check_device_system x v).1) w) = 1 := by
    simp only [acts]
    rw [system_mem_count]
    simp [count_calls, ht0]
  by_cases heq : x.system_check SystemId.eSYSTEM_MEM = w.client.test_model
  · have hres : (check_device_system x w).1.m1_item eITEM_MEM =
        { w.m1_item eITEM_MEM with status := eSTATUS_STOP } := by
      simp only [check_device_system, check_device_system_model, hfc]
      simp [heq, hfb]
    have hc2 : (check_device_system x w).1.client.board_mem =
        x.system_check SystemId.eSYSTEM_MEM := by
      simp only [check_device_system, check_device_system_model, hfc]
      simp [heq, hfc]
    rw [hres]
    exact ⟨by simp [heq], fun h => h, fun h => absurd heq h, hc2, rfl, hcount⟩
  · have hne : w.client.test_model ≠ x.system_check SystemId.eSYSTEM_MEM := fun h => heq h.symm
    have hres : (check_device_system x w).1.m1_item eITEM_MEM =
        { w.m1_item eITEM_MEM with status := eSTATUS_STOP, result := eRESULT_FAIL } := by
      simp only [check_device_system, check_device_system_model, hfc]
      simp [hm0, hne, set_result, hfb]
    have hc2 : (check_device_system x w).1.client.board_mem =
        x.system_check SystemId.eSYSTEM_MEM := by
      simp only [check_device_system, check_device_system_model, hfc]
      simp [hm0, hne, set_result, hfc]
    rw [hres]
    refine ⟨?_, fun _ => rfl, fun _ => rfl, hc2, rfl, hcount⟩
    constructor
    · intro h
      have h2 : eRESULT_FAIL = eRESULT_PASS := h
      exact absurd h2 (by decide)
    · intro h
      exact absurd h.1 heq

set_option maxRecDepth 100000 in
/-- C28, amended, on a board whose memory passed before the test model of 4 GB
was found: a measurement of 4 keeps the result PASS, a measurement of 8 turns
it to FAIL. -/
theorem memory_model_check_witness :
    ((check_device_system (extern_const 4) world_model_4gb).1.m1_item eITEM_MEM).result
      = eRESULT_PASS ∧
    ((check_device_system (extern_const 8) world_model_4gb).1.m1_item eITEM_MEM).result
      = eRESULT_FAIL :=
  ⟨(memory_model_check (extern_const 4) world_model_4gb (Or.inl rfl) (by decide)).1.mpr
      ⟨by decide, by decide⟩,
   (memory_model_check (extern_const 8) world_model_4gb (Or.inl rfl) (by decide)).2.2.1
      (by decide)⟩

/-! ## Theorems: the fuse reader and the thread `check_spibt` -/

theorem spibt_item_quiet (x : Extern) (item : Nat) (l : SpibtLocal) (w : World)
    (hr : (w.m1_item item).result ≠ eRESULT_PASS) (hs : x.get_efuse_mac l.reads = l.status) :
    (check_spibt_item x item l w).2 = ⟨l.status, l.reads + 1⟩ ∧
    (check_spibt_item x item l w).1.m1_item = w.m1_item := by
  simp [check_spibt_item, hr, hs, call]

theorem spibt_item_edge (x : Extern) (item : Nat) (l : SpibtLocal) (w : World)
    (hr : (w.m1_item item).result ≠ eRESULT_PASS) (hs : x.get_efuse_mac l.reads ≠ l.status) :
    ((check_spibt_item x item l w).1.m1_item item).result = eRESULT_PASS ∧
    ((check_spibt_item x item l w).1.m1_item item).status = eSTATUS_STOP := by
  have hs2 : l.status ≠ x.get_efuse_mac l.reads := fun h => hs h.symm
  simp [check_spibt_item, hr, hs2, call, set_status, set_result]

theorem spibt_poll_quiet (x : Extern) (l : SpibtLocal) (w : World)
    (hu : (w.m1_item eITEM_SPIBT_UP).result ≠ eRESULT_PASS)
    (hd : (w.m1_item eITEM_SPIBT_DN).result ≠ eRESULT_PASS)
    (h0 : x.get_efuse_mac l.reads = l.status)
    (h1 : x.get_efuse_mac (l.reads + 1) = l.status) :
    (check_spibt_poll x l w).2 = ⟨l.status, l.reads + 2⟩ ∧
    (check_spibt_poll x l w).1.m1_item = w.m1_item := by
  obtain ⟨a1, a2⟩ := spibt_item_quiet x eITEM_SPIBT_UP l w hu h0
  have hd2 : ((check_spibt_item x eITEM_SPIBT_UP l w).1.m1_item eITEM_SPIBT_DN).result
      ≠ eRESULT_PASS := by rw [a2]; exact hd
  have h1b : x.get_efuse_mac (check_spibt_item x eITEM_SPIBT_UP l w).2.reads =
      (check_spibt_item x eITEM_SPIBT_UP l w).2.status := by rw [a1]; exact h1
  obtain ⟨b1, b2⟩ := spibt_item_quiet x eITEM_SPIBT_DN _ _ hd2 h1b
  simp only [check_spibt_poll]
  refine ⟨?_, ?_⟩
  · rw [b1, a1]
  · show (check_spibt_item x eITEM_SPIBT_DN _ _).1.m1_item = w.m1_item
    rw [b2, a2]

theorem spibt_loop_quiet (x : Extern) (n : Nat) (l : SpibtLocal) (w : World)
    (hu : (w.m1_item eITEM_SPIBT_UP).result ≠ eRESULT_PASS)
    (hd : (w.m1_item eITEM_SPIBT_DN).result ≠ eRESULT_PASS)
    (h : ∀ k, k < 2 * n → x.get_efuse_mac (l.reads + k) = l.status) :
    (check_spibt_loop x n (w, l)).2 = ⟨l.status, l.reads + 2 * n⟩ ∧
    (check_spibt_loop x n (w, l)).1.m1_item = w.m1_item := by
  induction n with
  | zero => exact ⟨rfl, rfl⟩
  | succ n ih =>
    obtain ⟨i1, i2⟩ := ih (fun k hk => h k (by omega))
    simp only [check_spibt_loop]
    have hu2 : ((check_spibt_loop x n (w, l)).1.m1_item eITEM_SPIBT_UP).result
        ≠ eRESULT_PASS := by rw [i2]; exact hu
    have hd2 : ((check_spibt_loop x n (w, l)).1.m1_item eITEM_SPIBT_DN).result
        ≠ eRESULT_PASS := by rw [i2]; exact hd
    have h0 : x.get_efuse_mac (check_spibt_loop x n (w, l)).2.reads =
        (check_spibt_loop x n (w, l)).2.status := by
      rw [i1]; exact h (2 * n) (by omega)
    have h1 : x.get_efuse_mac ((check_spibt_loop x n (w, l)).2.reads + 1) =
        (check_spibt_loop x n (w, l)).2.status := by
      rw [i1]; exact h (2 * n + 1) (by omega)
    obtain ⟨p1, p2⟩ := spibt_poll_quiet x _ _ hu2 hd2 h0 h1
    refine ⟨?_, ?_⟩
    · rw [p1, i1]
      show (⟨l.status, l.reads + 2 * n + 2⟩ : SpibtLocal) = ⟨l.status, l.reads + 2 * (n + 1)⟩
      rw [show l.reads + 2 * n + 2 = l.reads + 2 * (n + 1) by omega]
    · rw [p2, i2]

theorem spibt_init_spec (x : Extern) (w : World) :
    (check_spibt_init x w).2 = ⟨x.get_efuse_mac 0, 1⟩ ∧
    (∀ j, ((check_spibt_init x w).1.m1_item j).result = (w.m1_item j).result) := by
  refine ⟨rfl, fun j => ?_⟩
  simp only [check_spibt_init, set_status, call]
  split_ifs <;> rfl

theorem steps_constant (g : Nat → Int) (m : Nat) (h : ∀ k, k < m → g (k + 1) = g k) :
    ∀ k, k ≤ m → g k = g 0 := by
  intro k
  induction k with
  | zero => intro _; rfl
  | succ k ih =>
    intro hk
    rw [h k (by omega)]
    exact ih (by omega)

theorem spibt_quiet (x : Extern) (n : Nat) (w : World)
    (hu : (w.m1_item eITEM_SPIBT_UP).result ≠ eRESULT_PASS)
    (hd : (w.m1_item eITEM_SPIBT_DN).result ≠ eRESULT_PASS)
    (h : ∀ k, k ≤ 2 * n → x.get_efuse_mac k = x.get_efuse_mac 0) :
    (check_spibt x n w).2 = ⟨x.get_efuse_mac 0, 1 + 2 * n⟩ ∧
    (check_spibt x n w).1.m1_item = (check_spibt_init x w).1.m1_item := by
  obtain ⟨s1, s2⟩ := spibt_init_spec x w
  have hu2 : (((check_spibt_init x w).1).m1_item eITEM_SPIBT_UP).result ≠ eRESULT_PASS := by
    rw [s2]; exact hu
  have hd2 : (((check_spibt_init x w).1).m1_item eITEM_SPIBT_DN).result ≠ eRESULT_PASS := by
    rw [s2]; exact hd
  have hq := spibt_loop_quiet x n ⟨x.get_efuse_mac 0, 1⟩ (check_spibt_init x w).1 hu2 hd2
    (fun k hk => h (1 + k) (by omega))
  have heq : check_spibt x n w =
      check_spibt_loop x n ((check_spibt_init x w).1, ⟨x.get_efuse_mac 0, 1⟩) := by
    unfold check_spibt
    congr 1
  rw [heq]
  exact hq

/-! ## Theorems: errcode_print within its buffer -/

theorem errcode_line_step (it : check_item) (s : ErrBuf) :
    s.line ≤ (errcode_body it s).line := by
  unfold errcode_body
  split_ifs <;> simp

theorem errcode_line_mono (items : Nat → check_item) (n m : Nat) (h : n ≤ m) :
    (errcode_scan items n).line ≤ (errcode_scan items m).line := by
  induction m with
  | zero =>
    have : n = 0 := by omega
    subst this
    exact le_refl _
  | succ k ih =>
    by_cases hk : n = k + 1
    · subst hk
      exact le_refl _
    · exact le_trans (ih (by omega)) (errcode_line_step (items k) (errcode_scan items k))

theorem errcode_fits_along (items : Nat → check_item) (hfit : errcode_fits items)
    (n : Nat) (hn : n ≤ eITEM_END) : (errcode_scan items n).line < PRINT_MAX_LINE :=
  lt_of_le_of_lt (errcode_line_mono items n eITEM_END hn) hfit

theorem errcode_wrap_steps (items : Nat → check_item) (hn : registry_names items) :
    (∀ n l, n ≤ eITEM_END → ((errcode_scan items n).err_msg l).length ≤ PRINT_MAX_CHAR) ∧
    (∀ n, n < eITEM_END → (items n).result = 0 →
      ((errcode_scan items (n + 1)).line = (errcode_scan items n).line + 1 ↔
        PRINT_MAX_CHAR < (cur_row items n).length + ((items n).name.length + 1)) ∧
      ((errcode_scan items (n + 1)).line = (errcode_scan items n).line ↔
        (cur_row items n).length + ((items n).name.length + 1) ≤ PRINT_MAX_CHAR) ∧
      cur_row items (n + 1) =
        (if PRINT_MAX_CHAR < (cur_row items n).length + ((items n).name.length + 1)
         then (items n).name.data ++ [',']
         else cur_row items n ++ ((items n).name.data ++ [',']))) ∧
    (∀ n, n < eITEM_END → (items n).result ≠ 0 →
      errcode_scan items (n + 1) = errcode_scan items n) := by
  refine ⟨fun n l _ => (errInv_scan items hn n).len_le l, ?_, ?_⟩
  · intro n _ hr
    have h := errInv_scan items hn n
    have hpos : (errcode_scan items n).pos = (cur_row items n).length := h.pos_eq
    by_cases hw : PRINT_MAX_CHAR < (cur_row items n).length + ((items n).name.length + 1)
    · have hw2 : (errcode_scan items n).pos + (items n).name.length + 1 > PRINT_MAX_CHAR := by
        rw [hpos]; omega
      have hrow : (errcode_scan items n).err_msg ((errcode_scan items n).line + 1) = [] :=
        h.above _ (Nat.lt_succ_self _)
      have hbody : errcode_scan items (n + 1) =
          { pos := (items n).name.length + 1, line := (errcode_scan items n).line + 1,
            err_msg := Function.update (errcode_scan items n).err_msg
              ((errcode_scan items n).line + 1) ((items n).name.data ++ [',']) } := by
        show errcode_body (items n) (errcode_scan items n) = _
        unfold errcode_body
        rw [if_pos hr]
        simp only [if_pos hw2, hrow, sprintf_at]
        simp
      refine ⟨?_, ?_, ?_⟩
      · rw [hbody]; simp [hw]
      · rw [hbody]
        simp only
        constructor
        · intro hc; omega
        · intro hc; omega
      · rw [if_pos hw]
        unfold cur_row
        rw [hbody]
        simp
    · have hw2 : ¬ (errcode_scan items n).pos + (items n).name.length + 1 > PRINT_MAX_CHAR := by
        rw [hpos]; omega
      have hbody : errcode_scan items (n + 1) =
          { pos := (errcode_scan items n).pos + ((items n).name.length + 1),
            line := (errcode_scan items n).line,
            err_msg := Function.update (errcode_scan items n).err_msg
              (errcode_scan items n).line
              (cur_row items n ++ ((items n).name.data ++ [','])) } := by
        show errcode_body (items n) (errcode_scan items n) = _
        unfold errcode_body cur_row
        rw [if_pos hr]
        simp only [if_neg hw2, sprintf_at]
        rw [h.pos_eq]
        simp
      refine ⟨?_, ?_, ?_⟩
      · rw [hbody]
        simp only
        constructor
        · intro hc; omega
        · intro hc; exact absurd hc hw
      · rw [hbody]
        simp only
        constructor
        · intro _; omega
        · intro _; trivial
      · rw [if_neg hw]
        show (errcode_scan items (n + 1)).err_msg (errcode_scan items (n + 1)).line = _
        rw [hbody]
        simp
  · intro n _ hr
    show errcode_body (items n) (errcode_scan items n) = _
    simp [errcode_body, hr]

theorem errcode_ret_facts (w : World) (hn : registry_names w.m1_item) :
    ((errcode_print w).2 = 1 ↔ ∃ i, i < eITEM_END ∧ (w.m1_item i).result = eRESULT_FAIL) ∧
    ((errcode_print w).2 = 0 ∨ (errcode_print w).2 = 1) ∧
    ((check_status_report w).2 = Color.COLOR_RED ↔
      ∃ i, i < eITEM_END ∧ (w.m1_item i).result = eRESULT_FAIL) ∧
    ((∀ i, i < eITEM_END → (w.m1_item i).result = eRESULT_PASS) →
      (errcode_print w).2 = 0 ∧ errcode_sent w.m1_item = [] ∧
      (errcode_print w).1.trace = w.trace ∧
      (check_status_report w).2 = Color.COLOR_GREEN ∧
      ∀ msg, Call.nlp_server_write_err msg ∉ acts (fun v => (check_status_report v).1) w) := by
  have hret : (errcode_print w).2 = 1 ↔
      ∃ i, i < eITEM_END ∧ (w.m1_item i).result = eRESULT_FAIL :=
    errcode_ret_eq_one_iff w.m1_item hn
  have h01 : (errcode_print w).2 = 0 ∨ (errcode_print w).2 = 1 :=
    errcode_ret_zero_or_one w.m1_item
  have hcol := check_status_report_red_iff w
  refine ⟨hret, h01, hcol.trans hret, ?_⟩
  intro hall
  have hnone : ¬ ∃ i, i < eITEM_END ∧ (w.m1_item i).result = eRESULT_FAIL := by
    rintro ⟨i, hi, hri⟩
    have := hall i hi
    rw [hri] at this
    exact absurd this (by decide)
  have hr0 : (errcode_print w).2 = 0 := by
    rcases h01 with h0 | h1
    · exact h0
    · exact absurd (hret.mp h1) hnone
  have hsent : errcode_sent w.m1_item = [] := by
    have hr0b : errcode_ret w.m1_item = 0 := hr0
    unfold errcode_ret at hr0b
    unfold errcode_sent
    simp only at hr0b ⊢
    split
    · rename_i hc
      rw [if_pos hc] at hr0b
      exact absurd hr0b (by decide)
    · rfl
  refine ⟨hr0, hsent, ?_, ?_, ?_⟩
  · show w.trace ++ (errcode_sent w.m1_item).map Call.nlp_server_write_err = w.trace
    rw [hsent]; simp
  · cases hcc : (check_status_report w).2 with
    | COLOR_RED => exact absurd ((hcol.trans hret).mp hcc) hnone
    | COLOR_GREEN => rfl
  · intro msg hmem
    unfold acts check_status_report errcode_print at hmem
    simp only at hmem
    split at hmem
    · simp only [call] at hmem
      rw [hsent] at hmem
      simp at hmem
    · rw [hsent] at hmem
      simp at hmem

theorem errcode_fits_of_pass (items : Nat → check_item) (hn : registry_names items)
    (hall : ∀ i, i < eITEM_END → (items i).result = eRESULT_PASS) : errcode_fits items := by
  have hz := (errInv_scan items hn eITEM_END).zero_iff
  have h0 : (errcode_scan items eITEM_END).pos = 0 ∧ (errcode_scan items eITEM_END).line = 0 := by
    apply hz.mpr
    intro i hi
    rw [hall i hi]
    decide
  unfold errcode_fits
  rw [h0.2]
  decide

set_option maxRecDepth 100000 in
/-- C3 holds of every registry whose report fits the buffer and fails on the
code beyond it.  Within the buffer: the loop of `errcode_print` stays on the
rows 0 and 1, every line has at most `PRINT_MAX_CHAR` = 50 characters, at a
failing item a new line is begun exactly when the current line with the name
and its separator appended would be longer than 50 characters (an append that
gives exactly 50 characters stays on the line, as at "ir" in
`registry_row_of_50`), and an item that passed changes nothing.  At the
startup registry the wrap at "h4" begins a third line, in row 2 =
`PRINT_MAX_LINE`, which the buffer does not have. -/
theorem errcode_print_wrap :
    (∀ items : Nat → check_item, registry_names items → errcode_fits items →
      (∀ n, n ≤ eITEM_END → (errcode_scan items n).line < PRINT_MAX_LINE) ∧
      (∀ n l, n ≤ eITEM_END → ((errcode_scan items n).err_msg l).length ≤ PRINT_MAX_CHAR) ∧
      (∀ n, n < eITEM_END → (items n).result = 0 →
        ((errcode_scan items (n + 1)).line = (errcode_scan items n).line + 1 ↔
          PRINT_MAX_CHAR < (cur_row items n).length + ((items n).name.length + 1)) ∧
        ((errcode_scan items (n + 1)).line = (errcode_scan items n).line ↔
          (cur_row items n).length + ((items n).name.length + 1) ≤ PRINT_MAX_CHAR) ∧
        cur_row items (n + 1) =
          (if PRINT_MAX_CHAR < (cur_row items n).length + ((items n).name.length + 1)
           then (items n).name.data ++ [',']
           else cur_row items n ++ ((items n).name.data ++ [',']))) ∧
      (∀ n, n < eITEM_END → (items n).result ≠ 0 →
        errcode_scan items (n + 1) = errcode_scan items n)) ∧
    (errcode_fits registry_row_of_50 ∧
      errcode_sent registry_row_of_50
        = ["bip,sip,mem,fb,edid,hpd,sta,emmc,sata,nvme,mac,ir,", "usb3u,"] ∧
      (cur_row registry_row_of_50 16).length = 50) ∧
    (¬ errcode_fits world_init.m1_item ∧
      (errcode_scan world_init.m1_item 23).line = 1 ∧
      (cur_row world_init.m1_item 23).length + ((world_init.m1_item 23).name.length + 1) = 51 ∧
      (errcode_scan world_init.m1_item 24).line = PRINT_MAX_LINE ∧
      cur_row world_init.m1_item 24 = "h4,".data) := by
  refine ⟨?_, by decide, by decide⟩
  intro items hn hfit
  obtain ⟨h1, h2, h3⟩ := errcode_wrap_steps items hn
  exact ⟨errcode_fits_along items hfit, h1, h2, h3⟩

set_option maxRecDepth 100000 in
/-- C4 holds of every registry whose report fits the buffer and fails on the
code beyond it.  Within the buffer `errcode_print` returns 1 exactly when some
registry item has result FAIL, and then the final indicator is red.  When every
item has result PASS the report fits, the function returns 0, the indicator is
green and no error message goes to the companion server.  At the startup
registry, where items have result FAIL, the loop writes to row 2 =
`PRINT_MAX_LINE`, beyond the buffer, before the return value is formed. -/
theorem errcode_print_ret :
    (∀ w : World, registry_names w.m1_item → errcode_fits w.m1_item →
      ((errcode_print w).2 = 1 ↔ ∃ i, i < eITEM_END ∧ (w.m1_item i).result = eRESULT_FAIL) ∧
      ((errcode_print w).2 = 0 ∨ (errcode_print w).2 = 1) ∧
      ((check_status_report w).2 = Color.COLOR_RED ↔
        ∃ i, i < eITEM_END ∧ (w.m1_item i).result = eRESULT_FAIL)) ∧
    (∀ w : World, registry_names w.m1_item →
      (∀ i, i < eITEM_END → (w.m1_item i).result = eRESULT_PASS) →
      errcode_fits w.m1_item ∧
      (errcode_print w).2 = 0 ∧ errcode_sent w.m1_item = [] ∧
      (errcode_print w).1.trace = w.trace ∧
      (check_status_report w).2 = Color.COLOR_GREEN ∧
      ∀ msg, Call.nlp_server_write_err msg ∉ acts (fun v => (check_status_report v).1) w) ∧
    (errcode_fits registry_row_of_50 ∧
      (errcode_print { world_init with m1_item := registry_row_of_50 }).2 = 1 ∧
      (errcode_print { world_init with m1_item := registry_all_passed }).2 = 0) ∧
    (¬ errcode_fits world_init.m1_item ∧
      (world_init.m1_item eITEM_BOARD_IP).result = eRESULT_FAIL ∧
      (errcode_scan world_init.m1_item eITEM_END).line = PRINT_MAX_LINE) := by
  refine ⟨?_, ?_, by decide, by decide⟩
  · intro w hn _
    obtain ⟨h1, h2, h3, _⟩ := errcode_ret_facts w hn
    exact ⟨h1, h2, h3⟩
  · intro w hn hall
    exact ⟨errcode_fits_of_pass w.m1_item hn hall, (errcode_ret_facts w hn).2.2.2 hall⟩

set_option maxRecDepth 100000 in
/-- C5, as stated, fails: in the state `world_eth_rearmed` the item "eth-m" has
status RUN (the switch was asked for again and has not succeeded) and keeps its
result PASS, so the report, which fits the buffer, does not name it, and with
every other item passed the indicator is green. -/
theorem errcode_print_skips_rearmed_item :
    (world_eth_rearmed.m1_item eITEM_ETHERNET_100M).status = eSTATUS_RUN ∧
    (world_eth_rearmed.m1_item eITEM_ETHERNET_100M).name = "eth-m" ∧
    errcode_fits world_eth_rearmed.m1_item ∧
    ¬ reported "eth-m" (errcode_sent world_eth_rearmed.m1_item) ∧
    (check_status_report world_eth_rearmed).2 = Color.COLOR_GREEN := by
  decide

/-- C5, amended: when the report fits the buffer, it names the items by result,
not by status.  Every registry item whose result is FAIL, so every item that is
WAIT or RUN and has not passed, stands in a line that `errcode_print` sends,
at most `PRINT_MAX_LINE` lines are sent, and the final indicator is red. -/
theorem errcode_print_names_failing (w : World) (hn : registry_names w.m1_item)
    (hfit : errcode_fits w.m1_item) (i : Nat) (hi : i < eITEM_END) (hr : (w.m1_item i).result = eRESULT_FAIL) :
    reported (w.m1_item i).name (errcode_sent w.m1_item) ∧
    (∀ l, l ∈ errcode_sent w.m1_item →
      Call.nlp_server_write_err l ∈ (errcode_print w).1.trace) ∧
    (errcode_sent w.m1_item).length ≤ PRINT_MAX_LINE ∧
    (errcode_print w).2 = 1 ∧
    (check_status_report w).2 = Color.COLOR_RED := by
  have hinv := errInv_scan w.m1_item hn eITEM_END
  have hret : errcode_ret w.m1_item = 1 :=
    (errcode_ret_eq_one_iff w.m1_item hn).mpr ⟨i, hi, hr⟩
  refine ⟨?_, ?_, ?_, hret, (check_status_report_red_iff w).mpr hret⟩
  · obtain ⟨l, hl, hinf⟩ := hinv.token i hi hr
    have hc : (errcode_scan w.m1_item eITEM_END).pos ≠ 0 ∨
        (errcode_scan w.m1_item eITEM_END).line ≠ 0 := by
      by_contra hc
      unfold errcode_ret at hret
      simp only [hc, if_false] at hret
      exact absurd hret (by decide)
    refine ⟨String.mk ((errcode_scan w.m1_item eITEM_END).err_msg l), ?_, hinf⟩
    unfold errcode_sent
    simp only [hc, if_true, List.mem_map, List.mem_range]
    exact ⟨l, by omega, rfl⟩
  · intro l hl
    show Call.nlp_server_write_err l ∈
      w.trace ++ (errcode_sent w.m1_item).map Call.nlp_server_write_err
    exact List.mem_append_right _ (List.mem_map_of_mem _ hl)
  · unfold errcode_sent
    unfold errcode_fits at hfit
    simp only
    split
    · simp only [List.length_map, List.length_range]
      omega
    · simp

set_option maxRecDepth 100000 in
/-- C5, amended, at the registry in which exactly "mac" and "usb3u" have result
FAIL: the report fits, "usb3u" is WAIT with result FAIL and is named, and the
indicator is red. -/
theorem errcode_print_names_failing_witness :
    (registry_mac_usb3u eITEM_USB30_UP).status = eSTATUS_WAIT ∧
    reported "usb3u" (errcode_sent registry_mac_usb3u) ∧
    (check_status_report { world_init with m1_item := registry_mac_usb3u }).2
      = Color.COLOR_RED :=
  ⟨by decide,
   (errcode_print_names_failing { world_init with m1_item := registry_mac_usb3u }
      (fun _ => rfl) (by decide) eITEM_USB30_UP (by decide) (by decide)).1,
   (errcode_print_names_failing { world_init with m1_item := registry_mac_usb3u }
      (fun _ => rfl) (by decide) eITEM_USB30_UP (by decide) (by decide)).2.2.2.2⟩

/-! ## Theorems: the status of an item before and after an operation -/

theorem st_trans (a b c : World) (h1 : status_kept_or_stop a b) (h2 : status_kept_or_stop b c) :
    status_kept_or_stop a c := by
  intro i
  rcases h2 i with h | h
  · rw [h]; exact h1 i
  · exact Or.inr h

theorem str_fits_iff (value : Int) : str_fits value ↔ (toString value).length ≤ 4 := by
  unfold str_fits mbs_text
  rw [List.length_append]
  have h5 : " MB/s".data.length = 5 := rfl
  rw [h5]
  show (toString value).data.length + 5 + 1 ≤ 10 ↔ (toString value).data.length ≤ 4
  omega

theorem str_fits_bounds :
    str_fits 0 ∧ str_fits 9999 ∧ ¬ str_fits 10000 ∧ str_fits (-1) ∧ str_fits (-999) ∧
    ¬ str_fits (-1000) := by
  decide

set_option maxRecDepth 100000 in
set_option maxRecDepth 100000 in
/-- C17, as stated, fails on negative values: with every measurement -1, whose
text "-1 MB/s" fits the buffer, the first storage poll and the first USB poll
give the eMMC item and the upper USB 3.0 item the result PASS. -/
theorem negative_throughput_passes :
    str_fits (-1) ∧
    (extern_const (-1)).storage_rw Storage.eSTORAGE_eMMC = -1 ∧
    ((run_op (extern_const (-1)) Op.storage_poll world_init).m1_item eITEM_eMMC).result
      = eRESULT_PASS ∧
    (extern_const (-1)).usb_rw eUSB30_UP_R = -1 ∧
    ((run_op (extern_const (-1)) Op.usb_poll world_init).m1_item eITEM_USB30_UP).result
      = eRESULT_PASS := by
  decide

/-- C17, amended: when the text of every measurement fits the buffer `str`, for
every storage item and every USB item that is measured in a poll (its result
is FAIL and its ready predicate holds) and every value the measure operation
returns, the result after the poll is PASS exactly when the value is not 0 and
FAIL exactly when it is 0; for a value that is not negative that is PASS
exactly when the value is greater than 0.  The text fits when the number takes
at most four characters, sign included: 9999 and -999 fit, 10000 and -1000 do
not. -/
theorem throughput_classification (x : Extern) (w : World)
    (_hs : ∀ id, str_fits (x.storage_rw id)) (_hu : ∀ id, str_fits (x.usb_rw id)) :
    (∀ item id, (item, id) ∈ storage_items → (w.m1_item item).result = eRESULT_FAIL →
      x.storage_check id ≠ 0 →
      (((run_op x Op.storage_poll w).m1_item item).result = eRESULT_PASS ↔
        x.storage_rw id ≠ 0) ∧
      (((run_op x Op.storage_poll w).m1_item item).result = eRESULT_FAIL ↔
        x.storage_rw id = 0) ∧
      (0 ≤ x.storage_rw id →
        (((run_op x Op.storage_poll w).m1_item item).result = eRESULT_PASS ↔
          0 < x.storage_rw id))) ∧
    (∀ item id, (item, id) ∈ usb_items → (w.m1_item item).result = eRESULT_FAIL →
      x.usb_check id ≠ 0 →
      (((run_op x Op.usb_poll w).m1_item item).result = eRESULT_PASS ↔ x.usb_rw id ≠ 0) ∧
      (((run_op x Op.usb_poll w).m1_item item).result = eRESULT_FAIL ↔ x.usb_rw id = 0) ∧
      (0 ≤ x.usb_rw id →
        (((run_op x Op.usb_poll w).m1_item item).result = eRESULT_PASS ↔
          0 < x.usb_rw id))) ∧
    ((∀ value, str_fits value ↔ (toString value).length ≤ 4) ∧
      str_fits 9999 ∧ ¬ str_fits 10000 ∧ str_fits (-999) ∧ ¬ str_fits (-1000)) := by
  have hgen : ∀ (r v : Int), r = (if v ≠ 0 then eRESULT_PASS else eRESULT_FAIL) →
      (r = eRESULT_PASS ↔ v ≠ 0) ∧ (r = eRESULT_FAIL ↔ v = 0) ∧
      (0 ≤ v → (r = eRESULT_PASS ↔ 0 < v)) := by
    intro r v hrv
    by_cases hv : v = 0
    · subst hv
      simp only [ne_eq, not_true_eq_false, if_false] at hrv
      subst hrv
      simp [eRESULT_PASS, eRESULT_FAIL]
    · rw [if_pos hv] at hrv
      subst hrv
      simp only [eRESULT_PASS, eRESULT_FAIL, ne_eq, hv, not_false_eq_true, true_iff,
        one_ne_zero, iff_self, true_and]
      intro h0
      omega
  refine ⟨?_, ?_, str_fits_iff, str_fits_bounds.2.1, str_fits_bounds.2.2.1,
    str_fits_bounds.2.2.2.2.1, str_fits_bounds.2.2.2.2.2⟩
  · intro item id hmem hr hc
    exact hgen _ _ (storage_poll_target x w item id hmem hr hc).2.2.1
  · intro item id hmem hr hc
    exact hgen _ _ (usb_poll_target x w item id hmem hr hc).2.2.1

set_option maxRecDepth 100000 in
/-- C17, amended, at the starting state with every measurement 35: the SATA
item passes. -/
theorem throughput_classification_witness :
    str_fits 35 ∧
    (world_init.m1_item eITEM_SATA).result = eRESULT_FAIL ∧
    ((run_op (extern_const 35) Op.storage_poll world_init).m1_item eITEM_SATA).result
      = eRESULT_PASS :=
  ⟨by decide, by decide,
   (((throughput_classification (extern_const 35) world_init
      (fun _ => (by decide : str_fits 35)) (fun _ => (by decide : str_fits 35))).1 eITEM_SATA
      Storage.eSTORAGE_SATA (by decide) (by decide) (by decide)).2.2 (by decide)).mpr
      (by decide)⟩

set_option maxRecDepth 100000 in
/-- C18, as stated, fails for storage: with the devices present and every
measurement 0, whose text "0 MB/s" fits the buffer, the first storage poll leaves the eMMC item at RUN. -/
theorem storage_fail_stays_run :
    str_fits (extern_ready_zero.storage_rw Storage.eSTORAGE_eMMC) ∧
    extern_ready_zero.storage_check Storage.eSTORAGE_eMMC ≠ 0 ∧
    ((run_op extern_ready_zero Op.storage_poll world_init).m1_item eITEM_eMMC).result
      = eRESULT_FAIL ∧
    ((run_op extern_ready_zero Op.storage_poll world_init).m1_item eITEM_eMMC).status
      = eSTATUS_RUN := by
  decide

/-- C18, amended: when the text of every measurement fits the buffer `str`, for
every storage and USB item whose result is FAIL and whose ready predicate
holds, one worker poll assigns RUN to the item, calls the
measure operation for it exactly once and records the classified result.  A
USB item is then at STOP whatever the result; a storage item is at STOP when
the result is PASS and stays at RUN when it is FAIL.  The text fits when the
number takes at most four characters, sign included: 9999 and -999 fit, 10000
and -1000 do not. -/
theorem poll_measures_once (x : Extern) (w : World)
    (_hs : ∀ id, str_fits (x.storage_rw id)) (_hu : ∀ id, str_fits (x.usb_rw id)) :
    (∀ item id, (item, id) ∈ storage_items → (w.m1_item item).result = eRESULT_FAIL →
      x.storage_check id ≠ 0 →
      Call.set_status item (w.m1_item item).status eSTATUS_RUN ∈
        acts (run_op x Op.storage_poll) w ∧
      count_calls (Call.storage_rw id) (acts (run_op x Op.storage_poll) w) = 1 ∧
      ((run_op x Op.storage_poll w).m1_item item).result =
        (if x.storage_rw id ≠ 0 then eRESULT_PASS else eRESULT_FAIL) ∧
      ((run_op x Op.storage_poll w).m1_item item).status =
        (if x.storage_rw id ≠ 0 then eSTATUS_STOP else eSTATUS_RUN)) ∧
    (∀ item id, (item, id) ∈ usb_items → (w.m1_item item).result = eRESULT_FAIL →
      x.usb_check id ≠ 0 →
      Call.set_status item (w.m1_item item).status eSTATUS_RUN ∈
        acts (run_op x Op.usb_poll) w ∧
      count_calls (Call.usb_rw id) (acts (run_op x Op.usb_poll) w) = 1 ∧
      ((run_op x Op.usb_poll w).m1_item item).result =
        (if x.usb_rw id ≠ 0 then eRESULT_PASS else eRESULT_FAIL) ∧
      ((run_op x Op.usb_poll w).m1_item item).status = eSTATUS_STOP) ∧
    ((∀ value, str_fits value ↔ (toString value).length ≤ 4) ∧
      str_fits 9999 ∧ ¬ str_fits 10000 ∧ str_fits (-999) ∧ ¬ str_fits (-1000)) := by
  refine ⟨?_, ?_, str_fits_iff, str_fits_bounds.2.1, str_fits_bounds.2.2.1,
    str_fits_bounds.2.2.2.2.1, str_fits_bounds.2.2.2.2.2⟩
  · intro item id hmem hr hc
    obtain ⟨h1, h2, h3, h4⟩ := storage_poll_target x w item id hmem hr hc
    exact ⟨h2, h1, h3, h4⟩
  · intro item id hmem hr hc
    obtain ⟨h1, h2, h3, h4⟩ := usb_poll_target x w item id hmem hr hc
    exact ⟨h2, h1, h3, h4⟩

set_option maxRecDepth 100000 in
/-- C18, amended, at the starting state with the devices present and every
measurement 0: the lower USB 2.0 item is measured once and ends at STOP with
result FAIL. -/
theorem poll_measures_once_witness :
    count_calls (Call.usb_rw eUSB20_DN_R)
      (acts (run_op extern_ready_zero Op.usb_poll) world_init) = 1 ∧
    ((run_op extern_ready_zero Op.usb_poll world_init).m1_item eITEM_USB20_DN).status
      = eSTATUS_STOP ∧
    ((run_op extern_ready_zero Op.usb_poll world_init).m1_item eITEM_USB20_DN).result
      = eRESULT_FAIL :=
  ⟨((poll_measures_once extern_ready_zero world_init
      (fun _ => (by decide : str_fits 0)) (fun _ => (by decide : str_fits 0))).2.1
      eITEM_USB20_DN eUSB20_DN_R (by decide) (by decide) (by decide)).2.1,
   ((poll_measures_once extern_ready_zero world_init
      (fun _ => (by decide : str_fits 0)) (fun _ => (by decide : str_fits 0))).2.1
      eITEM_USB20_DN eUSB20_DN_R (by decide) (by decide) (by decide)).2.2.2,
   by decide⟩
/-! ## Theorems: the fuse reader and the first change of its outcome -/

theorem get_efuse_mac_ret (f : efuse_uuid_file) (mac_str : List Char) :
    (get_efuse_mac f mac_str).2 = (get_efuse_mac f []).2 ∧
    ((get_efuse_mac f []).2 = 0 ∨ (get_efuse_mac f []).2 = 1) := by
  by_cases ha : f.access = 0
  · by_cases ho : f.fopen = true
    · cases hg : f.fgets with
      | none => simp [get_efuse_mac, ha, ho, hg]
      | some cmd_line =>
        cases hs : strstr (tolowerstr cmd_line) "001e06".data with
        | none => simp [get_efuse_mac, ha, ho, hg, hs]
        | some ptr => simp [get_efuse_mac, ha, ho, hg, hs]
    · simp [get_efuse_mac, ha, ho]
  · simp [get_efuse_mac, ha]

theorem efuse_value_flag (f : efuse_uuid_file) :
    ((get_efuse_mac f []).2 = 1 ↔ (efuse_value f).isSome = true) ∧
    ((get_efuse_mac f []).2 = 0 ↔ efuse_value f = none) := by
  unfold efuse_value
  rcases (get_efuse_mac_ret f []).2 with h | h <;> simp [h]

theorem efuse_flag_of_value (f g : efuse_uuid_file) (h : efuse_value f = efuse_value g) :
    (get_efuse_mac f []).2 = (get_efuse_mac g []).2 := by
  rcases (get_efuse_mac_ret f []).2 with hf | hf
  · rw [hf, ((efuse_value_flag g).2.mpr (by rw [← h]; exact (efuse_value_flag f).2.mp hf))]
  · rcases (get_efuse_mac_ret g []).2 with hg | hg
    · have hn := (efuse_value_flag g).2.mp hg
      rw [← h] at hn
      have hs := (efuse_value_flag f).1.mp hf
      rw [hn] at hs
      exact absurd hs (by simp)
    · rw [hf, hg]

theorem spibt_item_frame (x : Extern) (item : Nat) (l : SpibtLocal) (w : World) (j : Nat)
    (hj : j ≠ item) : (check_spibt_item x item l w).1.m1_item j = w.m1_item j := by
  simp only [check_spibt_item, set_status, set_result, call]
  split_ifs <;> simp [hj]

theorem spibt_item_pass_iff (x : Extern) (item : Nat) (l : SpibtLocal) (w : World)
    (hr : (w.m1_item item).result ≠ eRESULT_PASS) :
    ((check_spibt_item x item l w).1.m1_item item).result = eRESULT_PASS ↔
      l.status ≠ x.get_efuse_mac l.reads := by
  by_cases hs : x.get_efuse_mac l.reads = l.status
  · rw [(spibt_item_quiet x item l w hr hs).2]
    constructor
    · intro h; exact absurd h hr
    · intro h; exact absurd hs.symm h
  · constructor
    · intro _ h; exact hs h.symm
    · intro _; exact (spibt_item_edge x item l w hr hs).1

set_option maxRecDepth 100000 in
/-- C21, as stated, fails: the first read yields the value 001e06aaaaaa and the
reads of the first poll yield the different value 001e06bbbbbb, yet neither
item is set PASS by that poll, nor by the two polls after it. -/
theorem spibt_blind_to_value :
    efuse_value (efuse_two_values 0) = some "001e06aaaaaa".data ∧
    efuse_value (efuse_two_values 1) = some "001e06bbbbbb".data ∧
    ((check_spibt (extern_efuse efuse_two_values) 1 world_init).1.m1_item
      eITEM_SPIBT_UP).result = eRESULT_FAIL ∧
    ((check_spibt (extern_efuse efuse_two_values) 1 world_init).1.m1_item
      eITEM_SPIBT_DN).result = eRESULT_FAIL ∧
    ((check_spibt (extern_efuse efuse_two_values) 3 world_init).1.m1_item
      eITEM_SPIBT_UP).result = eRESULT_FAIL ∧
    ((check_spibt (extern_efuse efuse_two_values) 3 world_init).1.m1_item
      eITEM_SPIBT_DN).result = eRESULT_FAIL := by
  decide

/-- C21, amended: the worker compares the value `get_efuse_mac` returns, which
is 1 when the read yields a fuse value and 0 when it yields none, and not the
value read.  A block of the loop sets its item, when it is not at PASS, to PASS
exactly when the outcome of its read differs from the outcome held in
`status`.  Started with neither item at PASS: as long as every read has the
same outcome as the first (a value each time, equal or not, or none each time)
no poll changes the result of an item; the first poll in which a read has the
other outcome sets an item to PASS and STOP, `eITEM_SPIBT_UP` when the read of
the first block sees it, `eITEM_SPIBT_DN` (and not `eITEM_SPIBT_UP`) when the
read of the second block does; and when an item is at PASS after `n` polls,
some read has yielded a fuse value that differs from that of the read before
it. -/
theorem spibt_edge_on_outcome (files : Nat → efuse_uuid_file) (w : World) (n : Nat)
    (hu : (w.m1_item eITEM_SPIBT_UP).result ≠ eRESULT_PASS)
    (hd : (w.m1_item eITEM_SPIBT_DN).result ≠ eRESULT_PASS) :
    (∀ (f : efuse_uuid_file) (mac_str : List Char),
      (get_efuse_mac f mac_str).2 = (if (efuse_value f).isSome then 1 else 0)) ∧
    (∀ (item : Nat) (l : SpibtLocal) (v : World),
      (v.m1_item item).result ≠ eRESULT_PASS →
      (((check_spibt_item (extern_efuse files) item l v).1.m1_item item).result = eRESULT_PASS ↔
        l.status ≠ (if (efuse_value (files l.reads)).isSome then 1 else 0))) ∧
    ((∀ k, k ≤ 2 * n → (efuse_value (files k)).isSome = (efuse_value (files 0)).isSome) →
      ((check_spibt (extern_efuse files) n w).1.m1_item eITEM_SPIBT_UP).result =
        (w.m1_item eITEM_SPIBT_UP).result ∧
      ((check_spibt (extern_efuse files) n w).1.m1_item eITEM_SPIBT_DN).result =
        (w.m1_item eITEM_SPIBT_DN).result) ∧
    ((∀ k, k ≤ 2 * n → (efuse_value (files k)).isSome = (efuse_value (files 0)).isSome) →
      (efuse_value (files (2 * n + 1))).isSome ≠ (efuse_value (files 0)).isSome →
      ((check_spibt (extern_efuse files) (n + 1) w).1.m1_item eITEM_SPIBT_UP).result =
        eRESULT_PASS ∧
      ((check_spibt (extern_efuse files) (n + 1) w).1.m1_item eITEM_SPIBT_UP).status =
        eSTATUS_STOP) ∧
    ((∀ k, k ≤ 2 * n + 1 →
        (efuse_value (files k)).isSome = (efuse_value (files 0)).isSome) →
      (efuse_value (files (2 * n + 2))).isSome ≠ (efuse_value (files 0)).isSome →
      ((check_spibt (extern_efuse files) (n + 1) w).1.m1_item eITEM_SPIBT_DN).result =
        eRESULT_PASS ∧
      ((check_spibt (extern_efuse files) (n + 1) w).1.m1_item eITEM_SPIBT_DN).status =
        eSTATUS_STOP ∧
      ((check_spibt (extern_efuse files) (n + 1) w).1.m1_item eITEM_SPIBT_UP).result =
        (w.m1_item eITEM_SPIBT_UP).result) ∧
    ((((check_spibt (extern_efuse files) n w).1.m1_item eITEM_SPIBT_UP).result = eRESULT_PASS ∨
      ((check_spibt (extern_efuse files) n w).1.m1_item eITEM_SPIBT_DN).result = eRESULT_PASS) →
      ∃ k, k < 2 * n ∧ efuse_value (files (k + 1)) ≠ efuse_value (files k)) := by
  have hflag : ∀ (f : efuse_uuid_file) (mac_str : List Char),
      (get_efuse_mac f mac_str).2 = (if (efuse_value f).isSome then 1 else 0) := by
    intro f mac_str
    rw [(get_efuse_mac_ret f mac_str).1]
    rcases (get_efuse_mac_ret f []).2 with h | h
    · rw [h, (efuse_value_flag f).2.mp h]; rfl
    · rw [h, (efuse_value_flag f).1.mp h]; rfl
  have hx : ∀ k, (extern_efuse files).get_efuse_mac k =
      (if (efuse_value (files k)).isSome then 1 else 0) := fun k => hflag (files k) []
  have hsame : ∀ a b : Nat, (efuse_value (files a)).isSome = (efuse_value (files b)).isSome →
      (extern_efuse files).get_efuse_mac a = (extern_efuse files).get_efuse_mac b := by
    intro a b h
    rw [hx, hx, h]
  have hquiet : (∀ k, k ≤ 2 * n →
        (efuse_value (files k)).isSome = (efuse_value (files 0)).isSome) →
      (check_spibt (extern_efuse files) n w).2 =
        ⟨(extern_efuse files).get_efuse_mac 0, 1 + 2 * n⟩ ∧
      ∀ j, ((check_spibt (extern_efuse files) n w).1.m1_item j).result =
        (w.m1_item j).result := by
    intro h
    obtain ⟨q1, q2⟩ := spibt_quiet (extern_efuse files) n w hu hd
      (fun k hk => hsame k 0 (h k hk))
    refine ⟨q1, fun j => ?_⟩
    rw [q2]
    exact (spibt_init_spec (extern_efuse files) w).2 j
  have hne_flag : ∀ a : Nat,
      (efuse_value (files a)).isSome ≠ (efuse_value (files 0)).isSome →
      (extern_efuse files).get_efuse_mac a ≠ (extern_efuse files).get_efuse_mac 0 := by
    intro a hne heq
    rw [hx, hx] at heq
    apply hne
    cases h1 : (efuse_value (files a)).isSome <;>
      cases h2 : (efuse_value (files 0)).isSome <;> simp [h1, h2] at heq ⊢
  refine ⟨hflag, ?_, fun h => ⟨(hquiet h).2 _, (hquiet h).2 _⟩, ?_, ?_, ?_⟩
  · intro item l v hr
    rw [← hx]
    exact spibt_item_pass_iff (extern_efuse files) item l v hr
  · intro h hne
    obtain ⟨q1, q2⟩ := hquiet h
    have hstep : check_spibt (extern_efuse files) (n + 1) w =
        check_spibt_poll (extern_efuse files) (check_spibt (extern_efuse files) n w).2
          (check_spibt (extern_efuse files) n w).1 := rfl
    have hu2 : (((check_spibt (extern_efuse files) n w).1).m1_item eITEM_SPIBT_UP).result
        ≠ eRESULT_PASS := by rw [q2]; exact hu
    have hdiff : (extern_efuse files).get_efuse_mac
        (check_spibt (extern_efuse files) n w).2.reads ≠
        (check_spibt (extern_efuse files) n w).2.status := by
      rw [q1]
      show (extern_efuse files).get_efuse_mac (1 + 2 * n) ≠ (extern_efuse files).get_efuse_mac 0
      rw [hx, hx, show 1 + 2 * n = 2 * n + 1 by omega]
      intro heq
      apply hne
      cases h1 : (efuse_value (files (2 * n + 1))).isSome <;>
        cases h2 : (efuse_value (files 0)).isSome <;> simp [h1, h2] at heq ⊢
    obtain ⟨e1, e2⟩ := spibt_item_edge (extern_efuse files) eITEM_SPIBT_UP _ _ hu2 hdiff
    rw [hstep]
    simp only [check_spibt_poll]
    have hkeep := spibt_item_keep (extern_efuse files) eITEM_SPIBT_DN
      (check_spibt_item (extern_efuse files) eITEM_SPIBT_UP
        (check_spibt (extern_efuse files) n w).2 (check_spibt (extern_efuse files) n w).1).2
      (check_spibt_item (extern_efuse files) eITEM_SPIBT_UP
        (check_spibt (extern_efuse files) n w).2 (check_spibt (extern_efuse files) n w).1).1
      eITEM_SPIBT_UP e1
    refine ⟨?_, ?_⟩
    · show ((check_spibt_item (extern_efuse files) eITEM_SPIBT_DN _ _).1.m1_item
        eITEM_SPIBT_UP).result = eRESULT_PASS
      rw [hkeep]
      exact e1
    · show ((check_spibt_item (extern_efuse files) eITEM_SPIBT_DN _ _).1.m1_item
        eITEM_SPIBT_UP).status = eSTATUS_STOP
      rw [hkeep]
      exact e2
  · intro h hne
    obtain ⟨q1, q2⟩ := hquiet (fun k hk => h k (by omega))
    have hstep : check_spibt (extern_efuse files) (n + 1) w =
        check_spibt_poll (extern_efuse files) (check_spibt (extern_efuse files) n w).2
          (check_spibt (extern_efuse files) n w).1 := rfl
    have hu2 : (((check_spibt (extern_efuse files) n w).1).m1_item eITEM_SPIBT_UP).result
        ≠ eRESULT_PASS := by rw [q2]; exact hu
    have hsame1 : (extern_efuse files).get_efuse_mac
        (check_spibt (extern_efuse files) n w).2.reads =
        (check_spibt (extern_efuse files) n w).2.status := by
      rw [q1]
      exact hsame (1 + 2 * n) 0 (h (1 + 2 * n) (by omega))
    obtain ⟨a1, a2⟩ := spibt_item_quiet (extern_efuse files) eITEM_SPIBT_UP _ _ hu2 hsame1
    have hd2 : ((check_spibt_item (extern_efuse files) eITEM_SPIBT_UP
        (check_spibt (extern_efuse files) n w).2
        (check_spibt (extern_efuse files) n w).1).1.m1_item eITEM_SPIBT_DN).result
        ≠ eRESULT_PASS := by rw [a2, q2]; exact hd
    have hdiff : (extern_efuse files).get_efuse_mac
        (check_spibt_item (extern_efuse files) eITEM_SPIBT_UP
          (check_spibt (extern_efuse files) n w).2
          (check_spibt (extern_efuse files) n w).1).2.reads ≠
        (check_spibt_item (extern_efuse files) eITEM_SPIBT_UP
          (check_spibt (extern_efuse files) n w).2
          (check_spibt (extern_efuse files) n w).1).2.status := by
      rw [a1, q1]
      show (extern_efuse files).get_efuse_mac (1 + 2 * n + 1) ≠
        (extern_efuse files).get_efuse_mac 0
      rw [show 1 + 2 * n + 1 = 2 * n + 2 by omega]
      exact hne_flag _ hne
    obtain ⟨e1, e2⟩ := spibt_item_edge (extern_efuse files) eITEM_SPIBT_DN _ _ hd2 hdiff
    have hfr := spibt_item_frame (extern_efuse files) eITEM_SPIBT_DN
      (check_spibt_item (extern_efuse files) eITEM_SPIBT_UP
        (check_spibt (extern_efuse files) n w).2 (check_spibt (extern_efuse files) n w).1).2
      (check_spibt_item (extern_efuse files) eITEM_SPIBT_UP
        (check_spibt (extern_efuse files) n w).2 (check_spibt (extern_efuse files) n w).1).1
      eITEM_SPIBT_UP (by decide)
    rw [hstep]
    simp only [check_spibt_poll]
    refine ⟨?_, ?_, ?_⟩
    · show ((check_spibt_item (extern_efuse files) eITEM_SPIBT_DN _ _).1.m1_item
        eITEM_SPIBT_DN).result = eRESULT_PASS
      exact e1
    · show ((check_spibt_item (extern_efuse files) eITEM_SPIBT_DN _ _).1.m1_item
        eITEM_SPIBT_DN).status = eSTATUS_STOP
      exact e2
    · show ((check_spibt_item (extern_efuse files) eITEM_SPIBT_DN _ _).1.m1_item
        eITEM_SPIBT_UP).result = (w.m1_item eITEM_SPIBT_UP).result
      rw [hfr, a2, q2]
  · intro hpass
    by_contra hno
    have hall : ∀ k, k < 2 * n → efuse_value (files (k + 1)) = efuse_value (files k) := by
      intro k hk
      by_contra hk2
      exact hno ⟨k, hk, hk2⟩
    have hconst := steps_constant (fun k => (extern_efuse files).get_efuse_mac k) (2 * n)
      (fun k hk => by
        show (get_efuse_mac (files (k + 1)) []).2 = (get_efuse_mac (files k) []).2
        exact efuse_flag_of_value _ _ (hall k hk))
    obtain ⟨_, q2⟩ := spibt_quiet (extern_efuse files) n w hu hd hconst
    have hres : ∀ j, ((check_spibt (extern_efuse files) n w).1.m1_item j).result =
        (w.m1_item j).result := by
      intro j
      rw [q2]
      exact (spibt_init_spec (extern_efuse files) w).2 j
    rcases hpass with hp | hp
    · rw [hres] at hp; exact hu hp
    · rw [hres] at hp; exact hd hp

set_option maxRecDepth 100000 in
/-- C21, amended, on reads that yield a value and then find no file.  When the
file is gone from call 3 on, the first poll changes nothing and the second
sets `eITEM_SPIBT_UP` to PASS; when it is gone from call 2 on, the first poll
sets `eITEM_SPIBT_DN` to PASS and leaves `eITEM_SPIBT_UP` at FAIL. -/
theorem spibt_edge_on_outcome_witness :
    ((check_spibt (extern_efuse efuse_pulled) 1 world_init).1.m1_item eITEM_SPIBT_UP).result
      = (world_init.m1_item eITEM_SPIBT_UP).result ∧
    ((check_spibt (extern_efuse efuse_pulled) 2 world_init).1.m1_item eITEM_SPIBT_UP).result
      = eRESULT_PASS ∧
    ((check_spibt (extern_efuse efuse_pulled_early) 1 world_init).1.m1_item
      eITEM_SPIBT_DN).result = eRESULT_PASS ∧
    ((check_spibt (extern_efuse efuse_pulled_early) 1 world_init).1.m1_item
      eITEM_SPIBT_UP).result = eRESULT_FAIL ∧
    ∃ k, k < 2 * 2 ∧ efuse_value (efuse_pulled (k + 1)) ≠ efuse_value (efuse_pulled k) :=
  ⟨((spibt_edge_on_outcome efuse_pulled world_init 1 (by decide) (by decide)).2.2.1
      (by decide)).1,
   ((spibt_edge_on_outcome efuse_pulled world_init 1 (by decide) (by decide)).2.2.2.1
      (by decide) (by decide)).1,
   ((spibt_edge_on_outcome efuse_pulled_early world_init 0 (by decide) (by decide)).2.2.2.2.1
      (by decide) (by decide)).1,
   ((spibt_edge_on_outcome efuse_pulled_early world_init 0 (by decide) (by decide)).2.2.2.2.1
      (by decide) (by decide)).2.2,
   (spibt_edge_on_outcome efuse_pulled world_init 2 (by decide) (by decide)).2.2.2.2.2
      (Or.inl (by decide))⟩

end M1Jig
